import Mathlib

/-!
Verification development for the gesture-driven camera-control engine of
`AstroPhysics/vision/webcam_finger_tracker.py`.

The Python module mutates a single `CameraControlState` dataclass once per
captured frame.  Here the per-frame update `_update_camera_controls` is
embedded as a pure function on an explicit state record; Python floats are
modelled as real numbers, `time.perf_counter()` is passed in as the explicit
parameter `now`, and the in-place mutations are expressed as sequenced record
updates that follow the source line by line.  File I/O in
`_export_live_controls` is elided except for its effect on the state field
`last_write_ts`.

Naming: Python identifiers are kept wherever possible.  The fields and local
variables called `*_ratio`/`ratio` in the source are spelled `*_rat`/`rat`
here; `neutral_initialized` is spelled `neutral_init`.
-/

open Classical

/-! ## Tuning constants (module constants, lines 70-132 of the source) -/

noncomputable def ZOOM_MIN : ℝ := 0.05
noncomputable def ZOOM_MAX : ℝ := 2.60
noncomputable def WAVE_AMP_MIN : ℝ := 0.25
noncomputable def WAVE_AMP_MAX : ℝ := 1.80
noncomputable def ZOOM_GESTURE_LERP : ℝ := 0.30
noncomputable def ZOOM_RATIO_POWER : ℝ := 1.55
noncomputable def AMP_RATIO_POWER : ℝ := 1.10
noncomputable def ZOOM_RATIO_MIN : ℝ := 0.45
noncomputable def ZOOM_RATIO_MAX : ℝ := 2.20
noncomputable def ZOOM_RATIO_DEADBAND : ℝ := 0.045
noncomputable def ZOOM_SNAP_WINDOW : ℝ := 0.12
noncomputable def ZOOM_SNAP_STRENGTH : ℝ := 0.55
noncomputable def FIST_TOGGLE_COOLDOWN_SEC : ℝ := 0.70
noncomputable def FIST_HOLD_TO_TOGGLE_SEC : ℝ := 0.25
noncomputable def FIST_RELEASE_RESET_SEC : ℝ := 0.25
noncomputable def CONTROL_WRITE_HZ : ℝ := 30.0
noncomputable def HAND_X_DEADZONE_NORM : ℝ := 0.038
noncomputable def HAND_X_MAX_EFFECT_NORM : ℝ := 0.26
noncomputable def HAND_X_ROTATE_MAX_DEG_PER_SEC : ℝ := 225.0
noncomputable def HAND_X_RESPONSE_EXP : ℝ := 0.78
noncomputable def HAND_X_MIN_SPEED_FRACTION : ℝ := 0.20
noncomputable def PITCH_CENTER_Y : ℝ := 0.55
noncomputable def PITCH_MIN_DEG : ℝ := -68.0
noncomputable def PITCH_MAX_DEG : ℝ := 68.0
noncomputable def ZOOM_MOVE_ALPHA : ℝ := 0.35
noncomputable def ZOOM_MOVE_X_DEADZONE_NORM : ℝ := 0.035
noncomputable def ZOOM_MOVE_Y_DEADZONE_NORM : ℝ := 0.040
noncomputable def ZOOM_MOVE_MAX_EFFECT_NORM : ℝ := 0.30
noncomputable def ZOOM_MOVE_X_MAX_DEG_PER_SEC : ℝ := 140.0
noncomputable def ZOOM_MOVE_Y_MAX_DEG_PER_SEC : ℝ := 140.0
noncomputable def ZOOM_MOVE_RESPONSE_EXP : ℝ := 1.15
noncomputable def ZOOM_MOVE_ZOOM_DAMPING_EXP : ℝ := 1.25
noncomputable def ZOOM_MOVE_ZOOM_DAMPING_MIN : ℝ := 0.28
noncomputable def PINCH_POSE_THRESHOLD : ℝ := 0.36
noncomputable def PINCH_STEP_COOLDOWN_SEC : ℝ := 0.30
noncomputable def PINCH_STATE_DOUBLE_WINDOW_SEC : ℝ := 0.55
noncomputable def PINCH_STATE_HOLD_SEC : ℝ := 0.65
noncomputable def PINCH_STATE_RESOLVE_HOLD_SEC : ℝ := 0.45

/-- ZOOM_SNAP_MARKS = (1.00, 1.50, 2.00) as a list, head split off so that
Python `min(marks, key=...)` can be modelled as a fold from the first mark. -/
noncomputable def ZOOM_SNAP_MARKS_HEAD : ℝ := 1.00

noncomputable def ZOOM_SNAP_MARKS_TAIL : List ℝ := [1.50, 2.00]

/-! ## Small numeric helpers -/

/-- Source `_clamp(value, lo, hi) = max(lo, min(hi, value))`. -/
noncomputable def _clamp (value lo hi : ℝ) : ℝ := max lo (min hi value)

/-- Model of `math.hypot(x, y)`. -/
noncomputable def hypot (x y : ℝ) : ℝ := Real.sqrt (x ^ 2 + y ^ 2)

/-- First while-loop of `_normalize_angle_deg`:
`while angle > 180.0: angle -= 360.0`. -/
noncomputable def normSubLoop (angle : ℝ) : ℝ :=
  if h : angle > 180 then normSubLoop (angle - 360) else angle
termination_by (⌈(angle - 180) / 360⌉).toNat
decreasing_by
  have h1 : (0:ℝ) < (angle - 180) / 360 := by
    have : (0:ℝ) < angle - 180 := by linarith
    positivity
  have h2 : ⌈(angle - 360 - 180) / 360⌉ = ⌈(angle - 180) / 360⌉ - 1 := by
    have hx : (angle - 360 - 180) / 360 = (angle - 180) / 360 - 1 := by ring
    rw [hx]
    exact_mod_cast Int.ceil_sub_int ((angle - 180) / 360) 1
  have h3 : 1 ≤ ⌈(angle - 180) / 360⌉ := Int.ceil_pos.mpr h1
  simp only [h2]
  omega

/-- Second while-loop of `_normalize_angle_deg`:
`while angle < -180.0: angle += 360.0`. -/
noncomputable def normAddLoop (angle : ℝ) : ℝ :=
  if h : angle < -180 then normAddLoop (angle + 360) else angle
termination_by (⌈(-180 - angle) / 360⌉).toNat
decreasing_by
  have h1 : (0:ℝ) < (-180 - angle) / 360 := by
    have : (0:ℝ) < -180 - angle := by linarith
    positivity
  have h2 : ⌈(-180 - (angle + 360)) / 360⌉ = ⌈(-180 - angle) / 360⌉ - 1 := by
    have hx : (-180 - (angle + 360)) / 360 = (-180 - angle) / 360 - 1 := by ring
    rw [hx]
    exact_mod_cast Int.ceil_sub_int ((-180 - angle) / 360) 1
  have h3 : 1 ≤ ⌈(-180 - angle) / 360⌉ := Int.ceil_pos.mpr h1
  simp only [h2]
  omega

/-- Source `_normalize_angle_deg` (lines 750-755): runs both while-loops. -/
noncomputable def _normalize_angle_deg (angle : ℝ) : ℝ :=
  normAddLoop (normSubLoop angle)

/-- Source `_axis_speed_from_offset` (lines 807-822).  Python `**` on
nonnegative floats is real exponentiation, modelled by `Real.rpow`. -/
noncomputable def _axis_speed_from_offset (offset deadzone max_effect
    max_speed response_exp : ℝ) : ℝ :=
  let mag := |offset|
  if mag ≤ deadzone then 0
  else
    let n0 := (mag - deadzone) / max 1e-6 (max_effect - deadzone)
    let n1 := _clamp n0 0 1
    let n2 := n1 ^ response_exp
    let speed := max_speed * n2
    if offset > 0 then speed else -speed

/-- Source `_hand_x_rotation_speed_deg_per_sec` (lines 776-789). -/
noncomputable def _hand_x_rotation_speed_deg_per_sec (wrist_x neutral_x : ℝ) : ℝ :=
  let offset := wrist_x - neutral_x
  let mag := |offset|
  if mag ≤ HAND_X_DEADZONE_NORM then 0
  else
    let n0 := (mag - HAND_X_DEADZONE_NORM) /
      max 1e-6 (HAND_X_MAX_EFFECT_NORM - HAND_X_DEADZONE_NORM)
    let n1 := _clamp n0 0 1
    let n2 := n1 ^ HAND_X_RESPONSE_EXP
    let speed_norm := HAND_X_MIN_SPEED_FRACTION +
      (1 - HAND_X_MIN_SPEED_FRACTION) * n2
    let speed := HAND_X_ROTATE_MAX_DEG_PER_SEC * speed_norm
    if offset > 0 then speed else -speed

/-- Source `_zoom_move_sensitivity_scale` (lines 825-829). -/
noncomputable def _zoom_move_sensitivity_scale (zoom : ℝ) : ℝ :=
  let z := max 1 zoom
  _clamp (1 / z ^ ZOOM_MOVE_ZOOM_DAMPING_EXP) ZOOM_MOVE_ZOOM_DAMPING_MIN 1

/-! ## Candidate hands and the camera-control state -/

/-- Model of the per-hand candidate dict built in `_render_tracked_hands`
(lines 1300-1314); only the fields read by `_update_camera_controls` and
`_two_hand_zoom_pair` are kept.  `pinch_rat` is the dict entry
named `pinch_ratio` in the source. -/
structure Candidate where
  label : String
  score : ℝ
  gesture : String
  pinch_rat : ℝ
  pinch_pose : Bool
  pair_center : ℝ × ℝ
  palm_scale : ℝ

/-- Model of the dataclass `CameraControlState` (lines 149-206) with its
default field values.  Fields are listed in source order; the fields named
`*_pinch_ratio` and `neutral_initialized` in the source are spelled
`*_pinch_rat` and `neutral_init`. -/
structure CameraControlState where
  zoom : ℝ := 1.0
  rotation_deg : ℝ := 0.0
  pitch_deg : ℝ := 0.0
  wave_amp : ℝ := 1.0
  paused : Bool := false
  camera_locked : Bool := false
  demo_phase : ℝ := 0.0
  single_fist_latched : Bool := false
  dual_fist_latched : Bool := false
  single_fist_hold_start_ts : ℝ := 0.0
  dual_fist_hold_start_ts : ℝ := 0.0
  fist_release_start_ts : ℝ := 0.0
  last_single_toggle_ts : ℝ := 0.0
  last_dual_toggle_ts : ℝ := 0.0
  last_frame_ts : ℝ := 0.0
  last_write_ts : ℝ := 0.0
  source_label : String := "Unknown"
  source_gesture : String := "none"
  source_pinch_rat : ℝ := 0.0
  wrist_has_prev : Bool := false
  wrist_prev_deg : ℝ := 0.0
  wrist_smooth_deg : ℝ := 0.0
  right_pinch_latched : Bool := false
  left_pinch_latched : Bool := false
  last_n_step_ts : ℝ := 0.0
  n_inc_count : ℕ := 0
  n_dec_count : ℕ := 0
  zoom_gesture_active : Bool := false
  zoom_anchor_metric : ℝ := 0.0
  zoom_anchor_zoom : ℝ := 1.0
  zoom_anchor_amp : ℝ := 1.0
  zoom_line_active : Bool := false
  zoom_line_ax : ℝ := 0.5
  zoom_line_ay : ℝ := 0.5
  zoom_line_bx : ℝ := 0.5
  zoom_line_by : ℝ := 0.5
  zoom_velocity : ℝ := 0.0
  zoom_confidence : ℝ := 0.0
  zoom_move_anchor_active : Bool := false
  zoom_move_anchor_x : ℝ := 0.50
  zoom_move_anchor_y : ℝ := 0.50
  zoom_move_smooth_x : ℝ := 0.50
  zoom_move_smooth_y : ℝ := 0.50
  neutral_init : Bool := false
  neutral_wrist_deg : ℝ := -90.0
  neutral_wrist_x : ℝ := 0.50
  rotation_enable_ts : ℝ := 0.0
  right_pinch_pending_count : ℕ := 0
  left_pinch_pending_count : ℕ := 0
  right_pinch_pending_deadline_ts : ℝ := 0.0
  left_pinch_pending_deadline_ts : ℝ := 0.0
  right_pinch_state : String := "idle"
  left_pinch_state : String := "idle"
  right_pinch_state_until_ts : ℝ := 0.0
  left_pinch_state_until_ts : ℝ := 0.0
  pinch_suppressed_reason : String := "none"

/-- The state created once at process start: `CameraControlState()`. -/
noncomputable def initControl : CameraControlState := {}

/-! ## Hand selection (lines 972-987) -/

/-- Model of Python `str.lower()` on hand labels. -/
def strLower (s : String) : String := ⟨s.data.map Char.toLower⟩

/-- Python `max(lst, key=lambda c: c.score)`: first element of maximal
score (Python `max` keeps the earliest maximum). -/
noncomputable def maxByScore : List Candidate → Option Candidate
  | [] => none
  | x :: xs => some (xs.foldl (fun best h => if h.score > best.score then h else best) x)

/-- Source `_select_control_hand` (lines 972-979). -/
noncomputable def _select_control_hand (candidates : List Candidate) :
    Option Candidate :=
  match candidates with
  | [] => none
  | _ =>
    let right_hands := candidates.filter (fun c => strLower c.label = "right")
    match right_hands with
    | [] => maxByScore candidates
    | _ => maxByScore right_hands

/-- Source `_best_hand_by_label` (lines 982-987). -/
noncomputable def _best_hand_by_label (candidates : List Candidate)
    (wanted_label : String) : Option Candidate :=
  let wanted := strLower wanted_label
  maxByScore (candidates.filter (fun c => strLower c.label = wanted))

/-! ## The two-hand zoom pair (lines 839-867) -/

/-- Stable insertion of a candidate into a by-score descending list; an
element inserted from the left goes before later elements of equal score,
so `sortByScoreDesc` computes exactly what Python's stable
`list.sort(key=score, reverse=True)` computes. -/
noncomputable def insertByScoreDesc (x : Candidate) :
    List Candidate → List Candidate
  | [] => [x]
  | y :: ys =>
    if x.score ≥ y.score then x :: y :: ys else y :: insertByScoreDesc x ys

/-- Stable descending sort by score (model of
`eligible.sort(key=lambda c: c["score"], reverse=True)`). -/
noncomputable def sortByScoreDesc : List Candidate → List Candidate
  | [] => []
  | x :: xs => insertByScoreDesc x (sortByScoreDesc xs)

/-- Source `_two_hand_zoom_pair` (lines 839-851): the two highest-score
pinch-pose candidates and the normalized distance metric between their
thumb-index midpoints. -/
noncomputable def _two_hand_zoom_pair (candidates : List Candidate) :
    Option (Candidate × Candidate × ℝ) :=
  let eligible := candidates.filter (fun c => c.pinch_pose)
  if eligible.length < 2 then none
  else
    match sortByScoreDesc eligible with
    | a :: b :: _ =>
      let center_dist := hypot (a.pair_center.1 - b.pair_center.1)
        (a.pair_center.2 - b.pair_center.2)
      let scale := max 1e-4 (0.5 * (a.palm_scale + b.palm_scale))
      some (a, b, center_dist / scale)
    | _ => none

/-- Source `_zoom_pinch_confidence` (lines 862-867). -/
noncomputable def _zoom_pinch_confidence (a b : Candidate) : ℝ :=
  let denom := max 1e-6 (PINCH_POSE_THRESHOLD * 0.75)
  let conf_a := _clamp ((PINCH_POSE_THRESHOLD - a.pinch_rat) / denom) 0 1
  let conf_b := _clamp ((PINCH_POSE_THRESHOLD - b.pinch_rat) / denom) 0 1
  0.5 * (conf_a + conf_b)

/-! ## The per-frame update `_update_camera_controls` (lines 990-1265)

The body is split into stage functions, one per contiguous block of the
source; `updateStage*` names carry the line ranges they embed.  All stages
thread the state record in source order. -/

/-- Lines 1001-1003: record the active hand as the control source. -/
noncomputable def updateStageSources (c : CameraControlState)
    (active : Candidate) : CameraControlState :=
  { c with source_label := active.label,
           source_gesture := active.gesture,
           source_pinch_rat := active.pinch_rat }

/-- Lines 1008-1016: zoom-line overlay bookkeeping. -/
noncomputable def updateStageZoomLine (c : CameraControlState)
    (zoom_pair : Option (Candidate × Candidate × ℝ)) : CameraControlState :=
  match zoom_pair with
  | some (a, b, _) =>
    { c with zoom_line_active := true,
             zoom_line_ax := a.pair_center.1,
             zoom_line_ay := a.pair_center.2,
             zoom_line_bx := b.pair_center.1,
             zoom_line_by := b.pair_center.2,
             zoom_confidence := _zoom_pinch_confidence a b }
  | none =>
    { c with zoom_line_active := false, zoom_confidence := 0 }

/-- Lines 1043-1043: `min(ZOOM_SNAP_MARKS, key=lambda s: abs(target_zoom - s))`,
the first mark of minimal distance. -/
noncomputable def nearestSnapMark (target_zoom : ℝ) : ℝ :=
  ZOOM_SNAP_MARKS_TAIL.foldl
    (fun best s => if |target_zoom - s| < |target_zoom - best| then s else best)
    ZOOM_SNAP_MARKS_HEAD

/-- Lines 1034-1037: anchor-relative ratio with deadband snap and clamp. -/
noncomputable def zoomRatFromMetric (anchor_metric metric : ℝ) : ℝ :=
  let rat0 := metric / max 1e-4 anchor_metric
  let rat1 := if |rat0 - 1| < ZOOM_RATIO_DEADBAND then 1 else rat0
  _clamp rat1 ZOOM_RATIO_MIN ZOOM_RATIO_MAX

/-- Lines 1043-1048: magnetic snapping of the zoom target toward the nearest
preset mark. -/
noncomputable def snapZoomTarget (target_zoom : ℝ) : ℝ :=
  let nearest_snap := nearestSnapMark target_zoom
  let snap_dist := |target_zoom - nearest_snap|
  if snap_dist < ZOOM_SNAP_WINDOW then
    let snap_t := 1 - snap_dist / max 1e-6 ZOOM_SNAP_WINDOW
    let snap_alpha := ZOOM_SNAP_STRENGTH * snap_t
    (1 - snap_alpha) * target_zoom + snap_alpha * nearest_snap
  else target_zoom

/-- Lines 1038-1048: clamped power-law zoom target with magnetic snapping. -/
noncomputable def targetZoomOf (anchor_zoom rat : ℝ) : ℝ :=
  snapZoomTarget (_clamp (anchor_zoom * rat ^ ZOOM_RATIO_POWER) ZOOM_MIN ZOOM_MAX)

/-- Lines 1049-1053: clamped power-law wave-amplitude target. -/
noncomputable def targetAmpOf (anchor_amp rat : ℝ) : ℝ :=
  _clamp (anchor_amp * rat ^ AMP_RATIO_POWER) WAVE_AMP_MIN WAVE_AMP_MAX

/-- Lines 1018-1058: the zoom engine.  On the Idle-to-Active edge the current
zoom, wave amplitude and metric are recorded as anchors; while Active the
state lerps toward the anchored targets; with no pair this frame the engine
goes idle without touching zoom, amplitude or anchors. -/
noncomputable def updateStageZoomEngine (c : CameraControlState)
    (zoom_pair : Option (Candidate × Candidate × ℝ)) : CameraControlState :=
  match zoom_pair with
  | some (a, b, metric) =>
    let c1 :=
      if ¬c.zoom_gesture_active then
        let cx := 0.5 * (a.pair_center.1 + b.pair_center.1)
        let cy := 0.5 * (a.pair_center.2 + b.pair_center.2)
        { c with zoom_gesture_active := true,
                 zoom_anchor_metric := max 1e-4 metric,
                 zoom_anchor_zoom := c.zoom,
                 zoom_anchor_amp := c.wave_amp,
                 zoom_move_anchor_active := true,
                 zoom_move_anchor_x := cx,
                 zoom_move_anchor_y := cy,
                 zoom_move_smooth_x := cx,
                 zoom_move_smooth_y := cy }
      else c
    let rat := zoomRatFromMetric c1.zoom_anchor_metric metric
    let target_zoom := targetZoomOf c1.zoom_anchor_zoom rat
    let target_amp := targetAmpOf c1.zoom_anchor_amp rat
    { c1 with
        zoom := (1 - ZOOM_GESTURE_LERP) * c1.zoom + ZOOM_GESTURE_LERP * target_zoom,
        wave_amp := (1 - ZOOM_GESTURE_LERP) * c1.wave_amp + ZOOM_GESTURE_LERP * target_amp }
  | none =>
    { c with zoom_gesture_active := false, zoom_move_anchor_active := false }

/-- Lines 1060-1063: zoom velocity from the per-frame zoom delta. -/
noncomputable def updateStageZoomVelocity (c : CameraControlState)
    (zoom_before dt : ℝ) : CameraControlState :=
  if dt > 1e-6 then { c with zoom_velocity := (c.zoom - zoom_before) / dt }
  else { c with zoom_velocity := 0 }

/-- Lines 1065-1114: the rotation/pitch driver.  Runs only while unlocked
with an Active zoom pair and a positive frame delta; drives both angles from
the smoothed pair-midpoint offsets and renormalizes them. -/
noncomputable def updateStageRotation (c : CameraControlState)
    (zoom_pair : Option (Candidate × Candidate × ℝ)) (dt : ℝ) :
    CameraControlState :=
  if c.camera_locked then { c with zoom_move_anchor_active := false }
  else
    match zoom_pair with
    | some (a, b, _) =>
      if dt > 1e-6 then
        let cx := 0.5 * (a.pair_center.1 + b.pair_center.1)
        let cy := 0.5 * (a.pair_center.2 + b.pair_center.2)
        let c1 :=
          if ¬c.zoom_move_anchor_active then
            { c with zoom_move_anchor_active := true,
                     zoom_move_anchor_x := cx,
                     zoom_move_anchor_y := cy,
                     zoom_move_smooth_x := cx,
                     zoom_move_smooth_y := cy }
          else
            { c with
                zoom_move_smooth_x :=
                  (1 - ZOOM_MOVE_ALPHA) * c.zoom_move_smooth_x + ZOOM_MOVE_ALPHA * cx,
                zoom_move_smooth_y :=
                  (1 - ZOOM_MOVE_ALPHA) * c.zoom_move_smooth_y + ZOOM_MOVE_ALPHA * cy }
        let x_offset := 0.50 - c1.zoom_move_smooth_x
        let y_offset := PITCH_CENTER_Y - c1.zoom_move_smooth_y
        let zoom_scale := _zoom_move_sensitivity_scale c1.zoom
        let rot_speed := _axis_speed_from_offset x_offset
          ZOOM_MOVE_X_DEADZONE_NORM ZOOM_MOVE_MAX_EFFECT_NORM
          ZOOM_MOVE_X_MAX_DEG_PER_SEC ZOOM_MOVE_RESPONSE_EXP * zoom_scale
        let pitch_speed := _axis_speed_from_offset y_offset
          ZOOM_MOVE_Y_DEADZONE_NORM ZOOM_MOVE_MAX_EFFECT_NORM
          ZOOM_MOVE_Y_MAX_DEG_PER_SEC ZOOM_MOVE_RESPONSE_EXP * zoom_scale
        let c2 :=
          if rot_speed ≠ 0 then
            { c1 with rotation_deg :=
                _normalize_angle_deg (c1.rotation_deg + rot_speed * dt) }
          else c1
        if pitch_speed ≠ 0 then
          { c2 with pitch_deg :=
              _normalize_angle_deg (c2.pitch_deg + pitch_speed * dt) }
        else c2
      else { c with zoom_move_anchor_active := false }
    | none => { c with zoom_move_anchor_active := false }

/-- Lines 1124-1155: the Right-hand single-pinch step machine. -/
noncomputable def rightPinchBlock (c : CameraControlState) (now : ℝ)
    (zoom_active : Bool) : CameraControlState :=
  let cooldown_ok := now - c.last_n_step_ts ≥ PINCH_STEP_COOLDOWN_SEC
  let is_edge := ¬c.right_pinch_latched
  let c1 :=
    if is_edge then
      if zoom_active then
        { c with pinch_suppressed_reason := "zooming",
                 right_pinch_pending_count := 0,
                 right_pinch_pending_deadline_ts := 0,
                 right_pinch_state := "suppressed",
                 right_pinch_state_until_ts := now + PINCH_STATE_HOLD_SEC }
      else if ¬cooldown_ok then
        { c with pinch_suppressed_reason := "cooldown",
                 right_pinch_state := "suppressed",
                 right_pinch_state_until_ts := now + PINCH_STATE_HOLD_SEC }
      else
        let pending := c.right_pinch_pending_count + 1
        if pending ≥ 2 then
          { c with right_pinch_state := "double-pinch detected",
                   right_pinch_state_until_ts := now + PINCH_STATE_HOLD_SEC,
                   right_pinch_pending_count := 0,
                   right_pinch_pending_deadline_ts := 0 }
        else
          { c with right_pinch_pending_count := pending,
                   right_pinch_state := "single-pinch pending",
                   right_pinch_pending_deadline_ts :=
                     now + PINCH_STATE_DOUBLE_WINDOW_SEC,
                   right_pinch_state_until_ts :=
                     now + PINCH_STATE_DOUBLE_WINDOW_SEC }
    else c
  let c2 :=
    if is_edge ∧ zoom_active = false ∧ cooldown_ok then
      { c1 with n_inc_count := c1.n_inc_count + 1, last_n_step_ts := now }
    else c1
  { c2 with right_pinch_latched := true }

/-- Lines 1157-1188: the Left-hand single-pinch step machine. -/
noncomputable def leftPinchBlock (c : CameraControlState) (now : ℝ)
    (zoom_active : Bool) : CameraControlState :=
  let cooldown_ok := now - c.last_n_step_ts ≥ PINCH_STEP_COOLDOWN_SEC
  let is_edge := ¬c.left_pinch_latched
  let c1 :=
    if is_edge then
      if zoom_active then
        { c with pinch_suppressed_reason := "zooming",
                 left_pinch_pending_count := 0,
                 left_pinch_pending_deadline_ts := 0,
                 left_pinch_state := "suppressed",
                 left_pinch_state_until_ts := now + PINCH_STATE_HOLD_SEC }
      else if ¬cooldown_ok then
        { c with pinch_suppressed_reason := "cooldown",
                 left_pinch_state := "suppressed",
                 left_pinch_state_until_ts := now + PINCH_STATE_HOLD_SEC }
      else
        let pending := c.left_pinch_pending_count + 1
        if pending ≥ 2 then
          { c with left_pinch_state := "double-pinch detected",
                   left_pinch_state_until_ts := now + PINCH_STATE_HOLD_SEC,
                   left_pinch_pending_count := 0,
                   left_pinch_pending_deadline_ts := 0 }
        else
          { c with left_pinch_pending_count := pending,
                   left_pinch_state := "single-pinch pending",
                   left_pinch_pending_deadline_ts :=
                     now + PINCH_STATE_DOUBLE_WINDOW_SEC,
                   left_pinch_state_until_ts :=
                     now + PINCH_STATE_DOUBLE_WINDOW_SEC }
    else c
  let c2 :=
    if is_edge ∧ zoom_active = false ∧ cooldown_ok then
      { c1 with n_dec_count := c1.n_dec_count + 1, last_n_step_ts := now }
    else c1
  { c2 with left_pinch_latched := true }

/-- Whether the best hand labeled `Right` is in the pinch pose this frame:
`bool(right_hand and right_hand["pinch_pose"])` (line 1120). -/
noncomputable def rightPinching (candidates : List Candidate) : Bool :=
  match _best_hand_by_label candidates "Right" with
  | some h => h.pinch_pose
  | none => false

/-- Whether the best hand labeled `Left` is in the pinch pose this frame
(line 1121). -/
noncomputable def leftPinching (candidates : List Candidate) : Bool :=
  match _best_hand_by_label candidates "Left" with
  | some h => h.pinch_pose
  | none => false

/-- Lines 1118-1188: both single-pinch step machines, Right block first. -/
noncomputable def updateStagePinchSteps (c : CameraControlState)
    (candidates : List Candidate) (zoom_active : Bool) (now : ℝ) :
    CameraControlState :=
  let c1 :=
    if rightPinching candidates then rightPinchBlock c now zoom_active
    else { c with right_pinch_latched := false }
  if leftPinching candidates then leftPinchBlock c1 now zoom_active
  else { c1 with left_pinch_latched := false }

/-- Number of candidates classified as a fist (line 1190). -/
noncomputable def fistCount (candidates : List Candidate) : ℕ :=
  (candidates.filter (fun c => c.gesture = "fist")).length

/-- Lines 1216-1222 (also 1224-1230): neither fist condition holds, so both
hold timers reset and the shared release-reset clock runs. -/
noncomputable def releaseFists (c : CameraControlState) (now : ℝ) :
    CameraControlState :=
  let c1 := { c with single_fist_hold_start_ts := 0,
                     dual_fist_hold_start_ts := 0,
                     fist_release_start_ts :=
                       if c.fist_release_start_ts = 0 then now
                       else c.fist_release_start_ts }
  if now - c1.fist_release_start_ts ≥ FIST_RELEASE_RESET_SEC then
    { c1 with single_fist_latched := false, dual_fist_latched := false }
  else c1

/-- Lines 1190-1222: the two hold-to-toggle fist machines. -/
noncomputable def updateStageFists (c : CameraControlState)
    (candidates : List Candidate) (now : ℝ) : CameraControlState :=
  if fistCount candidates ≥ 2 then
    let c1 := { c with
        dual_fist_hold_start_ts :=
          if c.dual_fist_hold_start_ts = 0 then now
          else c.dual_fist_hold_start_ts,
        single_fist_hold_start_ts := 0,
        fist_release_start_ts := 0 }
    if now - c1.dual_fist_hold_start_ts ≥ FIST_HOLD_TO_TOGGLE_SEC ∧
        now - c1.last_dual_toggle_ts ≥ FIST_TOGGLE_COOLDOWN_SEC ∧
        c1.dual_fist_latched = false then
      { c1 with paused := !c1.paused,
                last_dual_toggle_ts := now,
                dual_fist_latched := true }
    else c1
  else if fistCount candidates = 1 ∧ candidates.length = 1 then
    let c1 := { c with
        single_fist_hold_start_ts :=
          if c.single_fist_hold_start_ts = 0 then now
          else c.single_fist_hold_start_ts,
        dual_fist_hold_start_ts := 0,
        fist_release_start_ts := 0 }
    if now - c1.single_fist_hold_start_ts ≥ FIST_HOLD_TO_TOGGLE_SEC ∧
        now - c1.last_single_toggle_ts ≥ FIST_TOGGLE_COOLDOWN_SEC ∧
        c1.single_fist_latched = false then
      { c1 with camera_locked := !c1.camera_locked,
                last_single_toggle_ts := now,
                single_fist_latched := true }
    else c1
  else releaseFists c now

/-- Lines 1224-1242: the no-active-hand branch. -/
noncomputable def updateStageNoActive (c : CameraControlState) (now : ℝ) :
    CameraControlState :=
  let c1 := releaseFists c now
  { c1 with source_label := "Unknown",
            source_gesture := "none",
            source_pinch_rat := 0,
            wrist_has_prev := false,
            neutral_init := false,
            zoom_gesture_active := false,
            zoom_line_active := false,
            zoom_velocity := 0,
            zoom_confidence := 0,
            zoom_move_anchor_active := false,
            right_pinch_latched := false,
            left_pinch_latched := false }

/-- Lines 1244-1260: resolution of the pending single/double-pinch display
sub-machines (Python chained comparison `now >= deadline > 0.0`). -/
noncomputable def updateStagePendingResolve (c : CameraControlState)
    (now : ℝ) : CameraControlState :=
  let c1 :=
    if c.right_pinch_pending_count = 1 ∧
        now ≥ c.right_pinch_pending_deadline_ts ∧
        c.right_pinch_pending_deadline_ts > 0 then
      { c with right_pinch_state := "single-pinch detected",
               right_pinch_state_until_ts := now + PINCH_STATE_RESOLVE_HOLD_SEC,
               right_pinch_pending_count := 0,
               right_pinch_pending_deadline_ts := 0 }
    else c
  let c2 :=
    if c1.left_pinch_pending_count = 1 ∧
        now ≥ c1.left_pinch_pending_deadline_ts ∧
        c1.left_pinch_pending_deadline_ts > 0 then
      { c1 with left_pinch_state := "single-pinch detected",
                left_pinch_state_until_ts := now + PINCH_STATE_RESOLVE_HOLD_SEC,
                left_pinch_pending_count := 0,
                left_pinch_pending_deadline_ts := 0 }
    else c1
  let c3 :=
    if c2.right_pinch_pending_count = 0 ∧
        now ≥ c2.right_pinch_state_until_ts ∧
        c2.right_pinch_state_until_ts > 0 then
      { c2 with right_pinch_state := "idle", right_pinch_state_until_ts := 0 }
    else c2
  if c3.left_pinch_pending_count = 0 ∧
      now ≥ c3.left_pinch_state_until_ts ∧
      c3.left_pinch_state_until_ts > 0 then
    { c3 with left_pinch_state := "idle", left_pinch_state_until_ts := 0 }
  else c3

/-- Source `_export_live_controls` (lines 936-969), restricted to its effect
on the state: the rate-limit timestamp.  The snapshot file write is I/O and
is elided. -/
noncomputable def _export_live_controls (c : CameraControlState) (now : ℝ) :
    CameraControlState :=
  let interval := 1 / max 1e-3 CONTROL_WRITE_HZ
  if now - c.last_write_ts < interval then c
  else { c with last_write_ts := now }

/-- Source `_update_camera_controls` (lines 990-1265): one full per-frame
update of the camera-control state, with `now` the value of
`time.perf_counter()` at entry. -/
noncomputable def _update_camera_controls (c : CameraControlState)
    (candidates : List Candidate) (now : ℝ) : CameraControlState :=
  let last_ts := if c.last_frame_ts = 0 then now else c.last_frame_ts
  let dt := max 0 (now - last_ts)
  let c0 := { c with last_frame_ts := now, pinch_suppressed_reason := "none" }
  let c1 :=
    match _select_control_hand candidates with
    | some active =>
      let zoom_before := c0.zoom
      let zoom_pair := _two_hand_zoom_pair candidates
      let cA := updateStageSources c0 active
      let cB := updateStageZoomLine cA zoom_pair
      let cC := updateStageZoomEngine cB zoom_pair
      let cD := updateStageZoomVelocity cC zoom_before dt
      let cE := updateStageRotation cD zoom_pair dt
      let cF := updateStagePinchSteps cE candidates zoom_pair.isSome now
      updateStageFists cF candidates now
    | none => updateStageNoActive c0 now
  let c2 := updateStagePendingResolve c1 now
  let c3 :=
    if c2.paused = false then { c2 with demo_phase := c2.demo_phase + dt * 2.2 }
    else c2
  _export_live_controls c3 now

/-- A whole execution: fold `_update_camera_controls` over a frame sequence,
each frame carrying its candidate list and its `time.perf_counter()` value. -/
noncomputable def runFrames (c : CameraControlState)
    (frames : List (List Candidate × ℝ)) : CameraControlState :=
  frames.foldl (fun s f => _update_camera_controls s f.1 f.2) c

/-! ## Gesture classification (lines 53-68, 294-354) -/

/-- A 21-point hand in the MediaPipe landmark format. -/
def Landmarks : Type := Fin 21 → ℝ × ℝ × ℝ

def WRIST : Fin 21 := 0
def THUMB_TIP : Fin 21 := 4
def INDEX_MCP : Fin 21 := 5
def INDEX_PIP : Fin 21 := 6
def INDEX_TIP : Fin 21 := 8
def MIDDLE_PIP : Fin 21 := 10
def MIDDLE_TIP : Fin 21 := 12
def RING_PIP : Fin 21 := 14
def RING_TIP : Fin 21 := 16
def PINKY_MCP : Fin 21 := 17
def PINKY_PIP : Fin 21 := 18
def PINKY_TIP : Fin 21 := 20

/-- Source `_dist_xy` (lines 294-299): planar distance between landmarks. -/
noncomputable def _dist_xy (landmarks : Landmarks) (idx_a idx_b : Fin 21) : ℝ :=
  hypot ((landmarks idx_a).1 - (landmarks idx_b).1)
    ((landmarks idx_a).2.1 - (landmarks idx_b).2.1)

/-- Source `_palm_scale` (lines 302-308): mean of three reference distances,
floor-clamped at `1e-4`. -/
noncomputable def _palm_scale (landmarks : Landmarks) : ℝ :=
  max ((_dist_xy landmarks WRIST INDEX_MCP + _dist_xy landmarks WRIST PINKY_MCP +
    _dist_xy landmarks INDEX_MCP PINKY_MCP) / 3) 1e-4

/-- Source `_finger_extended` (lines 311-316). -/
def _finger_extended (landmarks : Landmarks) (tip pip : Fin 21)
    (palm_scale : ℝ) : Prop :=
  _dist_xy landmarks tip WRIST > _dist_xy landmarks pip WRIST + 0.08 * palm_scale

/-- Source `classify_gesture` (lines 319-354): first matching branch wins. -/
noncomputable def classify_gesture (landmarks : Landmarks) : String :=
  let palm_scale := _palm_scale landmarks
  let thumb_index := _dist_xy landmarks THUMB_TIP INDEX_TIP
  let thumb_middle := _dist_xy landmarks THUMB_TIP MIDDLE_TIP
  let index_ext := _finger_extended landmarks INDEX_TIP INDEX_PIP palm_scale
  let middle_ext := _finger_extended landmarks MIDDLE_TIP MIDDLE_PIP palm_scale
  let ring_ext := _finger_extended landmarks RING_TIP RING_PIP palm_scale
  let pinky_ext := _finger_extended landmarks PINKY_TIP PINKY_PIP palm_scale
  if thumb_index < 0.36 * palm_scale ∧ thumb_middle < 0.36 * palm_scale then
    "two_finger_pinch"
  else if thumb_index < 0.32 * palm_scale then "pinch"
  else if index_ext ∧ middle_ext ∧ ring_ext ∧ pinky_ext then "open_hand"
  else if index_ext ∧ ¬middle_ext ∧ ¬ring_ext ∧ ¬pinky_ext then "point"
  else if ¬index_ext ∧ ¬middle_ext ∧ ¬ring_ext ∧ ¬pinky_ext ∧
      max (max (_dist_xy landmarks INDEX_TIP WRIST)
          (_dist_xy landmarks MIDDLE_TIP WRIST))
        (max (_dist_xy landmarks RING_TIP WRIST)
          (_dist_xy landmarks PINKY_TIP WRIST)) < 1.85 * palm_scale then
    "fist"
  else "none"

/-! ## Startup (`main`, lines 1604-1637)

The source's tuning constants are module-level literals; to express the
spec's counterfactual about degenerate configurations, the startup decision
of `main` is embedded as a function that receives the bound constants as an
explicit configuration record.  As in the source, no startup code path reads
any of these bounds: `main` checks the webcam, dispatches on the available
mediapipe API, and wraps the selected pipeline's startup in an
`except RuntimeError` handler (lines 1621-1632) that exits with code 1 —
the pipeline can raise before any frame is processed, e.g. on hand-model
download failure in `run_with_tasks` or OpenGL initialization failure. -/

/-- The camera-control bound constants, packaged as a configuration. -/
structure ControlConfig where
  zoom_min : ℝ
  zoom_max : ℝ
  wave_amp_min : ℝ
  wave_amp_max : ℝ
  pitch_min_deg : ℝ
  pitch_max_deg : ℝ

/-- The configuration compiled into the source. -/
noncomputable def defaultControlConfig : ControlConfig :=
  { zoom_min := ZOOM_MIN, zoom_max := ZOOM_MAX,
    wave_amp_min := WAVE_AMP_MIN, wave_amp_max := WAVE_AMP_MAX,
    pitch_min_deg := PITCH_MIN_DEG, pitch_max_deg := PITCH_MAX_DEG }

/-- Which mediapipe APIs the installed build exposes (`mp.solutions`,
`mp.tasks.vision`). -/
structure MediapipeApi where
  hasSolutions : Bool
  hasTasksVision : Bool

/-- Outcome of `main` before any frame is processed. -/
inductive StartupResult where
  | exited (code : ℕ)
  | enteredLoop (api : String)
deriving DecidableEq

/-- Startup decision sequence of `main` (lines 1604-1637): webcam check,
API dispatch, and the `except RuntimeError` guard around the selected
pipeline's startup.  `initRaises` records whether the selected pipeline
(`run_with_solutions` / `run_with_tasks`) raises `RuntimeError` before
processing any frame — e.g. hand-model download failure or OpenGL
initialization failure — in which case `main` prints a diagnostic and
returns 1.  The configuration is never examined. -/
def mainStartup (cfg : ControlConfig) (cameraOpened : Bool)
    (api : MediapipeApi) (initRaises : Bool) : StartupResult :=
  if cameraOpened = false then .exited 1
  else if api.hasSolutions then
    if initRaises then .exited 1 else .enteredLoop "solutions"
  else if api.hasTasksVision then
    if initRaises then .exited 1 else .enteredLoop "tasks"
  else .exited 1

/-! ## Basic lemmas about angle normalization -/

theorem normSubLoop_of_le (a : ℝ) (h : a ≤ 180) : normSubLoop a = a := by
  rw [normSubLoop]
  simp [not_lt.2 h]

theorem normSubLoop_of_gt (a : ℝ) (h : 180 < a) :
    normSubLoop a = normSubLoop (a - 360) := by
  rw [normSubLoop]
  simp [h]

theorem normSubLoop_le (a : ℝ) : normSubLoop a ≤ 180 := by
  by_cases h : a ≤ 180
  · rw [normSubLoop_of_le a h]; exact h
  · rw [normSubLoop_of_gt a (not_le.1 h)]
    exact normSubLoop_le (a - 360)
termination_by (⌈(a - 180) / 360⌉).toNat
decreasing_by
  have h1 : (0:ℝ) < (a - 180) / 360 := by
    have : (0:ℝ) < a - 180 := by
      have := not_le.1 h
      linarith
    positivity
  have h2 : ⌈(a - 360 - 180) / 360⌉ = ⌈(a - 180) / 360⌉ - 1 := by
    have hx : (a - 360 - 180) / 360 = (a - 180) / 360 - 1 := by ring
    rw [hx]
    exact_mod_cast Int.ceil_sub_int ((a - 180) / 360) 1
  have h3 : 1 ≤ ⌈(a - 180) / 360⌉ := Int.ceil_pos.mpr h1
  simp only [h2]
  omega

theorem normAddLoop_of_ge (a : ℝ) (h : -180 ≤ a) : normAddLoop a = a := by
  rw [normAddLoop]
  simp [not_lt.2 h]

theorem normAddLoop_of_lt (a : ℝ) (h : a < -180) :
    normAddLoop a = normAddLoop (a + 360) := by
  rw [normAddLoop]
  simp [h]

theorem normAddLoop_ge (a : ℝ) : -180 ≤ normAddLoop a := by
  by_cases h : -180 ≤ a
  · rw [normAddLoop_of_ge a h]; exact h
  · rw [normAddLoop_of_lt a (not_le.1 h)]
    exact normAddLoop_ge (a + 360)
termination_by (⌈(-180 - a) / 360⌉).toNat
decreasing_by
  have h1 : (0:ℝ) < (-180 - a) / 360 := by
    have : (0:ℝ) < -180 - a := by
      have := not_le.1 h
      linarith
    positivity
  have h2 : ⌈(-180 - (a + 360)) / 360⌉ = ⌈(-180 - a) / 360⌉ - 1 := by
    have hx : (-180 - (a + 360)) / 360 = (-180 - a) / 360 - 1 := by ring
    rw [hx]
    exact_mod_cast Int.ceil_sub_int ((-180 - a) / 360) 1
  have h3 : 1 ≤ ⌈(-180 - a) / 360⌉ := Int.ceil_pos.mpr h1
  simp only [h2]
  omega

theorem normAddLoop_le (a : ℝ) (hle : a ≤ 180) : normAddLoop a ≤ 180 := by
  by_cases h : -180 ≤ a
  · rw [normAddLoop_of_ge a h]; exact hle
  · rw [normAddLoop_of_lt a (not_le.1 h)]
    exact normAddLoop_le (a + 360) (by
      have := not_le.1 h
      linarith)
termination_by (⌈(-180 - a) / 360⌉).toNat
decreasing_by
  have h1 : (0:ℝ) < (-180 - a) / 360 := by
    have : (0:ℝ) < -180 - a := by
      have := not_le.1 h
      linarith
    positivity
  have h2 : ⌈(-180 - (a + 360)) / 360⌉ = ⌈(-180 - a) / 360⌉ - 1 := by
    have hx : (-180 - (a + 360)) / 360 = (-180 - a) / 360 - 1 := by ring
    rw [hx]
    exact_mod_cast Int.ceil_sub_int ((-180 - a) / 360) 1
  have h3 : 1 ≤ ⌈(-180 - a) / 360⌉ := Int.ceil_pos.mpr h1
  simp only [h2]
  omega

/-- The normalized angle always lands in the closed interval `[-180, 180]`. -/
theorem normalize_angle_mem (a : ℝ) :
    -180 ≤ _normalize_angle_deg a ∧ _normalize_angle_deg a ≤ 180 := by
  unfold _normalize_angle_deg
  exact ⟨normAddLoop_ge _, normAddLoop_le _ (normSubLoop_le a)⟩

/-- On inputs already inside `[-180, 180]` the normalization is the
identity. -/
theorem normalize_angle_of_mem (a : ℝ) (h1 : -180 ≤ a) (h2 : a ≤ 180) :
    _normalize_angle_deg a = a := by
  unfold _normalize_angle_deg
  rw [normSubLoop_of_le a h2, normAddLoop_of_ge a h1]

/-! ## C7: classification precedence -/

/-- C7: for every 21-landmark hand, `classify_gesture` applies the spec's
precedence with the first match winning: `two_finger_pinch` when both the
thumb-index and thumb-middle distances are below `0.36·palm`; otherwise
`pinch` when thumb-index is below `0.32·palm`; otherwise `open_hand` when
all four non-thumb fingers are extended; otherwise `point` when only the
index is extended; otherwise `fist` when no finger is extended and the
largest tip-to-wrist distance is below `1.85·palm`; otherwise `none`. -/
theorem classify_gesture_precedence (landmarks : Landmarks) :
    (classify_gesture landmarks = "two_finger_pinch" ↔
      (_dist_xy landmarks THUMB_TIP INDEX_TIP < 0.36 * _palm_scale landmarks ∧
       _dist_xy landmarks THUMB_TIP MIDDLE_TIP < 0.36 * _palm_scale landmarks)) ∧
    (classify_gesture landmarks = "pinch" ↔
      (¬(_dist_xy landmarks THUMB_TIP INDEX_TIP < 0.36 * _palm_scale landmarks ∧
         _dist_xy landmarks THUMB_TIP MIDDLE_TIP < 0.36 * _palm_scale landmarks) ∧
       _dist_xy landmarks THUMB_TIP INDEX_TIP < 0.32 * _palm_scale landmarks)) ∧
    (classify_gesture landmarks = "open_hand" ↔
      (¬(_dist_xy landmarks THUMB_TIP INDEX_TIP < 0.36 * _palm_scale landmarks ∧
         _dist_xy landmarks THUMB_TIP MIDDLE_TIP < 0.36 * _palm_scale landmarks) ∧
       ¬_dist_xy landmarks THUMB_TIP INDEX_TIP < 0.32 * _palm_scale landmarks ∧
       (_finger_extended landmarks INDEX_TIP INDEX_PIP (_palm_scale landmarks) ∧
        _finger_extended landmarks MIDDLE_TIP MIDDLE_PIP (_palm_scale landmarks) ∧
        _finger_extended landmarks RING_TIP RING_PIP (_palm_scale landmarks) ∧
        _finger_extended landmarks PINKY_TIP PINKY_PIP (_palm_scale landmarks)))) ∧
    (classify_gesture landmarks = "point" ↔
      (¬(_dist_xy landmarks THUMB_TIP INDEX_TIP < 0.36 * _palm_scale landmarks ∧
         _dist_xy landmarks THUMB_TIP MIDDLE_TIP < 0.36 * _palm_scale landmarks) ∧
       ¬_dist_xy landmarks THUMB_TIP INDEX_TIP < 0.32 * _palm_scale landmarks ∧
       ¬(_finger_extended landmarks INDEX_TIP INDEX_PIP (_palm_scale landmarks) ∧
         _finger_extended landmarks MIDDLE_TIP MIDDLE_PIP (_palm_scale landmarks) ∧
         _finger_extended landmarks RING_TIP RING_PIP (_palm_scale landmarks) ∧
         _finger_extended landmarks PINKY_TIP PINKY_PIP (_palm_scale landmarks)) ∧
       (_finger_extended landmarks INDEX_TIP INDEX_PIP (_palm_scale landmarks) ∧
        ¬_finger_extended landmarks MIDDLE_TIP MIDDLE_PIP (_palm_scale landmarks) ∧
        ¬_finger_extended landmarks RING_TIP RING_PIP (_palm_scale landmarks) ∧
        ¬_finger_extended landmarks PINKY_TIP PINKY_PIP (_palm_scale landmarks)))) ∧
    (classify_gesture landmarks = "fist" ↔
      (¬(_dist_xy landmarks THUMB_TIP INDEX_TIP < 0.36 * _palm_scale landmarks ∧
         _dist_xy landmarks THUMB_TIP MIDDLE_TIP < 0.36 * _palm_scale landmarks) ∧
       ¬_dist_xy landmarks THUMB_TIP INDEX_TIP < 0.32 * _palm_scale landmarks ∧
       ¬(_finger_extended landmarks INDEX_TIP INDEX_PIP (_palm_scale landmarks) ∧
         _finger_extended landmarks MIDDLE_TIP MIDDLE_PIP (_palm_scale landmarks) ∧
         _finger_extended landmarks RING_TIP RING_PIP (_palm_scale landmarks) ∧
         _finger_extended landmarks PINKY_TIP PINKY_PIP (_palm_scale landmarks)) ∧
       ¬(_finger_extended landmarks INDEX_TIP INDEX_PIP (_palm_scale landmarks) ∧
         ¬_finger_extended landmarks MIDDLE_TIP MIDDLE_PIP (_palm_scale landmarks) ∧
         ¬_finger_extended landmarks RING_TIP RING_PIP (_palm_scale landmarks) ∧
         ¬_finger_extended landmarks PINKY_TIP PINKY_PIP (_palm_scale landmarks)) ∧
       (¬_finger_extended landmarks INDEX_TIP INDEX_PIP (_palm_scale landmarks) ∧
        ¬_finger_extended landmarks MIDDLE_TIP MIDDLE_PIP (_palm_scale landmarks) ∧
        ¬_finger_extended landmarks RING_TIP RING_PIP (_palm_scale landmarks) ∧
        ¬_finger_extended landmarks PINKY_TIP PINKY_PIP (_palm_scale landmarks) ∧
        max (max (_dist_xy landmarks INDEX_TIP WRIST)
            (_dist_xy landmarks MIDDLE_TIP WRIST))
          (max (_dist_xy landmarks RING_TIP WRIST)
            (_dist_xy landmarks PINKY_TIP WRIST)) < 1.85 * _palm_scale landmarks))) ∧
    (classify_gesture landmarks = "none" ↔
      (¬(_dist_xy landmarks THUMB_TIP INDEX_TIP < 0.36 * _palm_scale landmarks ∧
         _dist_xy landmarks THUMB_TIP MIDDLE_TIP < 0.36 * _palm_scale landmarks) ∧
       ¬_dist_xy landmarks THUMB_TIP INDEX_TIP < 0.32 * _palm_scale landmarks ∧
       ¬(_finger_extended landmarks INDEX_TIP INDEX_PIP (_palm_scale landmarks) ∧
         _finger_extended landmarks MIDDLE_TIP MIDDLE_PIP (_palm_scale landmarks) ∧
         _finger_extended landmarks RING_TIP RING_PIP (_palm_scale landmarks) ∧
         _finger_extended landmarks PINKY_TIP PINKY_PIP (_palm_scale landmarks)) ∧
       ¬(_finger_extended landmarks INDEX_TIP INDEX_PIP (_palm_scale landmarks) ∧
         ¬_finger_extended landmarks MIDDLE_TIP MIDDLE_PIP (_palm_scale landmarks) ∧
         ¬_finger_extended landmarks RING_TIP RING_PIP (_palm_scale landmarks) ∧
         ¬_finger_extended landmarks PINKY_TIP PINKY_PIP (_palm_scale landmarks)) ∧
       ¬(¬_finger_extended landmarks INDEX_TIP INDEX_PIP (_palm_scale landmarks) ∧
         ¬_finger_extended landmarks MIDDLE_TIP MIDDLE_PIP (_palm_scale landmarks) ∧
         ¬_finger_extended landmarks RING_TIP RING_PIP (_palm_scale landmarks) ∧
         ¬_finger_extended landmarks PINKY_TIP PINKY_PIP (_palm_scale landmarks) ∧
         max (max (_dist_xy landmarks INDEX_TIP WRIST)
             (_dist_xy landmarks MIDDLE_TIP WRIST))
           (max (_dist_xy landmarks RING_TIP WRIST)
             (_dist_xy landmarks PINKY_TIP WRIST)) < 1.85 * _palm_scale landmarks))) := by
  unfold classify_gesture
  dsimp only
  split_ifs with h1 h2 h3 h4 h5 <;>
    refine ⟨?_, ?_, ?_, ?_, ?_, ?_⟩ <;> simp_all

/-! ## C6: degenerate configuration at startup -/

/-- C6 counterexample: with degenerate bounds (`ZOOM_MIN > ZOOM_MAX`), an
opening webcam, the `solutions` API present and a pipeline that starts
without raising, startup still enters the frame-processing loop — `main`
performs no configuration validation, so the claimed fatal abort does not
happen. -/
theorem startup_degenerate_config_counterexample :
    mainStartup
      { zoom_min := 2.60, zoom_max := 0.05, wave_amp_min := 0.25,
        wave_amp_max := 1.80, pitch_min_deg := -68, pitch_max_deg := 68 }
      true { hasSolutions := true, hasTasksVision := true } false =
      StartupResult.enteredLoop "solutions" ∧ (2.60 : ℝ) > 0.05 := by
  exact ⟨rfl, by norm_num⟩

/-- C6 (amended): startup never inspects the bound constants; in particular
with `MIN > MAX`, a working webcam and a pipeline that initializes cleanly
it still enters the frame loop rather than aborting.  The fatal startup
paths that do exist — webcam open failure, an unsupported mediapipe build,
and a `RuntimeError` raised while the selected pipeline starts up — are all
independent of the configuration. -/
theorem startup_ignores_config :
    (∀ (cfg cfg2 : ControlConfig) (cam : Bool) (api : MediapipeApi) (r : Bool),
      mainStartup cfg cam api r = mainStartup cfg2 cam api r) ∧
    (∀ (cfg : ControlConfig) (api : MediapipeApi),
      cfg.zoom_min > cfg.zoom_max → api.hasSolutions = true →
      mainStartup cfg true api false = StartupResult.enteredLoop "solutions") ∧
    (∀ (cfg : ControlConfig) (api : MediapipeApi) (r : Bool),
      mainStartup cfg false api r = StartupResult.exited 1) ∧
    (∀ (cfg : ControlConfig) (cam : Bool) (r : Bool),
      mainStartup cfg cam { hasSolutions := false, hasTasksVision := false } r =
        StartupResult.exited 1) ∧
    (∀ (cfg : ControlConfig) (api : MediapipeApi),
      mainStartup cfg true api true = StartupResult.exited 1) := by
  refine ⟨fun cfg cfg2 cam api r => rfl, fun cfg api _ h2 => ?_,
    fun cfg api r => rfl, fun cfg cam r => ?_, fun cfg api => ?_⟩
  · simp [mainStartup, h2]
  · cases cam <;> rfl
  · rcases api with ⟨s, t⟩
    cases s <;> cases t <;> rfl

/-- Witness for `startup_ignores_config` at a concrete degenerate
configuration. -/
theorem startup_ignores_config_witness :
    mainStartup
      { zoom_min := 2.60, zoom_max := 0.05, wave_amp_min := 0.25,
        wave_amp_max := 1.80, pitch_min_deg := -68, pitch_max_deg := 68 }
      true { hasSolutions := true, hasTasksVision := false } false =
      StartupResult.enteredLoop "solutions" :=
  startup_ignores_config.2.1 _ _ (by norm_num) rfl

/-! ## C5: the rotation-speed scenario -/

theorem axis_speed_scenario_eq :
    _axis_speed_from_offset 0.15 0.038 0.26 225 0.78 =
      225 * ((56 / 111 : ℝ) ^ (0.78 : ℝ)) := by
  unfold _axis_speed_from_offset
  rw [abs_of_nonneg (by norm_num : (0:ℝ) ≤ 0.15)]
  rw [if_neg (by norm_num)]
  dsimp only
  rw [if_pos (by norm_num)]
  norm_num [_clamp]

theorem rpow_56_111_pow_50 :
    ((56 / 111 : ℝ) ^ (0.78 : ℝ)) ^ (50 : ℕ) = (56 / 111 : ℝ) ^ (39 : ℕ) := by
  rw [← Real.rpow_natCast ((56 / 111 : ℝ) ^ (0.78 : ℝ)) 50,
    ← Real.rpow_mul (by norm_num : (0:ℝ) ≤ 56 / 111),
    show (0.78 : ℝ) * ((50 : ℕ) : ℝ) = ((39 : ℕ) : ℝ) by push_cast; norm_num,
    Real.rpow_natCast]

theorem rpow_56_111_low : (131 / 225 : ℝ) < (56 / 111 : ℝ) ^ (0.78 : ℝ) := by
  by_contra hcon
  push_neg at hcon
  have hp : (0:ℝ) ≤ (56 / 111 : ℝ) ^ (0.78 : ℝ) :=
    Real.rpow_nonneg (by norm_num) _
  have h50 : ((56 / 111 : ℝ) ^ (0.78 : ℝ)) ^ (50 : ℕ) ≤ (131 / 225 : ℝ) ^ (50 : ℕ) :=
    pow_le_pow_left₀ hp hcon 50
  rw [rpow_56_111_pow_50] at h50
  norm_num at h50

theorem rpow_56_111_high : (56 / 111 : ℝ) ^ (0.78 : ℝ) < (133 / 225 : ℝ) := by
  by_contra hcon
  push_neg at hcon
  have h50 : (133 / 225 : ℝ) ^ (50 : ℕ) ≤ ((56 / 111 : ℝ) ^ (0.78 : ℝ)) ^ (50 : ℕ) :=
    pow_le_pow_left₀ (by norm_num) hcon 50
  rw [rpow_56_111_pow_50] at h50
  norm_num at h50

/-- C5 counterexample: the scenario speed is below `140` deg/s and the
`dt = 0.1 s` rotation delta is below `14` degrees, so the spec's claimed
values of approximately `170` deg/s and approximately `17` degrees are
wrong. -/
theorem rotation_speed_scenario_counterexample :
    _axis_speed_from_offset 0.15 0.038 0.26 225 0.78 < 140 ∧
    _axis_speed_from_offset 0.15 0.038 0.26 225 0.78 * 0.1 < 14 := by
  have h := rpow_56_111_high
  rw [axis_speed_scenario_eq]
  constructor <;> nlinarith

/-- C5 (amended): with deadzone `0.038`, max-effect `0.26`, offset `0.15`,
max speed `225` deg/s and response exponent `0.78`, the axis-speed mapping
used by the rotation driver yields
`speed = 225·((0.15-0.038)/(0.26-0.038))^0.78 ≈ 132` deg/s (strictly between
`131` and `133`), and with `dt = 0.1 s` the applied rotation delta is
`speed·0.1 ≈ 13.2` degrees (strictly between `13.1` and `13.3`). -/
theorem rotation_speed_scenario :
    _axis_speed_from_offset 0.15 0.038 0.26 225 0.78 =
      225 * (((0.15 - 0.038) / (0.26 - 0.038) : ℝ) ^ (0.78 : ℝ)) ∧
    131 < _axis_speed_from_offset 0.15 0.038 0.26 225 0.78 ∧
    _axis_speed_from_offset 0.15 0.038 0.26 225 0.78 < 133 ∧
    13.1 < _axis_speed_from_offset 0.15 0.038 0.26 225 0.78 * 0.1 ∧
    _axis_speed_from_offset 0.15 0.038 0.26 225 0.78 * 0.1 < 13.3 := by
  have hlow := rpow_56_111_low
  have hhigh := rpow_56_111_high
  have heq := axis_speed_scenario_eq
  refine ⟨?_, ?_, ?_, ?_, ?_⟩
  · rw [heq]
    norm_num
  all_goals rw [heq]
  all_goals nlinarith

/-! ## Bounds lemmas for the zoom engine -/

theorem le_clamp (value lo hi : ℝ) : lo ≤ _clamp value lo hi :=
  le_max_left lo (min hi value)

theorem clamp_le (value lo hi : ℝ) (h : lo ≤ hi) : _clamp value lo hi ≤ hi :=
  max_le h (min_le_left hi value)

theorem convex_combo_bounds (x y a lo hi : ℝ) (hx1 : lo ≤ x) (hx2 : x ≤ hi)
    (hy1 : lo ≤ y) (hy2 : y ≤ hi) (ha1 : 0 ≤ a) (ha2 : a ≤ 1) :
    lo ≤ (1 - a) * x + a * y ∧ (1 - a) * x + a * y ≤ hi := by
  constructor <;> nlinarith

theorem nearestSnapMark_cases (t : ℝ) :
    nearestSnapMark t = 1 ∨ nearestSnapMark t = 1.5 ∨ nearestSnapMark t = 2 := by
  unfold nearestSnapMark ZOOM_SNAP_MARKS_TAIL ZOOM_SNAP_MARKS_HEAD
  dsimp [List.foldl]
  split_ifs <;> norm_num

theorem snapZoomTarget_bounds (t : ℝ) (h1 : ZOOM_MIN ≤ t) (h2 : t ≤ ZOOM_MAX) :
    ZOOM_MIN ≤ snapZoomTarget t ∧ snapZoomTarget t ≤ ZOOM_MAX := by
  unfold snapZoomTarget
  dsimp only
  split
  · rename_i hd
    have habs : 0 ≤ |t - nearestSnapMark t| := abs_nonneg _
    have hw : max (1e-6 : ℝ) ZOOM_SNAP_WINDOW = 0.12 := by
      rw [ZOOM_SNAP_WINDOW]; norm_num
    rw [hw]
    rw [ZOOM_SNAP_WINDOW] at hd
    have hq : |t - nearestSnapMark t| / 0.12 < 1 := by
      rw [div_lt_one (by norm_num)]
      linarith
    have hq0 : (0:ℝ) ≤ |t - nearestSnapMark t| / 0.12 := by positivity
    have ha1 : 0 ≤ ZOOM_SNAP_STRENGTH * (1 - |t - nearestSnapMark t| / 0.12) := by
      rw [ZOOM_SNAP_STRENGTH]; nlinarith
    have ha2 : ZOOM_SNAP_STRENGTH * (1 - |t - nearestSnapMark t| / 0.12) ≤ 1 := by
      rw [ZOOM_SNAP_STRENGTH]; nlinarith
    have hns1 : ZOOM_MIN ≤ nearestSnapMark t := by
      rcases nearestSnapMark_cases t with h | h | h <;> rw [h, ZOOM_MIN] <;> norm_num
    have hns2 : nearestSnapMark t ≤ ZOOM_MAX := by
      rcases nearestSnapMark_cases t with h | h | h <;> rw [h, ZOOM_MAX] <;> norm_num
    exact convex_combo_bounds t (nearestSnapMark t) _ ZOOM_MIN ZOOM_MAX h1 h2 hns1 hns2 ha1 ha2
  · exact ⟨h1, h2⟩

theorem targetZoomOf_bounds (anchor_zoom rat : ℝ) :
    ZOOM_MIN ≤ targetZoomOf anchor_zoom rat ∧
    targetZoomOf anchor_zoom rat ≤ ZOOM_MAX := by
  unfold targetZoomOf
  exact snapZoomTarget_bounds _ (le_clamp _ _ _)
    (clamp_le _ _ _ (by rw [ZOOM_MIN, ZOOM_MAX]; norm_num))

theorem targetAmpOf_bounds (anchor_amp rat : ℝ) :
    WAVE_AMP_MIN ≤ targetAmpOf anchor_amp rat ∧
    targetAmpOf anchor_amp rat ≤ WAVE_AMP_MAX := by
  unfold targetAmpOf
  exact ⟨le_clamp _ _ _,
    clamp_le _ _ _ (by rw [WAVE_AMP_MIN, WAVE_AMP_MAX]; norm_num)⟩

/-! ## Stage projection lemmas: fields each stage leaves unchanged -/

theorem updateStageSources_zoom (c : CameraControlState) (a : Candidate) :
    (updateStageSources c a).zoom = c.zoom := rfl

theorem updateStageSources_wave_amp (c : CameraControlState) (a : Candidate) :
    (updateStageSources c a).wave_amp = c.wave_amp := rfl

theorem updateStageSources_zoom_gesture_active (c : CameraControlState)
    (a : Candidate) :
    (updateStageSources c a).zoom_gesture_active = c.zoom_gesture_active := rfl

theorem updateStageZoomLine_zoom (c : CameraControlState)
    (zp : Option (Candidate × Candidate × ℝ)) :
    (updateStageZoomLine c zp).zoom = c.zoom := by
  cases zp with
  | none => rfl
  | some p => obtain ⟨a, b, m⟩ := p; rfl

theorem updateStageZoomLine_wave_amp (c : CameraControlState)
    (zp : Option (Candidate × Candidate × ℝ)) :
    (updateStageZoomLine c zp).wave_amp = c.wave_amp := by
  cases zp with
  | none => rfl
  | some p => obtain ⟨a, b, m⟩ := p; rfl

theorem updateStageZoomLine_zoom_gesture_active (c : CameraControlState)
    (zp : Option (Candidate × Candidate × ℝ)) :
    (updateStageZoomLine c zp).zoom_gesture_active = c.zoom_gesture_active := by
  cases zp with
  | none => rfl
  | some p => obtain ⟨a, b, m⟩ := p; rfl

theorem updateStageZoomVelocity_zoom (c : CameraControlState)
    (zoom_before dt : ℝ) :
    (updateStageZoomVelocity c zoom_before dt).zoom = c.zoom := by
  unfold updateStageZoomVelocity
  split <;> rfl

theorem updateStageZoomVelocity_wave_amp (c : CameraControlState)
    (zoom_before dt : ℝ) :
    (updateStageZoomVelocity c zoom_before dt).wave_amp = c.wave_amp := by
  unfold updateStageZoomVelocity
  split <;> rfl

theorem updateStageRotation_zoom (c : CameraControlState)
    (zp : Option (Candidate × Candidate × ℝ)) (dt : ℝ) :
    (updateStageRotation c zp dt).zoom = c.zoom := by
  unfold updateStageRotation
  dsimp only
  repeat' split
  all_goals rfl

theorem updateStageRotation_wave_amp (c : CameraControlState)
    (zp : Option (Candidate × Candidate × ℝ)) (dt : ℝ) :
    (updateStageRotation c zp dt).wave_amp = c.wave_amp := by
  unfold updateStageRotation
  dsimp only
  repeat' split
  all_goals rfl

theorem rightPinchBlock_zoom (c : CameraControlState) (now : ℝ) (za : Bool) :
    (rightPinchBlock c now za).zoom = c.zoom := by
  unfold rightPinchBlock
  dsimp only
  repeat' split
  all_goals rfl

theorem rightPinchBlock_wave_amp (c : CameraControlState) (now : ℝ) (za : Bool) :
    (rightPinchBlock c now za).wave_amp = c.wave_amp := by
  unfold rightPinchBlock
  dsimp only
  repeat' split
  all_goals rfl

theorem leftPinchBlock_zoom (c : CameraControlState) (now : ℝ) (za : Bool) :
    (leftPinchBlock c now za).zoom = c.zoom := by
  unfold leftPinchBlock
  dsimp only
  repeat' split
  all_goals rfl

theorem leftPinchBlock_wave_amp (c : CameraControlState) (now : ℝ) (za : Bool) :
    (leftPinchBlock c now za).wave_amp = c.wave_amp := by
  unfold leftPinchBlock
  dsimp only
  repeat' split
  all_goals rfl

theorem updateStagePinchSteps_zoom (c : CameraControlState)
    (cands : List Candidate) (za : Bool) (now : ℝ) :
    (updateStagePinchSteps c cands za now).zoom = c.zoom := by
  unfold updateStagePinchSteps
  dsimp only
  split <;> split <;>
    simp only [leftPinchBlock_zoom, rightPinchBlock_zoom]

theorem updateStagePinchSteps_wave_amp (c : CameraControlState)
    (cands : List Candidate) (za : Bool) (now : ℝ) :
    (updateStagePinchSteps c cands za now).wave_amp = c.wave_amp := by
  unfold updateStagePinchSteps
  dsimp only
  split <;> split <;>
    simp only [leftPinchBlock_wave_amp, rightPinchBlock_wave_amp]

theorem releaseFists_zoom (c : CameraControlState) (now : ℝ) :
    (releaseFists c now).zoom = c.zoom := by
  unfold releaseFists
  dsimp only
  repeat' split
  all_goals rfl

theorem releaseFists_wave_amp (c : CameraControlState) (now : ℝ) :
    (releaseFists c now).wave_amp = c.wave_amp := by
  unfold releaseFists
  dsimp only
  repeat' split
  all_goals rfl

theorem updateStageFists_zoom (c : CameraControlState)
    (cands : List Candidate) (now : ℝ) :
    (updateStageFists c cands now).zoom = c.zoom := by
  unfold updateStageFists
  dsimp only
  repeat' split
  all_goals first | rfl | exact releaseFists_zoom c now

theorem updateStageFists_wave_amp (c : CameraControlState)
    (cands : List Candidate) (now : ℝ) :
    (updateStageFists c cands now).wave_amp = c.wave_amp := by
  unfold updateStageFists
  dsimp only
  repeat' split
  all_goals first | rfl | exact releaseFists_wave_amp c now

theorem updateStageNoActive_zoom (c : CameraControlState) (now : ℝ) :
    (updateStageNoActive c now).zoom = c.zoom := by
  unfold updateStageNoActive
  dsimp only
  exact releaseFists_zoom c now

theorem updateStageNoActive_wave_amp (c : CameraControlState) (now : ℝ) :
    (updateStageNoActive c now).wave_amp = c.wave_amp := by
  unfold updateStageNoActive
  dsimp only
  exact releaseFists_wave_amp c now

theorem updateStagePendingResolve_zoom (c : CameraControlState) (now : ℝ) :
    (updateStagePendingResolve c now).zoom = c.zoom := by
  unfold updateStagePendingResolve
  dsimp only
  repeat' split
  all_goals rfl

theorem updateStagePendingResolve_wave_amp (c : CameraControlState) (now : ℝ) :
    (updateStagePendingResolve c now).wave_amp = c.wave_amp := by
  unfold updateStagePendingResolve
  dsimp only
  repeat' split
  all_goals rfl

theorem _export_live_controls_zoom (c : CameraControlState) (now : ℝ) :
    (_export_live_controls c now).zoom = c.zoom := by
  unfold _export_live_controls
  dsimp only
  split <;> rfl

theorem _export_live_controls_wave_amp (c : CameraControlState) (now : ℝ) :
    (_export_live_controls c now).wave_amp = c.wave_amp := by
  unfold _export_live_controls
  dsimp only
  split <;> rfl

/-- Projection helper for the demo-phase advance (lines 1262-1263). -/
theorem demoStep_zoom (x : CameraControlState) (e : ℝ) :
    (if x.paused = false then { x with demo_phase := e } else x).zoom = x.zoom := by
  split <;> rfl

theorem demoStep_wave_amp (x : CameraControlState) (e : ℝ) :
    (if x.paused = false then { x with demo_phase := e } else x).wave_amp =
      x.wave_amp := by
  split <;> rfl

/-! ## C3: bounds invariant for zoom and wave amplitude -/

theorem updateStageZoomEngine_bounds (c : CameraControlState)
    (zp : Option (Candidate × Candidate × ℝ))
    (hz1 : ZOOM_MIN ≤ c.zoom) (hz2 : c.zoom ≤ ZOOM_MAX)
    (ha1 : WAVE_AMP_MIN ≤ c.wave_amp) (ha2 : c.wave_amp ≤ WAVE_AMP_MAX) :
    ZOOM_MIN ≤ (updateStageZoomEngine c zp).zoom ∧
    (updateStageZoomEngine c zp).zoom ≤ ZOOM_MAX ∧
    WAVE_AMP_MIN ≤ (updateStageZoomEngine c zp).wave_amp ∧
    (updateStageZoomEngine c zp).wave_amp ≤ WAVE_AMP_MAX := by
  have hL1 : (0:ℝ) ≤ ZOOM_GESTURE_LERP := by rw [ZOOM_GESTURE_LERP]; norm_num
  have hL2 : ZOOM_GESTURE_LERP ≤ 1 := by rw [ZOOM_GESTURE_LERP]; norm_num
  unfold updateStageZoomEngine
  cases zp with
  | none => exact ⟨hz1, hz2, ha1, ha2⟩
  | some p =>
    obtain ⟨a, b, m⟩ := p
    dsimp only
    split
    · refine ⟨?_, ?_, ?_, ?_⟩
      · exact (convex_combo_bounds _ _ _ _ _ hz1 hz2
          (targetZoomOf_bounds _ _).1 (targetZoomOf_bounds _ _).2 hL1 hL2).1
      · exact (convex_combo_bounds _ _ _ _ _ hz1 hz2
          (targetZoomOf_bounds _ _).1 (targetZoomOf_bounds _ _).2 hL1 hL2).2
      · exact (convex_combo_bounds _ _ _ _ _ ha1 ha2
          (targetAmpOf_bounds _ _).1 (targetAmpOf_bounds _ _).2 hL1 hL2).1
      · exact (convex_combo_bounds _ _ _ _ _ ha1 ha2
          (targetAmpOf_bounds _ _).1 (targetAmpOf_bounds _ _).2 hL1 hL2).2
    · refine ⟨?_, ?_, ?_, ?_⟩
      · exact (convex_combo_bounds _ _ _ _ _ hz1 hz2
          (targetZoomOf_bounds _ _).1 (targetZoomOf_bounds _ _).2 hL1 hL2).1
      · exact (convex_combo_bounds _ _ _ _ _ hz1 hz2
          (targetZoomOf_bounds _ _).1 (targetZoomOf_bounds _ _).2 hL1 hL2).2
      · exact (convex_combo_bounds _ _ _ _ _ ha1 ha2
          (targetAmpOf_bounds _ _).1 (targetAmpOf_bounds _ _).2 hL1 hL2).1
      · exact (convex_combo_bounds _ _ _ _ _ ha1 ha2
          (targetAmpOf_bounds _ _).1 (targetAmpOf_bounds _ _).2 hL1 hL2).2

theorem update_zoom_amp_bounds (c : CameraControlState)
    (cands : List Candidate) (now : ℝ)
    (hz1 : ZOOM_MIN ≤ c.zoom) (hz2 : c.zoom ≤ ZOOM_MAX)
    (ha1 : WAVE_AMP_MIN ≤ c.wave_amp) (ha2 : c.wave_amp ≤ WAVE_AMP_MAX) :
    ZOOM_MIN ≤ (_update_camera_controls c cands now).zoom ∧
    (_update_camera_controls c cands now).zoom ≤ ZOOM_MAX ∧
    WAVE_AMP_MIN ≤ (_update_camera_controls c cands now).wave_amp ∧
    (_update_camera_controls c cands now).wave_amp ≤ WAVE_AMP_MAX := by
  unfold _update_camera_controls
  dsimp only
  simp only [_export_live_controls_zoom, _export_live_controls_wave_amp]
  rcases hsel : _select_control_hand cands with _ | active <;>
    simp only [hsel] <;>
    simp only [demoStep_zoom, demoStep_wave_amp] <;>
    simp only [updateStagePendingResolve_zoom, updateStagePendingResolve_wave_amp,
      updateStageFists_zoom, updateStageFists_wave_amp,
      updateStagePinchSteps_zoom, updateStagePinchSteps_wave_amp,
      updateStageRotation_zoom, updateStageRotation_wave_amp,
      updateStageZoomVelocity_zoom, updateStageZoomVelocity_wave_amp,
      updateStageNoActive_zoom, updateStageNoActive_wave_amp]
  all_goals
    first
      | exact ⟨hz1, hz2, ha1, ha2⟩
      | (refine updateStageZoomEngine_bounds _ _ ?_ ?_ ?_ ?_ <;>
          simp only [updateStageZoomLine_zoom, updateStageZoomLine_wave_amp,
            updateStageSources_zoom, updateStageSources_wave_amp] <;>
          first | exact hz1 | exact hz2 | exact ha1 | exact ha2)

theorem runFrames_zoom_amp_bounds (frames : List (List Candidate × ℝ)) :
    ∀ c : CameraControlState,
      ZOOM_MIN ≤ c.zoom → c.zoom ≤ ZOOM_MAX →
      WAVE_AMP_MIN ≤ c.wave_amp → c.wave_amp ≤ WAVE_AMP_MAX →
      ZOOM_MIN ≤ (runFrames c frames).zoom ∧
      (runFrames c frames).zoom ≤ ZOOM_MAX ∧
      WAVE_AMP_MIN ≤ (runFrames c frames).wave_amp ∧
      (runFrames c frames).wave_amp ≤ WAVE_AMP_MAX := by
  induction frames with
  | nil => exact fun c h1 h2 h3 h4 => ⟨h1, h2, h3, h4⟩
  | cons f fs ih =>
    intro c h1 h2 h3 h4
    obtain ⟨g1, g2, g3, g4⟩ := update_zoom_amp_bounds c f.1 f.2 h1 h2 h3 h4
    exact ih (_update_camera_controls c f.1 f.2) g1 g2 g3 g4

/-- C3: starting from the default state (`zoom = 1.0`, `wave_amp = 1.0`),
after every update of `_update_camera_controls` — i.e. after any sequence of
frames with arbitrary candidate hands and frame times, every prefix of which
is itself such a sequence — `zoom` stays within
`[ZOOM_MIN, ZOOM_MAX] = [0.05, 2.60]` and `wave_amp` stays within
`[WAVE_AMP_MIN, WAVE_AMP_MAX] = [0.25, 1.80]`. -/
theorem zoom_amp_bounds_inv (frames : List (List Candidate × ℝ)) :
    ZOOM_MIN ≤ (runFrames initControl frames).zoom ∧
    (runFrames initControl frames).zoom ≤ ZOOM_MAX ∧
    WAVE_AMP_MIN ≤ (runFrames initControl frames).wave_amp ∧
    (runFrames initControl frames).wave_amp ≤ WAVE_AMP_MAX := by
  refine runFrames_zoom_amp_bounds frames initControl ?_ ?_ ?_ ?_ <;>
    norm_num [initControl, ZOOM_MIN, ZOOM_MAX, WAVE_AMP_MIN, WAVE_AMP_MAX]

/-! ## Concrete candidate hands used in counterexample runs -/

/-- Hand `a` of the dual-pinch counterexample runs: an unlabeled pinching
hand whose thumb-index midpoint sits at `(0.8, 0.1)`. -/
noncomputable def candPairA : Candidate :=
  { label := "hand-a", score := 0.9, gesture := "pinch", pinch_rat := 0.2,
    pinch_pose := true, pair_center := (0.8, 0.1), palm_scale := 0.1 }

/-- Hand `b` of the dual-pinch counterexample runs, midpoint `(0.9, 0.1)`. -/
noncomputable def candPairB : Candidate :=
  { label := "hand-b", score := 0.8, gesture := "pinch", pinch_rat := 0.2,
    pinch_pose := true, pair_center := (0.9, 0.1), palm_scale := 0.1 }

theorem strLower_handa : strLower "hand-a" = "hand-a" := by decide

theorem strLower_handb : strLower "hand-b" = "hand-b" := by decide

theorem dec_handa_right : decide ("hand-a" = "right") = false := rfl

theorem dec_handb_right : decide ("hand-b" = "right") = false := rfl

theorem dec_handa_left : decide ("hand-a" = "left") = false := rfl

theorem dec_handb_left : decide ("hand-b" = "left") = false := rfl

theorem select_candPair :
    _select_control_hand [candPairA, candPairB] = some candPairA := by
  unfold _select_control_hand maxByScore
  norm_num [candPairA, candPairB, List.filter, strLower_handa, strLower_handb,
    dec_handa_right, dec_handb_right]

theorem pair_candPair :
    _two_hand_zoom_pair [candPairA, candPairB] = some (candPairA, candPairB, 1) := by
  unfold _two_hand_zoom_pair
  norm_num [candPairA, candPairB, List.filter, sortByScoreDesc,
    insertByScoreDesc, hypot]
  rw [show √(100:ℝ) = 10 by
    rw [show (100:ℝ) = 10 ^ 2 by norm_num, Real.sqrt_sq (by norm_num)]]
  norm_num

theorem dec_pinch_fist : decide (("pinch" : String) = "fist") = false := rfl

theorem strLower_Right : strLower "Right" = "right" := by decide

theorem strLower_Left : strLower "Left" = "left" := by decide

/-- State after frame 1 of the dual-pinch counterexample run: the zoom pair
anchors at metric 1 with the smoothed midpoint at `(0.85, 0.1)`. -/
noncomputable def c1State1 : CameraControlState :=
  { initControl with
      last_frame_ts := 1,
      source_label := "hand-a",
      source_gesture := "pinch",
      source_pinch_rat := 0.2,
      zoom_line_active := true,
      zoom_line_ax := 0.8,
      zoom_line_ay := 0.1,
      zoom_line_bx := 0.9,
      zoom_line_by := 0.1,
      zoom_confidence := 16 / 27,
      zoom_gesture_active := true,
      zoom_anchor_metric := 1,
      zoom_anchor_zoom := 1,
      zoom_anchor_amp := 1,
      zoom_move_anchor_active := false,
      zoom_move_anchor_x := 0.85,
      zoom_move_anchor_y := 0.1,
      zoom_move_smooth_x := 0.85,
      zoom_move_smooth_y := 0.1,
      fist_release_start_ts := 1,
      last_write_ts := 1 }

set_option maxHeartbeats 1000000 in
theorem c1_run1_eq :
    _update_camera_controls initControl [candPairA, candPairB] 1 = c1State1 := by
  unfold _update_camera_controls
  simp only [select_candPair, pair_candPair]
  unfold updateStageSources updateStageZoomLine updateStageZoomEngine
    updateStageZoomVelocity updateStageRotation updateStagePinchSteps
    rightPinchBlock leftPinchBlock rightPinching leftPinching
    updateStageFists releaseFists updateStagePendingResolve
    _export_live_controls _zoom_pinch_confidence zoomRatFromMetric targetZoomOf
    targetAmpOf snapZoomTarget nearestSnapMark _best_hand_by_label maxByScore
    fistCount _clamp
  norm_num [initControl, c1State1, candPairA, candPairB, List.filter,
    strLower_handa, strLower_handb, dec_handa_right, dec_handb_right,
    dec_handa_left, dec_handb_left, dec_pinch_fist, strLower_Right,
    strLower_Left, Real.one_rpow, ZOOM_SNAP_MARKS_TAIL, ZOOM_SNAP_MARKS_HEAD,
    ZOOM_RATIO_DEADBAND, ZOOM_RATIO_MIN, ZOOM_RATIO_MAX, ZOOM_RATIO_POWER,
    AMP_RATIO_POWER, ZOOM_MIN, ZOOM_MAX, WAVE_AMP_MIN, WAVE_AMP_MAX,
    ZOOM_SNAP_WINDOW, ZOOM_SNAP_STRENGTH, ZOOM_GESTURE_LERP,
    FIST_RELEASE_RESET_SEC, FIST_HOLD_TO_TOGGLE_SEC, FIST_TOGGLE_COOLDOWN_SEC,
    PINCH_STEP_COOLDOWN_SEC, PINCH_STATE_HOLD_SEC,
    PINCH_STATE_DOUBLE_WINDOW_SEC, PINCH_STATE_RESOLVE_HOLD_SEC,
    PINCH_POSE_THRESHOLD, CONTROL_WRITE_HZ, abs_of_nonneg, abs_of_nonpos,
    CameraControlState.mk.injEq]

theorem normalize_neg_180 : _normalize_angle_deg (-180) = -180 :=
  normalize_angle_of_mem _ (le_refl _) (by norm_num)

theorem normalize_pos_180 : _normalize_angle_deg 180 = 180 :=
  normalize_angle_of_mem _ (by norm_num) (le_refl _)

/-- C1 counterexample: starting from the default state, two frames of the
same dual-pinch candidates (midpoint `(0.85, 0.1)`) with frame times `1`
and `16/7` seconds drive the camera to `rotation_deg = -180`, outside the
claimed interval `(-180, 180]`, and to `pitch_deg = 180`, far outside the
claimed interval `[PITCH_MIN_DEG, PITCH_MAX_DEG] = [-68, 68]`: the code
normalizes pitch with `_normalize_angle_deg` instead of clamping it. -/
theorem angle_range_counterexample :
    (runFrames initControl
      [([candPairA, candPairB], 1), ([candPairA, candPairB], 16 / 7)]).rotation_deg
      = -180 ∧
    (runFrames initControl
      [([candPairA, candPairB], 1), ([candPairA, candPairB], 16 / 7)]).pitch_deg
      = 180 ∧
    ¬(-180 < (runFrames initControl
      [([candPairA, candPairB], 1), ([candPairA, candPairB], 16 / 7)]).rotation_deg) ∧
    ¬((runFrames initControl
      [([candPairA, candPairB], 1), ([candPairA, candPairB], 16 / 7)]).pitch_deg
      ≤ PITCH_MAX_DEG) := by
  have hrw : runFrames initControl
      [([candPairA, candPairB], 1), ([candPairA, candPairB], 16 / 7)] =
      _update_camera_controls
        (_update_camera_controls initControl [candPairA, candPairB] 1)
        [candPairA, candPairB] (16 / 7) := rfl
  rw [hrw, c1_run1_eq]
  have key : ∀ r : CameraControlState, r =
      _update_camera_controls c1State1 [candPairA, candPairB] (16 / 7) →
      r.rotation_deg = -180 ∧ r.pitch_deg = 180 := by
    intro r hr
    rw [hr]
    unfold _update_camera_controls
    simp only [select_candPair, pair_candPair]
    unfold updateStageSources updateStageZoomLine updateStageZoomEngine
      updateStageZoomVelocity updateStageRotation updateStagePinchSteps
      rightPinchBlock leftPinchBlock rightPinching leftPinching
      updateStageFists releaseFists updateStagePendingResolve
      _export_live_controls _zoom_pinch_confidence zoomRatFromMetric
      targetZoomOf targetAmpOf snapZoomTarget nearestSnapMark
      _best_hand_by_label maxByScore fistCount _clamp
      _axis_speed_from_offset _zoom_move_sensitivity_scale
    norm_num [c1State1, initControl, candPairA, candPairB, List.filter,
      strLower_handa, strLower_handb, dec_handa_right, dec_handb_right,
      dec_handa_left, dec_handb_left, dec_pinch_fist, strLower_Right,
      strLower_Left, Real.one_rpow, ZOOM_SNAP_MARKS_TAIL,
      ZOOM_SNAP_MARKS_HEAD, ZOOM_RATIO_DEADBAND, ZOOM_RATIO_MIN,
      ZOOM_RATIO_MAX, ZOOM_RATIO_POWER, AMP_RATIO_POWER, ZOOM_MIN, ZOOM_MAX,
      WAVE_AMP_MIN, WAVE_AMP_MAX, ZOOM_SNAP_WINDOW, ZOOM_SNAP_STRENGTH,
      ZOOM_GESTURE_LERP, FIST_RELEASE_RESET_SEC, FIST_HOLD_TO_TOGGLE_SEC,
      FIST_TOGGLE_COOLDOWN_SEC, PINCH_STEP_COOLDOWN_SEC, PINCH_STATE_HOLD_SEC,
      PINCH_STATE_DOUBLE_WINDOW_SEC, PINCH_STATE_RESOLVE_HOLD_SEC,
      PINCH_POSE_THRESHOLD, CONTROL_WRITE_HZ, abs_of_nonneg, abs_of_nonpos,
      _clamp, ZOOM_MOVE_ALPHA, ZOOM_MOVE_X_DEADZONE_NORM, ZOOM_MOVE_Y_DEADZONE_NORM,
      ZOOM_MOVE_MAX_EFFECT_NORM, ZOOM_MOVE_X_MAX_DEG_PER_SEC,
      ZOOM_MOVE_Y_MAX_DEG_PER_SEC, ZOOM_MOVE_RESPONSE_EXP,
      ZOOM_MOVE_ZOOM_DAMPING_EXP, ZOOM_MOVE_ZOOM_DAMPING_MIN, PITCH_CENTER_Y,
      normalize_neg_180, normalize_pos_180]
  obtain ⟨h1, h2⟩ := key _ rfl
  rw [h1, h2, PITCH_MAX_DEG]
  norm_num

/-! ## C1: angle stages that leave rotation and pitch unchanged -/

theorem updateStageSources_rotation_deg (c : CameraControlState) (a : Candidate) :
    (updateStageSources c a).rotation_deg = c.rotation_deg := rfl

theorem updateStageSources_pitch_deg (c : CameraControlState) (a : Candidate) :
    (updateStageSources c a).pitch_deg = c.pitch_deg := rfl

theorem updateStageZoomLine_rotation_deg (c : CameraControlState)
    (zp : Option (Candidate × Candidate × ℝ)) :
    (updateStageZoomLine c zp).rotation_deg = c.rotation_deg := by
  cases zp with
  | none => rfl
  | some p => obtain ⟨a, b, m⟩ := p; rfl

theorem updateStageZoomLine_pitch_deg (c : CameraControlState)
    (zp : Option (Candidate × Candidate × ℝ)) :
    (updateStageZoomLine c zp).pitch_deg = c.pitch_deg := by
  cases zp with
  | none => rfl
  | some p => obtain ⟨a, b, m⟩ := p; rfl

theorem updateStageZoomEngine_rotation_deg (c : CameraControlState)
    (zp : Option (Candidate × Candidate × ℝ)) :
    (updateStageZoomEngine c zp).rotation_deg = c.rotation_deg := by
  unfold updateStageZoomEngine
  cases zp with
  | none => rfl
  | some p =>
    obtain ⟨a, b, m⟩ := p
    dsimp only
    split <;> rfl

theorem updateStageZoomEngine_pitch_deg (c : CameraControlState)
    (zp : Option (Candidate × Candidate × ℝ)) :
    (updateStageZoomEngine c zp).pitch_deg = c.pitch_deg := by
  unfold updateStageZoomEngine
  cases zp with
  | none => rfl
  | some p =>
    obtain ⟨a, b, m⟩ := p
    dsimp only
    split <;> rfl

theorem updateStageZoomVelocity_rotation_deg (c : CameraControlState)
    (zoom_before dt : ℝ) :
    (updateStageZoomVelocity c zoom_before dt).rotation_deg = c.rotation_deg := by
  unfold updateStageZoomVelocity
  split <;> rfl

theorem updateStageZoomVelocity_pitch_deg (c : CameraControlState)
    (zoom_before dt : ℝ) :
    (updateStageZoomVelocity c zoom_before dt).pitch_deg = c.pitch_deg := by
  unfold updateStageZoomVelocity
  split <;> rfl

theorem rightPinchBlock_rotation_deg (c : CameraControlState) (now : ℝ) (za : Bool) :
    (rightPinchBlock c now za).rotation_deg = c.rotation_deg := by
  unfold rightPinchBlock
  dsimp only
  repeat' split
  all_goals rfl

theorem rightPinchBlock_pitch_deg (c : CameraControlState) (now : ℝ) (za : Bool) :
    (rightPinchBlock c now za).pitch_deg = c.pitch_deg := by
  unfold rightPinchBlock
  dsimp only
  repeat' split
  all_goals rfl

theorem leftPinchBlock_rotation_deg (c : CameraControlState) (now : ℝ) (za : Bool) :
    (leftPinchBlock c now za).rotation_deg = c.rotation_deg := by
  unfold leftPinchBlock
  dsimp only
  repeat' split
  all_goals rfl

theorem leftPinchBlock_pitch_deg (c : CameraControlState) (now : ℝ) (za : Bool) :
    (leftPinchBlock c now za).pitch_deg = c.pitch_deg := by
  unfold leftPinchBlock
  dsimp only
  repeat' split
  all_goals rfl

theorem updateStagePinchSteps_rotation_deg (c : CameraControlState)
    (cands : List Candidate) (za : Bool) (now : ℝ) :
    (updateStagePinchSteps c cands za now).rotation_deg = c.rotation_deg := by
  unfold updateStagePinchSteps
  dsimp only
  split <;> split <;>
    simp only [leftPinchBlock_rotation_deg, rightPinchBlock_rotation_deg]

theorem updateStagePinchSteps_pitch_deg (c : CameraControlState)
    (cands : List Candidate) (za : Bool) (now : ℝ) :
    (updateStagePinchSteps c cands za now).pitch_deg = c.pitch_deg := by
  unfold updateStagePinchSteps
  dsimp only
  split <;> split <;>
    simp only [leftPinchBlock_pitch_deg, rightPinchBlock_pitch_deg]

theorem releaseFists_rotation_deg (c : CameraControlState) (now : ℝ) :
    (releaseFists c now).rotation_deg = c.rotation_deg := by
  unfold releaseFists
  dsimp only
  repeat' split
  all_goals rfl

theorem releaseFists_pitch_deg (c : CameraControlState) (now : ℝ) :
    (releaseFists c now).pitch_deg = c.pitch_deg := by
  unfold releaseFists
  dsimp only
  repeat' split
  all_goals rfl

theorem updateStageFists_rotation_deg (c : CameraControlState)
    (cands : List Candidate) (now : ℝ) :
    (updateStageFists c cands now).rotation_deg = c.rotation_deg := by
  unfold updateStageFists
  dsimp only
  repeat' split
  all_goals first | rfl | exact releaseFists_rotation_deg c now

theorem updateStageFists_pitch_deg (c : CameraControlState)
    (cands : List Candidate) (now : ℝ) :
    (updateStageFists c cands now).pitch_deg = c.pitch_deg := by
  unfold updateStageFists
  dsimp only
  repeat' split
  all_goals first | rfl | exact releaseFists_pitch_deg c now

theorem updateStageNoActive_rotation_deg (c : CameraControlState) (now : ℝ) :
    (updateStageNoActive c now).rotation_deg = c.rotation_deg := by
  unfold updateStageNoActive
  dsimp only
  exact releaseFists_rotation_deg c now

theorem updateStageNoActive_pitch_deg (c : CameraControlState) (now : ℝ) :
    (updateStageNoActive c now).pitch_deg = c.pitch_deg := by
  unfold updateStageNoActive
  dsimp only
  exact releaseFists_pitch_deg c now

theorem updateStagePendingResolve_rotation_deg (c : CameraControlState) (now : ℝ) :
    (updateStagePendingResolve c now).rotation_deg = c.rotation_deg := by
  unfold updateStagePendingResolve
  dsimp only
  repeat' split
  all_goals rfl

theorem updateStagePendingResolve_pitch_deg (c : CameraControlState) (now : ℝ) :
    (updateStagePendingResolve c now).pitch_deg = c.pitch_deg := by
  unfold updateStagePendingResolve
  dsimp only
  repeat' split
  all_goals rfl

theorem _export_live_controls_rotation_deg (c : CameraControlState) (now : ℝ) :
    (_export_live_controls c now).rotation_deg = c.rotation_deg := by
  unfold _export_live_controls
  dsimp only
  split <;> rfl

theorem _export_live_controls_pitch_deg (c : CameraControlState) (now : ℝ) :
    (_export_live_controls c now).pitch_deg = c.pitch_deg := by
  unfold _export_live_controls
  dsimp only
  split <;> rfl

theorem demoStep_rotation_deg (x : CameraControlState) (e : ℝ) :
    (if x.paused = false then { x with demo_phase := e } else x).rotation_deg =
      x.rotation_deg := by
  split <;> rfl

theorem demoStep_pitch_deg (x : CameraControlState) (e : ℝ) :
    (if x.paused = false then { x with demo_phase := e } else x).pitch_deg =
      x.pitch_deg := by
  split <;> rfl

/-- The rotation stage leaves `rotation_deg` alone or writes a normalized
angle. -/
theorem updateStageRotation_rotation_cases (c : CameraControlState)
    (zp : Option (Candidate × Candidate × ℝ)) (dt : ℝ) :
    (updateStageRotation c zp dt).rotation_deg = c.rotation_deg ∨
    ∃ z, (updateStageRotation c zp dt).rotation_deg = _normalize_angle_deg z := by
  unfold updateStageRotation
  dsimp only
  repeat' split
  all_goals first | (left; rfl) | (right; exact ⟨_, rfl⟩)

/-- The rotation stage leaves `pitch_deg` alone or writes a normalized
angle. -/
theorem updateStageRotation_pitch_cases (c : CameraControlState)
    (zp : Option (Candidate × Candidate × ℝ)) (dt : ℝ) :
    (updateStageRotation c zp dt).pitch_deg = c.pitch_deg ∨
    ∃ z, (updateStageRotation c zp dt).pitch_deg = _normalize_angle_deg z := by
  unfold updateStageRotation
  dsimp only
  repeat' split
  all_goals first | (left; rfl) | (right; exact ⟨_, rfl⟩)

theorem update_angles_step (c : CameraControlState) (cands : List Candidate)
    (now : ℝ)
    (h1 : -180 ≤ c.rotation_deg) (h2 : c.rotation_deg ≤ 180)
    (h3 : -180 ≤ c.pitch_deg) (h4 : c.pitch_deg ≤ 180) :
    (-180 ≤ (_update_camera_controls c cands now).rotation_deg ∧
     (_update_camera_controls c cands now).rotation_deg ≤ 180) ∧
    (-180 ≤ (_update_camera_controls c cands now).pitch_deg ∧
     (_update_camera_controls c cands now).pitch_deg ≤ 180) := by
  unfold _update_camera_controls
  dsimp only
  simp only [_export_live_controls_rotation_deg, _export_live_controls_pitch_deg]
  rcases hsel : _select_control_hand cands with _ | active <;>
    simp only [hsel] <;>
    simp only [demoStep_rotation_deg, demoStep_pitch_deg] <;>
    simp only [updateStagePendingResolve_rotation_deg,
      updateStagePendingResolve_pitch_deg,
      updateStageFists_rotation_deg, updateStageFists_pitch_deg,
      updateStagePinchSteps_rotation_deg, updateStagePinchSteps_pitch_deg,
      updateStageNoActive_rotation_deg, updateStageNoActive_pitch_deg]
  · exact ⟨⟨h1, h2⟩, h3, h4⟩
  · constructor
    · rcases updateStageRotation_rotation_cases
        (updateStageZoomVelocity
          (updateStageZoomEngine
            (updateStageZoomLine
              (updateStageSources
                { c with last_frame_ts := now, pinch_suppressed_reason := "none" }
                active)
              (_two_hand_zoom_pair cands))
            (_two_hand_zoom_pair cands))
          c.zoom
          (max 0 (now - if c.last_frame_ts = 0 then now else c.last_frame_ts)))
        (_two_hand_zoom_pair cands)
        (max 0 (now - if c.last_frame_ts = 0 then now else c.last_frame_ts))
        with hcase | ⟨z, hcase⟩
      · rw [hcase]
        simp only [updateStageZoomVelocity_rotation_deg,
          updateStageZoomEngine_rotation_deg, updateStageZoomLine_rotation_deg,
          updateStageSources_rotation_deg]
        exact ⟨h1, h2⟩
      · rw [hcase]
        exact normalize_angle_mem z
    · rcases updateStageRotation_pitch_cases
        (updateStageZoomVelocity
          (updateStageZoomEngine
            (updateStageZoomLine
              (updateStageSources
                { c with last_frame_ts := now, pinch_suppressed_reason := "none" }
                active)
              (_two_hand_zoom_pair cands))
            (_two_hand_zoom_pair cands))
          c.zoom
          (max 0 (now - if c.last_frame_ts = 0 then now else c.last_frame_ts)))
        (_two_hand_zoom_pair cands)
        (max 0 (now - if c.last_frame_ts = 0 then now else c.last_frame_ts))
        with hcase | ⟨z, hcase⟩
      · rw [hcase]
        simp only [updateStageZoomVelocity_pitch_deg,
          updateStageZoomEngine_pitch_deg, updateStageZoomLine_pitch_deg,
          updateStageSources_pitch_deg]
        exact ⟨h3, h4⟩
      · rw [hcase]
        exact normalize_angle_mem z

theorem runFrames_angles (frames : List (List Candidate × ℝ)) :
    ∀ c : CameraControlState,
      -180 ≤ c.rotation_deg → c.rotation_deg ≤ 180 →
      -180 ≤ c.pitch_deg → c.pitch_deg ≤ 180 →
      (-180 ≤ (runFrames c frames).rotation_deg ∧
       (runFrames c frames).rotation_deg ≤ 180) ∧
      (-180 ≤ (runFrames c frames).pitch_deg ∧
       (runFrames c frames).pitch_deg ≤ 180) := by
  induction frames with
  | nil => exact fun c h1 h2 h3 h4 => ⟨⟨h1, h2⟩, h3, h4⟩
  | cons f fs ih =>
    intro c h1 h2 h3 h4
    obtain ⟨⟨g1, g2⟩, g3, g4⟩ := update_angles_step c f.1 f.2 h1 h2 h3 h4
    exact ih (_update_camera_controls c f.1 f.2) g1 g2 g3 g4

/-- C1 (amended): after every call to `_update_camera_controls`, starting
from the default state and for every sequence of candidate inputs and frame
times (every prefix of `frames` is itself such a sequence), both
`rotation_deg` and `pitch_deg` lie in the closed interval `[-180, 180]`:
both angles are renormalized by `_normalize_angle_deg`, which attains `-180`
and `180`, and pitch is never clamped to `[PITCH_MIN_DEG, PITCH_MAX_DEG]`. -/
theorem angle_range_inv (frames : List (List Candidate × ℝ)) :
    -180 ≤ (runFrames initControl frames).rotation_deg ∧
    (runFrames initControl frames).rotation_deg ≤ 180 ∧
    -180 ≤ (runFrames initControl frames).pitch_deg ∧
    (runFrames initControl frames).pitch_deg ≤ 180 := by
  have h := runFrames_angles frames initControl
    (by norm_num [initControl]) (by norm_num [initControl])
    (by norm_num [initControl]) (by norm_num [initControl])
  exact ⟨h.1.1, h.1.2, h.2.1, h.2.2⟩

/-! ## C2: stages that leave the zoom/amp anchors unchanged -/

theorem updateStageSources_zoom_anchor_zoom (c : CameraControlState) (a : Candidate) :
    (updateStageSources c a).zoom_anchor_zoom = c.zoom_anchor_zoom := by
  rfl

theorem updateStageZoomLine_zoom_anchor_zoom (c : CameraControlState) (zp : Option (Candidate × Candidate × ℝ)) :
    (updateStageZoomLine c zp).zoom_anchor_zoom = c.zoom_anchor_zoom := by
  cases zp with
  | none => rfl
  | some p => obtain ⟨a, b, m⟩ := p; rfl

theorem updateStageZoomVelocity_zoom_anchor_zoom (c : CameraControlState) (zoom_before dt : ℝ) :
    (updateStageZoomVelocity c zoom_before dt).zoom_anchor_zoom = c.zoom_anchor_zoom := by
  unfold updateStageZoomVelocity
  split <;> rfl

theorem updateStageRotation_zoom_anchor_zoom (c : CameraControlState) (zp : Option (Candidate × Candidate × ℝ)) (dt : ℝ) :
    (updateStageRotation c zp dt).zoom_anchor_zoom = c.zoom_anchor_zoom := by
  unfold updateStageRotation
  dsimp only
  repeat' split
  all_goals rfl

theorem rightPinchBlock_zoom_anchor_zoom (c : CameraControlState) (now : ℝ) (za : Bool) :
    (rightPinchBlock c now za).zoom_anchor_zoom = c.zoom_anchor_zoom := by
  unfold rightPinchBlock
  dsimp only
  repeat' split
  all_goals rfl

theorem leftPinchBlock_zoom_anchor_zoom (c : CameraControlState) (now : ℝ) (za : Bool) :
    (leftPinchBlock c now za).zoom_anchor_zoom = c.zoom_anchor_zoom := by
  unfold leftPinchBlock
  dsimp only
  repeat' split
  all_goals rfl

theorem updateStagePinchSteps_zoom_anchor_zoom (c : CameraControlState) (cands : List Candidate) (za : Bool) (now : ℝ) :
    (updateStagePinchSteps c cands za now).zoom_anchor_zoom = c.zoom_anchor_zoom := by
  unfold updateStagePinchSteps
  dsimp only
  split <;> split <;>
    simp only [leftPinchBlock_zoom_anchor_zoom, rightPinchBlock_zoom_anchor_zoom]

theorem releaseFists_zoom_anchor_zoom (c : CameraControlState) (now : ℝ) :
    (releaseFists c now).zoom_anchor_zoom = c.zoom_anchor_zoom := by
  unfold releaseFists
  dsimp only
  repeat' split
  all_goals rfl

theorem updateStageFists_zoom_anchor_zoom (c : CameraControlState) (cands : List Candidate) (now : ℝ) :
    (updateStageFists c cands now).zoom_anchor_zoom = c.zoom_anchor_zoom := by
  unfold updateStageFists
  dsimp only
  repeat' split
  all_goals first | rfl | exact releaseFists_zoom_anchor_zoom c now

theorem updateStageNoActive_zoom_anchor_zoom (c : CameraControlState) (now : ℝ) :
    (updateStageNoActive c now).zoom_anchor_zoom = c.zoom_anchor_zoom := by
  unfold updateStageNoActive
  dsimp only
  exact releaseFists_zoom_anchor_zoom c now

theorem updateStagePendingResolve_zoom_anchor_zoom (c : CameraControlState) (now : ℝ) :
    (updateStagePendingResolve c now).zoom_anchor_zoom = c.zoom_anchor_zoom := by
  unfold updateStagePendingResolve
  dsimp only
  repeat' split
  all_goals rfl

theorem demoStep_zoom_anchor_zoom (x : CameraControlState) (e : ℝ) :
    (if x.paused = false then { x with demo_phase := e } else x).zoom_anchor_zoom = x.zoom_anchor_zoom := by
  split <;> rfl

theorem _export_live_controls_zoom_anchor_zoom (c : CameraControlState) (now : ℝ) :
    (_export_live_controls c now).zoom_anchor_zoom = c.zoom_anchor_zoom := by
  unfold _export_live_controls
  dsimp only
  split <;> rfl

theorem updateStageSources_zoom_anchor_amp (c : CameraControlState) (a : Candidate) :
    (updateStageSources c a).zoom_anchor_amp = c.zoom_anchor_amp := by
  rfl

theorem updateStageZoomLine_zoom_anchor_amp (c : CameraControlState) (zp : Option (Candidate × Candidate × ℝ)) :
    (updateStageZoomLine c zp).zoom_anchor_amp = c.zoom_anchor_amp := by
  cases zp with
  | none => rfl
  | some p => obtain ⟨a, b, m⟩ := p; rfl

theorem updateStageZoomVelocity_zoom_anchor_amp (c : CameraControlState) (zoom_before dt : ℝ) :
    (updateStageZoomVelocity c zoom_before dt).zoom_anchor_amp = c.zoom_anchor_amp := by
  unfold updateStageZoomVelocity
  split <;> rfl

theorem updateStageRotation_zoom_anchor_amp (c : CameraControlState) (zp : Option (Candidate × Candidate × ℝ)) (dt : ℝ) :
    (updateStageRotation c zp dt).zoom_anchor_amp = c.zoom_anchor_amp := by
  unfold updateStageRotation
  dsimp only
  repeat' split
  all_goals rfl

theorem rightPinchBlock_zoom_anchor_amp (c : CameraControlState) (now : ℝ) (za : Bool) :
    (rightPinchBlock c now za).zoom_anchor_amp = c.zoom_anchor_amp := by
  unfold rightPinchBlock
  dsimp only
  repeat' split
  all_goals rfl

theorem leftPinchBlock_zoom_anchor_amp (c : CameraControlState) (now : ℝ) (za : Bool) :
    (leftPinchBlock c now za).zoom_anchor_amp = c.zoom_anchor_amp := by
  unfold leftPinchBlock
  dsimp only
  repeat' split
  all_goals rfl

theorem updateStagePinchSteps_zoom_anchor_amp (c : CameraControlState) (cands : List Candidate) (za : Bool) (now : ℝ) :
    (updateStagePinchSteps c cands za now).zoom_anchor_amp = c.zoom_anchor_amp := by
  unfold updateStagePinchSteps
  dsimp only
  split <;> split <;>
    simp only [leftPinchBlock_zoom_anchor_amp, rightPinchBlock_zoom_anchor_amp]

theorem releaseFists_zoom_anchor_amp (c : CameraControlState) (now : ℝ) :
    (releaseFists c now).zoom_anchor_amp = c.zoom_anchor_amp := by
  unfold releaseFists
  dsimp only
  repeat' split
  all_goals rfl

theorem updateStageFists_zoom_anchor_amp (c : CameraControlState) (cands : List Candidate) (now : ℝ) :
    (updateStageFists c cands now).zoom_anchor_amp = c.zoom_anchor_amp := by
  unfold updateStageFists
  dsimp only
  repeat' split
  all_goals first | rfl | exact releaseFists_zoom_anchor_amp c now

theorem updateStageNoActive_zoom_anchor_amp (c : CameraControlState) (now : ℝ) :
    (updateStageNoActive c now).zoom_anchor_amp = c.zoom_anchor_amp := by
  unfold updateStageNoActive
  dsimp only
  exact releaseFists_zoom_anchor_amp c now

theorem updateStagePendingResolve_zoom_anchor_amp (c : CameraControlState) (now : ℝ) :
    (updateStagePendingResolve c now).zoom_anchor_amp = c.zoom_anchor_amp := by
  unfold updateStagePendingResolve
  dsimp only
  repeat' split
  all_goals rfl

theorem demoStep_zoom_anchor_amp (x : CameraControlState) (e : ℝ) :
    (if x.paused = false then { x with demo_phase := e } else x).zoom_anchor_amp = x.zoom_anchor_amp := by
  split <;> rfl

theorem _export_live_controls_zoom_anchor_amp (c : CameraControlState) (now : ℝ) :
    (_export_live_controls c now).zoom_anchor_amp = c.zoom_anchor_amp := by
  unfold _export_live_controls
  dsimp only
  split <;> rfl

theorem updateStageSources_zoom_anchor_metric (c : CameraControlState) (a : Candidate) :
    (updateStageSources c a).zoom_anchor_metric = c.zoom_anchor_metric := by
  rfl

theorem updateStageZoomLine_zoom_anchor_metric (c : CameraControlState) (zp : Option (Candidate × Candidate × ℝ)) :
    (updateStageZoomLine c zp).zoom_anchor_metric = c.zoom_anchor_metric := by
  cases zp with
  | none => rfl
  | some p => obtain ⟨a, b, m⟩ := p; rfl

theorem updateStageZoomVelocity_zoom_anchor_metric (c : CameraControlState) (zoom_before dt : ℝ) :
    (updateStageZoomVelocity c zoom_before dt).zoom_anchor_metric = c.zoom_anchor_metric := by
  unfold updateStageZoomVelocity
  split <;> rfl

theorem updateStageRotation_zoom_anchor_metric (c : CameraControlState) (zp : Option (Candidate × Candidate × ℝ)) (dt : ℝ) :
    (updateStageRotation c zp dt).zoom_anchor_metric = c.zoom_anchor_metric := by
  unfold updateStageRotation
  dsimp only
  repeat' split
  all_goals rfl

theorem rightPinchBlock_zoom_anchor_metric (c : CameraControlState) (now : ℝ) (za : Bool) :
    (rightPinchBlock c now za).zoom_anchor_metric = c.zoom_anchor_metric := by
  unfold rightPinchBlock
  dsimp only
  repeat' split
  all_goals rfl

theorem leftPinchBlock_zoom_anchor_metric (c : CameraControlState) (now : ℝ) (za : Bool) :
    (leftPinchBlock c now za).zoom_anchor_metric = c.zoom_anchor_metric := by
  unfold leftPinchBlock
  dsimp only
  repeat' split
  all_goals rfl

theorem updateStagePinchSteps_zoom_anchor_metric (c : CameraControlState) (cands : List Candidate) (za : Bool) (now : ℝ) :
    (updateStagePinchSteps c cands za now).zoom_anchor_metric = c.zoom_anchor_metric := by
  unfold updateStagePinchSteps
  dsimp only
  split <;> split <;>
    simp only [leftPinchBlock_zoom_anchor_metric, rightPinchBlock_zoom_anchor_metric]

theorem releaseFists_zoom_anchor_metric (c : CameraControlState) (now : ℝ) :
    (releaseFists c now).zoom_anchor_metric = c.zoom_anchor_metric := by
  unfold releaseFists
  dsimp only
  repeat' split
  all_goals rfl

theorem updateStageFists_zoom_anchor_metric (c : CameraControlState) (cands : List Candidate) (now : ℝ) :
    (updateStageFists c cands now).zoom_anchor_metric = c.zoom_anchor_metric := by
  unfold updateStageFists
  dsimp only
  repeat' split
  all_goals first | rfl | exact releaseFists_zoom_anchor_metric c now

theorem updateStageNoActive_zoom_anchor_metric (c : CameraControlState) (now : ℝ) :
    (updateStageNoActive c now).zoom_anchor_metric = c.zoom_anchor_metric := by
  unfold updateStageNoActive
  dsimp only
  exact releaseFists_zoom_anchor_metric c now

theorem updateStagePendingResolve_zoom_anchor_metric (c : CameraControlState) (now : ℝ) :
    (updateStagePendingResolve c now).zoom_anchor_metric = c.zoom_anchor_metric := by
  unfold updateStagePendingResolve
  dsimp only
  repeat' split
  all_goals rfl

theorem demoStep_zoom_anchor_metric (x : CameraControlState) (e : ℝ) :
    (if x.paused = false then { x with demo_phase := e } else x).zoom_anchor_metric = x.zoom_anchor_metric := by
  split <;> rfl

theorem _export_live_controls_zoom_anchor_metric (c : CameraControlState) (now : ℝ) :
    (_export_live_controls c now).zoom_anchor_metric = c.zoom_anchor_metric := by
  unfold _export_live_controls
  dsimp only
  split <;> rfl

/-! ## C2: the anchor ratchet -/

theorem select_cons_isSome (x : Candidate) (xs : List Candidate) :
    ∃ act, _select_control_hand (x :: xs) = some act := by
  unfold _select_control_hand
  dsimp only
  cases hrh : (x :: xs).filter (fun c => strLower c.label = "right") with
  | nil => exact ⟨_, rfl⟩
  | cons y ys => exact ⟨_, rfl⟩

theorem pair_some_nonempty (cands : List Candidate)
    (a b : Candidate) (m : ℝ)
    (h : _two_hand_zoom_pair cands = some (a, b, m)) : cands ≠ [] := by
  intro hnil
  rw [hnil] at h
  simp [_two_hand_zoom_pair, List.filter] at h

/-- On the Idle-to-Active edge the engine copies the current zoom and
amplitude into the anchors and floors the metric anchor. -/
theorem updateStageZoomEngine_anchor (c : CameraControlState)
    (a b : Candidate) (m : ℝ) (h : c.zoom_gesture_active = false) :
    (updateStageZoomEngine c (some (a, b, m))).zoom_anchor_zoom = c.zoom ∧
    (updateStageZoomEngine c (some (a, b, m))).zoom_anchor_amp = c.wave_amp ∧
    (updateStageZoomEngine c (some (a, b, m))).zoom_anchor_metric = max 1e-4 m := by
  unfold updateStageZoomEngine
  dsimp only
  rw [if_pos (by simp [h])]
  exact ⟨rfl, rfl, rfl⟩

theorem updateStageZoomEngine_none_eval (c : CameraControlState) :
    updateStageZoomEngine c none =
      { c with zoom_gesture_active := false, zoom_move_anchor_active := false } :=
  rfl

/-- With no zoom pair this frame the engine only clears its activity flags. -/
theorem updateStageZoomEngine_none (c : CameraControlState) :
    (updateStageZoomEngine c none).zoom = c.zoom ∧
    (updateStageZoomEngine c none).wave_amp = c.wave_amp ∧
    (updateStageZoomEngine c none).zoom_anchor_zoom = c.zoom_anchor_zoom ∧
    (updateStageZoomEngine c none).zoom_anchor_amp = c.zoom_anchor_amp ∧
    (updateStageZoomEngine c none).zoom_anchor_metric = c.zoom_anchor_metric :=
  ⟨rfl, rfl, rfl, rfl, rfl⟩

/-- C2: the anchor ratchet.  First conjunct: on the first frame a zoom pair
exists while the engine is idle, the update records the current zoom and
wave amplitude as anchors (`zoom_anchor_zoom = zoom`,
`zoom_anchor_amp = wave_amp`).  Second conjunct: on any frame with no zoom
pair (Active-to-Idle included) the update changes neither `zoom`,
`wave_amp`, nor any anchor — nothing is reset to neutral.  Third conjunct:
starting a fresh session at `zoom = 1.8` with a pair at the anchor
separation (`ratio = 1`), the session's target leaves zoom at `1.8`, not
`1.0`, and the anchor zoom is `1.8`. -/
theorem anchor_ratchet :
    (∀ (c : CameraControlState) (cands : List Candidate) (now : ℝ)
        (a b : Candidate) (m : ℝ),
      c.zoom_gesture_active = false →
      _two_hand_zoom_pair cands = some (a, b, m) →
      (_update_camera_controls c cands now).zoom_anchor_zoom = c.zoom ∧
      (_update_camera_controls c cands now).zoom_anchor_amp = c.wave_amp) ∧
    (∀ (c : CameraControlState) (cands : List Candidate) (now : ℝ),
      _two_hand_zoom_pair cands = none →
      (_update_camera_controls c cands now).zoom = c.zoom ∧
      (_update_camera_controls c cands now).wave_amp = c.wave_amp ∧
      (_update_camera_controls c cands now).zoom_anchor_zoom = c.zoom_anchor_zoom ∧
      (_update_camera_controls c cands now).zoom_anchor_amp = c.zoom_anchor_amp ∧
      (_update_camera_controls c cands now).zoom_anchor_metric = c.zoom_anchor_metric) ∧
    ((_update_camera_controls { initControl with zoom := 1.8 }
        [candPairA, candPairB] 3).zoom = 1.8 ∧
     (_update_camera_controls { initControl with zoom := 1.8 }
        [candPairA, candPairB] 3).zoom_anchor_zoom = 1.8) := by
  refine ⟨?_, ?_, ?_⟩
  · intro c cands now a b m hidle hp
    obtain ⟨x, xs, rfl⟩ : ∃ x xs, cands = x :: xs := by
      cases cands with
      | nil => exact absurd rfl (pair_some_nonempty [] a b m hp)
      | cons x xs => exact ⟨x, xs, rfl⟩
    obtain ⟨act, hact⟩ := select_cons_isSome x xs
    unfold _update_camera_controls
    dsimp only
    simp only [hact, hp]
    simp only [_export_live_controls_zoom_anchor_zoom,
      _export_live_controls_zoom_anchor_amp]
    simp only [demoStep_zoom_anchor_zoom, demoStep_zoom_anchor_amp]
    simp only [updateStagePendingResolve_zoom_anchor_zoom,
      updateStagePendingResolve_zoom_anchor_amp,
      updateStageFists_zoom_anchor_zoom, updateStageFists_zoom_anchor_amp,
      updateStagePinchSteps_zoom_anchor_zoom,
      updateStagePinchSteps_zoom_anchor_amp,
      updateStageRotation_zoom_anchor_zoom, updateStageRotation_zoom_anchor_amp,
      updateStageZoomVelocity_zoom_anchor_zoom,
      updateStageZoomVelocity_zoom_anchor_amp]
    have hflag : (updateStageZoomLine
        (updateStageSources
          { c with last_frame_ts := now, pinch_suppressed_reason := "none" } act)
        (some (a, b, m))).zoom_gesture_active = false := by
      rw [updateStageZoomLine_zoom_gesture_active,
        updateStageSources_zoom_gesture_active]
      exact hidle
    obtain ⟨e1, e2, _⟩ := updateStageZoomEngine_anchor _ a b m hflag
    rw [e1, e2]
    rw [updateStageZoomLine_zoom, updateStageSources_zoom,
      updateStageZoomLine_wave_amp, updateStageSources_wave_amp]
    exact ⟨rfl, rfl⟩
  · intro c cands now hp
    unfold _update_camera_controls
    dsimp only
    rcases hsel : _select_control_hand cands with _ | active
    · simp only [hsel]
      simp only [_export_live_controls_zoom, _export_live_controls_wave_amp,
        _export_live_controls_zoom_anchor_zoom,
        _export_live_controls_zoom_anchor_amp,
        _export_live_controls_zoom_anchor_metric]
      simp only [demoStep_zoom, demoStep_wave_amp, demoStep_zoom_anchor_zoom,
        demoStep_zoom_anchor_amp, demoStep_zoom_anchor_metric]
      simp only [updateStagePendingResolve_zoom,
        updateStagePendingResolve_wave_amp,
        updateStagePendingResolve_zoom_anchor_zoom,
        updateStagePendingResolve_zoom_anchor_amp,
        updateStagePendingResolve_zoom_anchor_metric,
        updateStageNoActive_zoom, updateStageNoActive_wave_amp,
        updateStageNoActive_zoom_anchor_zoom, updateStageNoActive_zoom_anchor_amp,
        updateStageNoActive_zoom_anchor_metric]
      exact ⟨trivial, trivial, trivial, trivial, trivial⟩
    · simp only [hsel, hp]
      simp only [_export_live_controls_zoom, _export_live_controls_wave_amp,
        _export_live_controls_zoom_anchor_zoom,
        _export_live_controls_zoom_anchor_amp,
        _export_live_controls_zoom_anchor_metric]
      simp only [demoStep_zoom, demoStep_wave_amp, demoStep_zoom_anchor_zoom,
        demoStep_zoom_anchor_amp, demoStep_zoom_anchor_metric]
      simp only [updateStagePendingResolve_zoom,
        updateStagePendingResolve_wave_amp,
        updateStagePendingResolve_zoom_anchor_zoom,
        updateStagePendingResolve_zoom_anchor_amp,
        updateStagePendingResolve_zoom_anchor_metric,
        updateStageFists_zoom, updateStageFists_wave_amp,
        updateStageFists_zoom_anchor_zoom, updateStageFists_zoom_anchor_amp,
        updateStageFists_zoom_anchor_metric,
        updateStagePinchSteps_zoom, updateStagePinchSteps_wave_amp,
        updateStagePinchSteps_zoom_anchor_zoom,
        updateStagePinchSteps_zoom_anchor_amp,
        updateStagePinchSteps_zoom_anchor_metric,
        updateStageRotation_zoom, updateStageRotation_wave_amp,
        updateStageRotation_zoom_anchor_zoom, updateStageRotation_zoom_anchor_amp,
        updateStageRotation_zoom_anchor_metric,
        updateStageZoomVelocity_zoom, updateStageZoomVelocity_wave_amp,
        updateStageZoomVelocity_zoom_anchor_zoom,
        updateStageZoomVelocity_zoom_anchor_amp,
        updateStageZoomVelocity_zoom_anchor_metric,
        updateStageZoomEngine_none_eval,
        updateStageZoomLine_zoom, updateStageSources_zoom,
        updateStageZoomLine_wave_amp, updateStageSources_wave_amp,
        updateStageZoomLine_zoom_anchor_zoom,
        updateStageSources_zoom_anchor_zoom,
        updateStageZoomLine_zoom_anchor_amp,
        updateStageSources_zoom_anchor_amp,
        updateStageZoomLine_zoom_anchor_metric,
        updateStageSources_zoom_anchor_metric]
      exact ⟨trivial, trivial, trivial, trivial, trivial⟩
  · have key : ∀ r : CameraControlState, r =
        _update_camera_controls { initControl with zoom := 1.8 }
          [candPairA, candPairB] 3 →
        r.zoom = 1.8 ∧ r.zoom_anchor_zoom = 1.8 := by
      intro r hr
      rw [hr]
      unfold _update_camera_controls
      simp only [select_candPair, pair_candPair]
      unfold updateStageSources updateStageZoomLine updateStageZoomEngine
        updateStageZoomVelocity updateStageRotation updateStagePinchSteps
        rightPinchBlock leftPinchBlock rightPinching leftPinching
        updateStageFists releaseFists updateStagePendingResolve
        _export_live_controls _zoom_pinch_confidence zoomRatFromMetric
        targetZoomOf targetAmpOf snapZoomTarget nearestSnapMark
        _best_hand_by_label maxByScore fistCount _clamp
      norm_num [initControl, candPairA, candPairB, List.filter,
        strLower_handa, strLower_handb, dec_handa_right, dec_handb_right,
        dec_handa_left, dec_handb_left, dec_pinch_fist, strLower_Right,
        strLower_Left, Real.one_rpow, ZOOM_SNAP_MARKS_TAIL,
        ZOOM_SNAP_MARKS_HEAD, ZOOM_RATIO_DEADBAND, ZOOM_RATIO_MIN,
        ZOOM_RATIO_MAX, ZOOM_RATIO_POWER, AMP_RATIO_POWER, ZOOM_MIN, ZOOM_MAX,
        WAVE_AMP_MIN, WAVE_AMP_MAX, ZOOM_SNAP_WINDOW, ZOOM_SNAP_STRENGTH,
        ZOOM_GESTURE_LERP, FIST_RELEASE_RESET_SEC, FIST_HOLD_TO_TOGGLE_SEC,
        FIST_TOGGLE_COOLDOWN_SEC, PINCH_STEP_COOLDOWN_SEC,
        PINCH_STATE_HOLD_SEC, PINCH_STATE_DOUBLE_WINDOW_SEC,
        PINCH_STATE_RESOLVE_HOLD_SEC, PINCH_POSE_THRESHOLD, CONTROL_WRITE_HZ,
        abs_of_nonneg, abs_of_nonpos]
    exact key _ rfl

/-- Witness for `anchor_ratchet` at concrete inputs: the idle-to-active
conjunct applied to the default state and the concrete pair, and the
no-pair conjunct applied to a frame with no hands. -/
theorem anchor_ratchet_witness :
    ((_update_camera_controls initControl [candPairA, candPairB] 1).zoom_anchor_zoom
      = initControl.zoom ∧
     (_update_camera_controls initControl [candPairA, candPairB] 1).zoom_anchor_amp
      = initControl.wave_amp) ∧
    (_update_camera_controls initControl [] 1).zoom = initControl.zoom := by
  constructor
  · exact anchor_ratchet.1 initControl [candPairA, candPairB] 1
      candPairA candPairB 1 rfl pair_candPair
  · exact (anchor_ratchet.2.1 initControl [] 1 rfl).1

/-! ## C9/C10: stages that leave the pinch-step machine state unchanged -/

theorem updateStageSources_n_inc_count (c : CameraControlState) (a : Candidate) :
    (updateStageSources c a).n_inc_count = c.n_inc_count := by
  rfl

theorem updateStageZoomLine_n_inc_count (c : CameraControlState) (zp : Option (Candidate × Candidate × ℝ)) :
    (updateStageZoomLine c zp).n_inc_count = c.n_inc_count := by
  cases zp with
  | none => rfl
  | some p => obtain ⟨a, b, m⟩ := p; rfl

theorem updateStageZoomEngine_n_inc_count (c : CameraControlState) (zp : Option (Candidate × Candidate × ℝ)) :
    (updateStageZoomEngine c zp).n_inc_count = c.n_inc_count := by
  unfold updateStageZoomEngine
  cases zp with
  | none => rfl
  | some p =>
    obtain ⟨a, b, m⟩ := p
    dsimp only
    split <;> rfl

theorem updateStageZoomVelocity_n_inc_count (c : CameraControlState) (zoom_before dt : ℝ) :
    (updateStageZoomVelocity c zoom_before dt).n_inc_count = c.n_inc_count := by
  unfold updateStageZoomVelocity
  split <;> rfl

theorem updateStageRotation_n_inc_count (c : CameraControlState) (zp : Option (Candidate × Candidate × ℝ)) (dt : ℝ) :
    (updateStageRotation c zp dt).n_inc_count = c.n_inc_count := by
  unfold updateStageRotation
  dsimp only
  repeat' split
  all_goals rfl

theorem releaseFists_n_inc_count (c : CameraControlState) (now : ℝ) :
    (releaseFists c now).n_inc_count = c.n_inc_count := by
  unfold releaseFists
  dsimp only
  repeat' split
  all_goals rfl

theorem updateStageFists_n_inc_count (c : CameraControlState) (cands : List Candidate) (now : ℝ) :
    (updateStageFists c cands now).n_inc_count = c.n_inc_count := by
  unfold updateStageFists
  dsimp only
  repeat' split
  all_goals first | rfl | exact releaseFists_n_inc_count c now

theorem updateStagePendingResolve_n_inc_count (c : CameraControlState) (now : ℝ) :
    (updateStagePendingResolve c now).n_inc_count = c.n_inc_count := by
  unfold updateStagePendingResolve
  dsimp only
  repeat' split
  all_goals rfl

theorem demoStep_n_inc_count (x : CameraControlState) (e : ℝ) :
    (if x.paused = false then { x with demo_phase := e } else x).n_inc_count = x.n_inc_count := by
  split <;> rfl

theorem _export_live_controls_n_inc_count (c : CameraControlState) (now : ℝ) :
    (_export_live_controls c now).n_inc_count = c.n_inc_count := by
  unfold _export_live_controls
  dsimp only
  split <;> rfl

theorem updateStageSources_n_dec_count (c : CameraControlState) (a : Candidate) :
    (updateStageSources c a).n_dec_count = c.n_dec_count := by
  rfl

theorem updateStageZoomLine_n_dec_count (c : CameraControlState) (zp : Option (Candidate × Candidate × ℝ)) :
    (updateStageZoomLine c zp).n_dec_count = c.n_dec_count := by
  cases zp with
  | none => rfl
  | some p => obtain ⟨a, b, m⟩ := p; rfl

theorem updateStageZoomEngine_n_dec_count (c : CameraControlState) (zp : Option (Candidate × Candidate × ℝ)) :
    (updateStageZoomEngine c zp).n_dec_count = c.n_dec_count := by
  unfold updateStageZoomEngine
  cases zp with
  | none => rfl
  | some p =>
    obtain ⟨a, b, m⟩ := p
    dsimp only
    split <;> rfl

theorem updateStageZoomVelocity_n_dec_count (c : CameraControlState) (zoom_before dt : ℝ) :
    (updateStageZoomVelocity c zoom_before dt).n_dec_count = c.n_dec_count := by
  unfold updateStageZoomVelocity
  split <;> rfl

theorem updateStageRotation_n_dec_count (c : CameraControlState) (zp : Option (Candidate × Candidate × ℝ)) (dt : ℝ) :
    (updateStageRotation c zp dt).n_dec_count = c.n_dec_count := by
  unfold updateStageRotation
  dsimp only
  repeat' split
  all_goals rfl

theorem releaseFists_n_dec_count (c : CameraControlState) (now : ℝ) :
    (releaseFists c now).n_dec_count = c.n_dec_count := by
  unfold releaseFists
  dsimp only
  repeat' split
  all_goals rfl

theorem updateStageFists_n_dec_count (c : CameraControlState) (cands : List Candidate) (now : ℝ) :
    (updateStageFists c cands now).n_dec_count = c.n_dec_count := by
  unfold updateStageFists
  dsimp only
  repeat' split
  all_goals first | rfl | exact releaseFists_n_dec_count c now

theorem updateStagePendingResolve_n_dec_count (c : CameraControlState) (now : ℝ) :
    (updateStagePendingResolve c now).n_dec_count = c.n_dec_count := by
  unfold updateStagePendingResolve
  dsimp only
  repeat' split
  all_goals rfl

theorem demoStep_n_dec_count (x : CameraControlState) (e : ℝ) :
    (if x.paused = false then { x with demo_phase := e } else x).n_dec_count = x.n_dec_count := by
  split <;> rfl

theorem _export_live_controls_n_dec_count (c : CameraControlState) (now : ℝ) :
    (_export_live_controls c now).n_dec_count = c.n_dec_count := by
  unfold _export_live_controls
  dsimp only
  split <;> rfl

theorem updateStageSources_last_n_step_ts (c : CameraControlState) (a : Candidate) :
    (updateStageSources c a).last_n_step_ts = c.last_n_step_ts := by
  rfl

theorem updateStageZoomLine_last_n_step_ts (c : CameraControlState) (zp : Option (Candidate × Candidate × ℝ)) :
    (updateStageZoomLine c zp).last_n_step_ts = c.last_n_step_ts := by
  cases zp with
  | none => rfl
  | some p => obtain ⟨a, b, m⟩ := p; rfl

theorem updateStageZoomEngine_last_n_step_ts (c : CameraControlState) (zp : Option (Candidate × Candidate × ℝ)) :
    (updateStageZoomEngine c zp).last_n_step_ts = c.last_n_step_ts := by
  unfold updateStageZoomEngine
  cases zp with
  | none => rfl
  | some p =>
    obtain ⟨a, b, m⟩ := p
    dsimp only
    split <;> rfl

theorem updateStageZoomVelocity_last_n_step_ts (c : CameraControlState) (zoom_before dt : ℝ) :
    (updateStageZoomVelocity c zoom_before dt).last_n_step_ts = c.last_n_step_ts := by
  unfold updateStageZoomVelocity
  split <;> rfl

theorem updateStageRotation_last_n_step_ts (c : CameraControlState) (zp : Option (Candidate × Candidate × ℝ)) (dt : ℝ) :
    (updateStageRotation c zp dt).last_n_step_ts = c.last_n_step_ts := by
  unfold updateStageRotation
  dsimp only
  repeat' split
  all_goals rfl

theorem releaseFists_last_n_step_ts (c : CameraControlState) (now : ℝ) :
    (releaseFists c now).last_n_step_ts = c.last_n_step_ts := by
  unfold releaseFists
  dsimp only
  repeat' split
  all_goals rfl

theorem updateStageFists_last_n_step_ts (c : CameraControlState) (cands : List Candidate) (now : ℝ) :
    (updateStageFists c cands now).last_n_step_ts = c.last_n_step_ts := by
  unfold updateStageFists
  dsimp only
  repeat' split
  all_goals first | rfl | exact releaseFists_last_n_step_ts c now

theorem updateStagePendingResolve_last_n_step_ts (c : CameraControlState) (now : ℝ) :
    (updateStagePendingResolve c now).last_n_step_ts = c.last_n_step_ts := by
  unfold updateStagePendingResolve
  dsimp only
  repeat' split
  all_goals rfl

theorem demoStep_last_n_step_ts (x : CameraControlState) (e : ℝ) :
    (if x.paused = false then { x with demo_phase := e } else x).last_n_step_ts = x.last_n_step_ts := by
  split <;> rfl

theorem _export_live_controls_last_n_step_ts (c : CameraControlState) (now : ℝ) :
    (_export_live_controls c now).last_n_step_ts = c.last_n_step_ts := by
  unfold _export_live_controls
  dsimp only
  split <;> rfl

theorem updateStageSources_right_pinch_latched (c : CameraControlState) (a : Candidate) :
    (updateStageSources c a).right_pinch_latched = c.right_pinch_latched := by
  rfl

theorem updateStageZoomLine_right_pinch_latched (c : CameraControlState) (zp : Option (Candidate × Candidate × ℝ)) :
    (updateStageZoomLine c zp).right_pinch_latched = c.right_pinch_latched := by
  cases zp with
  | none => rfl
  | some p => obtain ⟨a, b, m⟩ := p; rfl

theorem updateStageZoomEngine_right_pinch_latched (c : CameraControlState) (zp : Option (Candidate × Candidate × ℝ)) :
    (updateStageZoomEngine c zp).right_pinch_latched = c.right_pinch_latched := by
  unfold updateStageZoomEngine
  cases zp with
  | none => rfl
  | some p =>
    obtain ⟨a, b, m⟩ := p
    dsimp only
    split <;> rfl

theorem updateStageZoomVelocity_right_pinch_latched (c : CameraControlState) (zoom_before dt : ℝ) :
    (updateStageZoomVelocity c zoom_before dt).right_pinch_latched = c.right_pinch_latched := by
  unfold updateStageZoomVelocity
  split <;> rfl

theorem updateStageRotation_right_pinch_latched (c : CameraControlState) (zp : Option (Candidate × Candidate × ℝ)) (dt : ℝ) :
    (updateStageRotation c zp dt).right_pinch_latched = c.right_pinch_latched := by
  unfold updateStageRotation
  dsimp only
  repeat' split
  all_goals rfl

theorem releaseFists_right_pinch_latched (c : CameraControlState) (now : ℝ) :
    (releaseFists c now).right_pinch_latched = c.right_pinch_latched := by
  unfold releaseFists
  dsimp only
  repeat' split
  all_goals rfl

theorem updateStageFists_right_pinch_latched (c : CameraControlState) (cands : List Candidate) (now : ℝ) :
    (updateStageFists c cands now).right_pinch_latched = c.right_pinch_latched := by
  unfold updateStageFists
  dsimp only
  repeat' split
  all_goals first | rfl | exact releaseFists_right_pinch_latched c now

theorem updateStagePendingResolve_right_pinch_latched (c : CameraControlState) (now : ℝ) :
    (updateStagePendingResolve c now).right_pinch_latched = c.right_pinch_latched := by
  unfold updateStagePendingResolve
  dsimp only
  repeat' split
  all_goals rfl

theorem demoStep_right_pinch_latched (x : CameraControlState) (e : ℝ) :
    (if x.paused = false then { x with demo_phase := e } else x).right_pinch_latched = x.right_pinch_latched := by
  split <;> rfl

theorem _export_live_controls_right_pinch_latched (c : CameraControlState) (now : ℝ) :
    (_export_live_controls c now).right_pinch_latched = c.right_pinch_latched := by
  unfold _export_live_controls
  dsimp only
  split <;> rfl

theorem updateStageSources_left_pinch_latched (c : CameraControlState) (a : Candidate) :
    (updateStageSources c a).left_pinch_latched = c.left_pinch_latched := by
  rfl

theorem updateStageZoomLine_left_pinch_latched (c : CameraControlState) (zp : Option (Candidate × Candidate × ℝ)) :
    (updateStageZoomLine c zp).left_pinch_latched = c.left_pinch_latched := by
  cases zp with
  | none => rfl
  | some p => obtain ⟨a, b, m⟩ := p; rfl

theorem updateStageZoomEngine_left_pinch_latched (c : CameraControlState) (zp : Option (Candidate × Candidate × ℝ)) :
    (updateStageZoomEngine c zp).left_pinch_latched = c.left_pinch_latched := by
  unfold updateStageZoomEngine
  cases zp with
  | none => rfl
  | some p =>
    obtain ⟨a, b, m⟩ := p
    dsimp only
    split <;> rfl

theorem updateStageZoomVelocity_left_pinch_latched (c : CameraControlState) (zoom_before dt : ℝ) :
    (updateStageZoomVelocity c zoom_before dt).left_pinch_latched = c.left_pinch_latched := by
  unfold updateStageZoomVelocity
  split <;> rfl

theorem updateStageRotation_left_pinch_latched (c : CameraControlState) (zp : Option (Candidate × Candidate × ℝ)) (dt : ℝ) :
    (updateStageRotation c zp dt).left_pinch_latched = c.left_pinch_latched := by
  unfold updateStageRotation
  dsimp only
  repeat' split
  all_goals rfl

theorem releaseFists_left_pinch_latched (c : CameraControlState) (now : ℝ) :
    (releaseFists c now).left_pinch_latched = c.left_pinch_latched := by
  unfold releaseFists
  dsimp only
  repeat' split
  all_goals rfl

theorem updateStageFists_left_pinch_latched (c : CameraControlState) (cands : List Candidate) (now : ℝ) :
    (updateStageFists c cands now).left_pinch_latched = c.left_pinch_latched := by
  unfold updateStageFists
  dsimp only
  repeat' split
  all_goals first | rfl | exact releaseFists_left_pinch_latched c now

theorem updateStagePendingResolve_left_pinch_latched (c : CameraControlState) (now : ℝ) :
    (updateStagePendingResolve c now).left_pinch_latched = c.left_pinch_latched := by
  unfold updateStagePendingResolve
  dsimp only
  repeat' split
  all_goals rfl

theorem demoStep_left_pinch_latched (x : CameraControlState) (e : ℝ) :
    (if x.paused = false then { x with demo_phase := e } else x).left_pinch_latched = x.left_pinch_latched := by
  split <;> rfl

theorem _export_live_controls_left_pinch_latched (c : CameraControlState) (now : ℝ) :
    (_export_live_controls c now).left_pinch_latched = c.left_pinch_latched := by
  unfold _export_live_controls
  dsimp only
  split <;> rfl

theorem updateStageSources_pinch_suppressed_reason (c : CameraControlState) (a : Candidate) :
    (updateStageSources c a).pinch_suppressed_reason = c.pinch_suppressed_reason := by
  rfl

theorem updateStageZoomLine_pinch_suppressed_reason (c : CameraControlState) (zp : Option (Candidate × Candidate × ℝ)) :
    (updateStageZoomLine c zp).pinch_suppressed_reason = c.pinch_suppressed_reason := by
  cases zp with
  | none => rfl
  | some p => obtain ⟨a, b, m⟩ := p; rfl

theorem updateStageZoomEngine_pinch_suppressed_reason (c : CameraControlState) (zp : Option (Candidate × Candidate × ℝ)) :
    (updateStageZoomEngine c zp).pinch_suppressed_reason = c.pinch_suppressed_reason := by
  unfold updateStageZoomEngine
  cases zp with
  | none => rfl
  | some p =>
    obtain ⟨a, b, m⟩ := p
    dsimp only
    split <;> rfl

theorem updateStageZoomVelocity_pinch_suppressed_reason (c : CameraControlState) (zoom_before dt : ℝ) :
    (updateStageZoomVelocity c zoom_before dt).pinch_suppressed_reason = c.pinch_suppressed_reason := by
  unfold updateStageZoomVelocity
  split <;> rfl

theorem updateStageRotation_pinch_suppressed_reason (c : CameraControlState) (zp : Option (Candidate × Candidate × ℝ)) (dt : ℝ) :
    (updateStageRotation c zp dt).pinch_suppressed_reason = c.pinch_suppressed_reason := by
  unfold updateStageRotation
  dsimp only
  repeat' split
  all_goals rfl

theorem releaseFists_pinch_suppressed_reason (c : CameraControlState) (now : ℝ) :
    (releaseFists c now).pinch_suppressed_reason = c.pinch_suppressed_reason := by
  unfold releaseFists
  dsimp only
  repeat' split
  all_goals rfl

theorem updateStageFists_pinch_suppressed_reason (c : CameraControlState) (cands : List Candidate) (now : ℝ) :
    (updateStageFists c cands now).pinch_suppressed_reason = c.pinch_suppressed_reason := by
  unfold updateStageFists
  dsimp only
  repeat' split
  all_goals first | rfl | exact releaseFists_pinch_suppressed_reason c now

theorem updateStagePendingResolve_pinch_suppressed_reason (c : CameraControlState) (now : ℝ) :
    (updateStagePendingResolve c now).pinch_suppressed_reason = c.pinch_suppressed_reason := by
  unfold updateStagePendingResolve
  dsimp only
  repeat' split
  all_goals rfl

theorem demoStep_pinch_suppressed_reason (x : CameraControlState) (e : ℝ) :
    (if x.paused = false then { x with demo_phase := e } else x).pinch_suppressed_reason = x.pinch_suppressed_reason := by
  split <;> rfl

theorem _export_live_controls_pinch_suppressed_reason (c : CameraControlState) (now : ℝ) :
    (_export_live_controls c now).pinch_suppressed_reason = c.pinch_suppressed_reason := by
  unfold _export_live_controls
  dsimp only
  split <;> rfl

theorem updateStageNoActive_n_inc_count (c : CameraControlState) (now : ℝ) :
    (updateStageNoActive c now).n_inc_count = c.n_inc_count := by
  unfold updateStageNoActive
  dsimp only
  exact releaseFists_n_inc_count c now

theorem updateStageNoActive_n_dec_count (c : CameraControlState) (now : ℝ) :
    (updateStageNoActive c now).n_dec_count = c.n_dec_count := by
  unfold updateStageNoActive
  dsimp only
  exact releaseFists_n_dec_count c now

theorem updateStageNoActive_last_n_step_ts (c : CameraControlState) (now : ℝ) :
    (updateStageNoActive c now).last_n_step_ts = c.last_n_step_ts := by
  unfold updateStageNoActive
  dsimp only
  exact releaseFists_last_n_step_ts c now

theorem updateStageNoActive_pinch_suppressed_reason (c : CameraControlState) (now : ℝ) :
    (updateStageNoActive c now).pinch_suppressed_reason = c.pinch_suppressed_reason := by
  unfold updateStageNoActive
  dsimp only
  exact releaseFists_pinch_suppressed_reason c now

theorem rightPinchBlock_n_dec_count (c : CameraControlState) (now : ℝ) (za : Bool) :
    (rightPinchBlock c now za).n_dec_count = c.n_dec_count := by
  unfold rightPinchBlock
  dsimp only
  repeat' split
  all_goals rfl

theorem rightPinchBlock_left_pinch_latched (c : CameraControlState) (now : ℝ) (za : Bool) :
    (rightPinchBlock c now za).left_pinch_latched = c.left_pinch_latched := by
  unfold rightPinchBlock
  dsimp only
  repeat' split
  all_goals rfl

theorem leftPinchBlock_n_inc_count (c : CameraControlState) (now : ℝ) (za : Bool) :
    (leftPinchBlock c now za).n_inc_count = c.n_inc_count := by
  unfold leftPinchBlock
  dsimp only
  repeat' split
  all_goals rfl

theorem leftPinchBlock_right_pinch_latched (c : CameraControlState) (now : ℝ) (za : Bool) :
    (leftPinchBlock c now za).right_pinch_latched = c.right_pinch_latched := by
  unfold leftPinchBlock
  dsimp only
  repeat' split
  all_goals rfl

theorem updateStageNoActive_latches (c : CameraControlState) (now : ℝ) :
    (updateStageNoActive c now).right_pinch_latched = false ∧
    (updateStageNoActive c now).left_pinch_latched = false := by
  unfold updateStageNoActive
  dsimp only
  exact ⟨rfl, rfl⟩

/-! ## Helpers: at most one labeled hand can pinch while no zoom pair exists -/

theorem foldl_best_mem (ys : List Candidate) :
    ∀ y : Candidate,
      ys.foldl (fun best h => if h.score > best.score then h else best) y ∈
        y :: ys := by
  induction ys with
  | nil => intro y; exact List.mem_singleton.mpr rfl
  | cons z zs ih =>
    intro y
    simp only [List.foldl_cons]
    by_cases hc : z.score > y.score
    · rw [if_pos hc]
      rcases List.mem_cons.mp (ih z) with h1 | h1
      · exact List.mem_cons_of_mem y (List.mem_cons.mpr (Or.inl h1))
      · exact List.mem_cons_of_mem y (List.mem_cons_of_mem z h1)
    · rw [if_neg hc]
      rcases List.mem_cons.mp (ih y) with h1 | h1
      · exact List.mem_cons.mpr (Or.inl h1)
      · exact List.mem_cons_of_mem y (List.mem_cons_of_mem z h1)

theorem maxByScore_mem (l : List Candidate) (x : Candidate)
    (h : maxByScore l = some x) : x ∈ l := by
  cases l with
  | nil => simp [maxByScore] at h
  | cons y ys =>
    unfold maxByScore at h
    have hx := Option.some.inj h
    rw [← hx]
    exact foldl_best_mem ys y

theorem best_hand_mem (cands : List Candidate) (w : String) (x : Candidate)
    (h : _best_hand_by_label cands w = some x) :
    x ∈ cands ∧ strLower x.label = strLower w := by
  unfold _best_hand_by_label at h
  have hmem := maxByScore_mem _ _ h
  rw [List.mem_filter] at hmem
  exact ⟨hmem.1, by simpa using hmem.2⟩

theorem two_mem_le_length (l : List Candidate) (a b : Candidate)
    (ha : a ∈ l) (hb : b ∈ l) (hne : a ≠ b) : 2 ≤ l.length := by
  match l with
  | [] => exact absurd ha (List.not_mem_nil a)
  | [x] =>
    rw [List.mem_singleton] at ha hb
    exact absurd (ha.trans hb.symm) hne
  | x :: y :: t => simp [List.length_cons]

theorem insertByScoreDesc_length (x : Candidate) (l : List Candidate) :
    (insertByScoreDesc x l).length = l.length + 1 := by
  induction l with
  | nil => rfl
  | cons y ys ih =>
    unfold insertByScoreDesc
    split
    · simp [List.length_cons]
    · simp [List.length_cons, ih]

theorem sortByScoreDesc_length (l : List Candidate) :
    (sortByScoreDesc l).length = l.length := by
  induction l with
  | nil => rfl
  | cons x xs ih =>
    unfold sortByScoreDesc
    rw [insertByScoreDesc_length, ih, List.length_cons]

theorem pair_isSome_of_two_eligible (cands : List Candidate)
    (h : 2 ≤ (cands.filter (fun c => c.pinch_pose)).length) :
    ∃ t, _two_hand_zoom_pair cands = some t := by
  unfold _two_hand_zoom_pair
  dsimp only
  rw [if_neg (by omega)]
  have hlen : 2 ≤ (sortByScoreDesc (cands.filter (fun c => c.pinch_pose))).length := by
    rw [sortByScoreDesc_length]
    exact h
  cases hs : sortByScoreDesc (cands.filter (fun c => c.pinch_pose)) with
  | nil => rw [hs] at hlen; simp at hlen
  | cons a tail =>
    cases tail with
    | nil => rw [hs] at hlen; simp at hlen
    | cons b rest => exact ⟨_, rfl⟩

theorem not_both_pinching (cands : List Candidate)
    (h : _two_hand_zoom_pair cands = none) :
    ¬(rightPinching cands = true ∧ leftPinching cands = true) := by
  rintro ⟨hr, hl⟩
  unfold rightPinching at hr
  unfold leftPinching at hl
  rcases hhr : _best_hand_by_label cands "Right" with _ | r <;> rw [hhr] at hr
  · exact Bool.false_ne_true hr
  rcases hhl : _best_hand_by_label cands "Left" with _ | l <;> rw [hhl] at hl
  · exact Bool.false_ne_true hl
  obtain ⟨hrmem, hrlab⟩ := best_hand_mem cands "Right" r hhr
  obtain ⟨hlmem, hllab⟩ := best_hand_mem cands "Left" l hhl
  have hne : r ≠ l := by
    intro he
    rw [he] at hrlab
    rw [hrlab] at hllab
    rw [strLower_Right, strLower_Left] at hllab
    exact absurd hllab (by decide)
  have hrf : r ∈ cands.filter (fun c => c.pinch_pose) :=
    List.mem_filter.mpr ⟨hrmem, hr⟩
  have hlf : l ∈ cands.filter (fun c => c.pinch_pose) :=
    List.mem_filter.mpr ⟨hlmem, hl⟩
  obtain ⟨t, ht⟩ := pair_isSome_of_two_eligible cands
    (two_mem_le_length _ r l hrf hlf hne)
  rw [h] at ht
  exact Option.noConfusion ht

/-! ## Characterizations of the single-pinch step blocks -/

theorem rightPinchBlock_accept (c : CameraControlState) (now : ℝ)
    (hlatch : c.right_pinch_latched = false)
    (hcd : now - c.last_n_step_ts ≥ PINCH_STEP_COOLDOWN_SEC) :
    (rightPinchBlock c now false).n_inc_count = c.n_inc_count + 1 ∧
    (rightPinchBlock c now false).last_n_step_ts = now ∧
    (rightPinchBlock c now false).right_pinch_latched = true ∧
    (rightPinchBlock c now false).n_dec_count = c.n_dec_count ∧
    (rightPinchBlock c now false).left_pinch_latched = c.left_pinch_latched := by
  unfold rightPinchBlock
  dsimp only
  have hedge : ¬c.right_pinch_latched = true := by simp [hlatch]
  rw [if_pos hedge, if_neg (show ¬((false : Bool) = true) by simp),
    if_neg (not_not_intro hcd),
    if_pos (show (¬c.right_pinch_latched = true) ∧ (false : Bool) = false ∧
      now - c.last_n_step_ts ≥ PINCH_STEP_COOLDOWN_SEC from ⟨hedge, rfl, hcd⟩)]
  split <;> exact ⟨rfl, rfl, rfl, rfl, rfl⟩

theorem rightPinchBlock_noedge (c : CameraControlState) (now : ℝ) (za : Bool)
    (hlatch : c.right_pinch_latched = true) :
    (rightPinchBlock c now za).n_inc_count = c.n_inc_count ∧
    (rightPinchBlock c now za).last_n_step_ts = c.last_n_step_ts ∧
    (rightPinchBlock c now za).right_pinch_latched = true ∧
    (rightPinchBlock c now za).n_dec_count = c.n_dec_count ∧
    (rightPinchBlock c now za).left_pinch_latched = c.left_pinch_latched := by
  unfold rightPinchBlock
  dsimp only
  rw [if_neg (show ¬¬c.right_pinch_latched = true by simp [hlatch]),
    if_neg (show ¬((¬c.right_pinch_latched = true) ∧ za = false ∧
      now - c.last_n_step_ts ≥ PINCH_STEP_COOLDOWN_SEC) from
        fun h => h.1 hlatch)]
  exact ⟨rfl, rfl, rfl, rfl, rfl⟩

theorem rightPinchBlock_suppressed (c : CameraControlState) (now : ℝ)
    (za : Bool) (hlatch : c.right_pinch_latched = false)
    (hsup : za = true ∨ now - c.last_n_step_ts < PINCH_STEP_COOLDOWN_SEC) :
    (rightPinchBlock c now za).n_inc_count = c.n_inc_count ∧
    (rightPinchBlock c now za).last_n_step_ts = c.last_n_step_ts ∧
    (rightPinchBlock c now za).right_pinch_latched = true ∧
    (rightPinchBlock c now za).n_dec_count = c.n_dec_count ∧
    (rightPinchBlock c now za).left_pinch_latched = c.left_pinch_latched := by
  unfold rightPinchBlock
  dsimp only
  have hedge : ¬c.right_pinch_latched = true := by simp [hlatch]
  have hno : ¬((¬c.right_pinch_latched = true) ∧ za = false ∧
      now - c.last_n_step_ts ≥ PINCH_STEP_COOLDOWN_SEC) := by
    rintro ⟨-, hza, hge⟩
    rcases hsup with h1 | h1
    · rw [h1] at hza
      exact Bool.true_eq_false ▸ (by simp at hza)
    · exact absurd hge (not_le.mpr h1)
  rw [if_pos hedge, if_neg hno]
  rcases hsup with h1 | h1
  · rw [h1]
    rw [if_pos rfl]
    exact ⟨rfl, rfl, rfl, rfl, rfl⟩
  · by_cases hza : za = true
    · rw [hza, if_pos rfl]
      exact ⟨rfl, rfl, rfl, rfl, rfl⟩
    · rw [if_neg hza, if_pos (show ¬now - c.last_n_step_ts ≥
        PINCH_STEP_COOLDOWN_SEC from not_le.mpr h1)]
      exact ⟨rfl, rfl, rfl, rfl, rfl⟩

theorem leftPinchBlock_accept (c : CameraControlState) (now : ℝ)
    (hlatch : c.left_pinch_latched = false)
    (hcd : now - c.last_n_step_ts ≥ PINCH_STEP_COOLDOWN_SEC) :
    (leftPinchBlock c now false).n_dec_count = c.n_dec_count + 1 ∧
    (leftPinchBlock c now false).last_n_step_ts = now ∧
    (leftPinchBlock c now false).left_pinch_latched = true ∧
    (leftPinchBlock c now false).n_inc_count = c.n_inc_count ∧
    (leftPinchBlock c now false).right_pinch_latched = c.right_pinch_latched := by
  unfold leftPinchBlock
  dsimp only
  have hedge : ¬c.left_pinch_latched = true := by simp [hlatch]
  rw [if_pos hedge, if_neg (show ¬((false : Bool) = true) by simp),
    if_neg (not_not_intro hcd),
    if_pos (show (¬c.left_pinch_latched = true) ∧ (false : Bool) = false ∧
      now - c.last_n_step_ts ≥ PINCH_STEP_COOLDOWN_SEC from ⟨hedge, rfl, hcd⟩)]
  split <;> exact ⟨rfl, rfl, rfl, rfl, rfl⟩

theorem leftPinchBlock_noedge (c : CameraControlState) (now : ℝ) (za : Bool)
    (hlatch : c.left_pinch_latched = true) :
    (leftPinchBlock c now za).n_dec_count = c.n_dec_count ∧
    (leftPinchBlock c now za).last_n_step_ts = c.last_n_step_ts ∧
    (leftPinchBlock c now za).left_pinch_latched = true ∧
    (leftPinchBlock c now za).n_inc_count = c.n_inc_count ∧
    (leftPinchBlock c now za).right_pinch_latched = c.right_pinch_latched := by
  unfold leftPinchBlock
  dsimp only
  rw [if_neg (show ¬¬c.left_pinch_latched = true by simp [hlatch]),
    if_neg (show ¬((¬c.left_pinch_latched = true) ∧ za = false ∧
      now - c.last_n_step_ts ≥ PINCH_STEP_COOLDOWN_SEC) from
        fun h => h.1 hlatch)]
  exact ⟨rfl, rfl, rfl, rfl, rfl⟩

theorem leftPinchBlock_suppressed_cooldown (c : CameraControlState) (now : ℝ)
    (hlatch : c.left_pinch_latched = false)
    (hcd : now - c.last_n_step_ts < PINCH_STEP_COOLDOWN_SEC) :
    (leftPinchBlock c now false).n_dec_count = c.n_dec_count ∧
    (leftPinchBlock c now false).last_n_step_ts = c.last_n_step_ts ∧
    (leftPinchBlock c now false).left_pinch_latched = true ∧
    (leftPinchBlock c now false).n_inc_count = c.n_inc_count ∧
    (leftPinchBlock c now false).right_pinch_latched = c.right_pinch_latched ∧
    (leftPinchBlock c now false).pinch_suppressed_reason = "cooldown" := by
  unfold leftPinchBlock
  dsimp only
  have hedge : ¬c.left_pinch_latched = true := by simp [hlatch]
  have hno : ¬((¬c.left_pinch_latched = true) ∧ (false : Bool) = false ∧
      now - c.last_n_step_ts ≥ PINCH_STEP_COOLDOWN_SEC) := by
    rintro ⟨-, -, hge⟩
    exact absurd hge (not_le.mpr hcd)
  rw [if_pos hedge, if_neg (show ¬((false : Bool) = true) by simp),
    if_pos (show ¬now - c.last_n_step_ts ≥ PINCH_STEP_COOLDOWN_SEC from
      not_le.mpr hcd), if_neg hno]
  exact ⟨rfl, rfl, rfl, rfl, rfl, rfl⟩

/-! ## Stage-level characterizations of the pinch-step machines -/

theorem updateStagePinchSteps_right_accept (c : CameraControlState)
    (cands : List Candidate) (now : ℝ)
    (hlatch : c.right_pinch_latched = false)
    (hrp : rightPinching cands = true)
    (hlp : leftPinching cands = false)
    (hcd : now - c.last_n_step_ts ≥ PINCH_STEP_COOLDOWN_SEC) :
    (updateStagePinchSteps c cands false now).n_inc_count = c.n_inc_count + 1 ∧
    (updateStagePinchSteps c cands false now).last_n_step_ts = now ∧
    (updateStagePinchSteps c cands false now).right_pinch_latched = true ∧
    (updateStagePinchSteps c cands false now).n_dec_count = c.n_dec_count ∧
    (updateStagePinchSteps c cands false now).left_pinch_latched = false := by
  unfold updateStagePinchSteps
  dsimp only
  rw [if_neg (by rw [hlp]; simp), if_pos (by rw [hrp])]
  obtain ⟨a1, a2, a3, a4, a5⟩ := rightPinchBlock_accept c now hlatch hcd
  exact ⟨a1, a2, a3, a4, rfl⟩

theorem updateStagePinchSteps_right_noedge (c : CameraControlState)
    (cands : List Candidate) (za : Bool) (now : ℝ)
    (hlatch : c.right_pinch_latched = true)
    (hrp : rightPinching cands = true) :
    (updateStagePinchSteps c cands za now).n_inc_count = c.n_inc_count ∧
    (updateStagePinchSteps c cands za now).right_pinch_latched = true := by
  unfold updateStagePinchSteps
  dsimp only
  obtain ⟨b1, b2, b3, b4, b5⟩ := rightPinchBlock_noedge c now za hlatch
  by_cases hlp : leftPinching cands = true
  · rw [if_pos hlp, if_pos (by rw [hrp])]
    constructor
    · rw [leftPinchBlock_n_inc_count]
      exact b1
    · rw [leftPinchBlock_right_pinch_latched]
      exact b3
  · rw [if_neg hlp, if_pos (by rw [hrp])]
    exact ⟨b1, b3⟩

theorem updateStagePinchSteps_right_suppressed (c : CameraControlState)
    (cands : List Candidate) (za : Bool) (now : ℝ)
    (hlatch : c.right_pinch_latched = false)
    (hrp : rightPinching cands = true)
    (hsup : za = true ∨ now - c.last_n_step_ts < PINCH_STEP_COOLDOWN_SEC) :
    (updateStagePinchSteps c cands za now).n_inc_count = c.n_inc_count ∧
    (updateStagePinchSteps c cands za now).right_pinch_latched = true := by
  unfold updateStagePinchSteps
  dsimp only
  obtain ⟨b1, b2, b3, b4, b5⟩ := rightPinchBlock_suppressed c now za hlatch hsup
  by_cases hlp : leftPinching cands = true
  · rw [if_pos hlp, if_pos (by rw [hrp])]
    constructor
    · rw [leftPinchBlock_n_inc_count]
      exact b1
    · rw [leftPinchBlock_right_pinch_latched]
      exact b3
  · rw [if_neg hlp, if_pos (by rw [hrp])]
    exact ⟨b1, b3⟩

theorem updateStagePinchSteps_right_off (c : CameraControlState)
    (cands : List Candidate) (za : Bool) (now : ℝ)
    (hrp : rightPinching cands = false) :
    (updateStagePinchSteps c cands za now).n_inc_count = c.n_inc_count ∧
    (updateStagePinchSteps c cands za now).right_pinch_latched = false := by
  unfold updateStagePinchSteps
  dsimp only
  by_cases hlp : leftPinching cands = true
  · rw [if_pos hlp, if_neg (by rw [hrp]; simp)]
    constructor
    · rw [leftPinchBlock_n_inc_count]
    · rw [leftPinchBlock_right_pinch_latched]
  · rw [if_neg hlp, if_neg (by rw [hrp]; simp)]
    exact ⟨rfl, rfl⟩

theorem updateStagePinchSteps_left_accept (c : CameraControlState)
    (cands : List Candidate) (now : ℝ)
    (hlatch : c.left_pinch_latched = false)
    (hrp : rightPinching cands = false)
    (hlp : leftPinching cands = true)
    (hcd : now - c.last_n_step_ts ≥ PINCH_STEP_COOLDOWN_SEC) :
    (updateStagePinchSteps c cands false now).n_dec_count = c.n_dec_count + 1 ∧
    (updateStagePinchSteps c cands false now).last_n_step_ts = now ∧
    (updateStagePinchSteps c cands false now).left_pinch_latched = true ∧
    (updateStagePinchSteps c cands false now).n_inc_count = c.n_inc_count := by
  unfold updateStagePinchSteps
  dsimp only
  rw [if_pos (by rw [hlp]), if_neg (by rw [hrp]; simp)]
  obtain ⟨a1, a2, a3, a4, a5⟩ := leftPinchBlock_accept
    { c with right_pinch_latched := false } now hlatch hcd
  exact ⟨a1, a2, a3, a4⟩

theorem updateStagePinchSteps_left_suppressed_cooldown (c : CameraControlState)
    (cands : List Candidate) (now : ℝ)
    (hlatch : c.left_pinch_latched = false)
    (hrp : rightPinching cands = false)
    (hlp : leftPinching cands = true)
    (hcd : now - c.last_n_step_ts < PINCH_STEP_COOLDOWN_SEC) :
    (updateStagePinchSteps c cands false now).n_dec_count = c.n_dec_count ∧
    (updateStagePinchSteps c cands false now).last_n_step_ts = c.last_n_step_ts ∧
    (updateStagePinchSteps c cands false now).left_pinch_latched = true ∧
    (updateStagePinchSteps c cands false now).n_inc_count = c.n_inc_count ∧
    (updateStagePinchSteps c cands false now).pinch_suppressed_reason =
      "cooldown" := by
  unfold updateStagePinchSteps
  dsimp only
  rw [if_pos (by rw [hlp]), if_neg (by rw [hrp]; simp)]
  obtain ⟨a1, a2, a3, a4, a5, a6⟩ := leftPinchBlock_suppressed_cooldown
    { c with right_pinch_latched := false } now hlatch hcd
  exact ⟨a1, a2, a3, a4, a6⟩

theorem rightPinching_nonempty (cands : List Candidate)
    (h : rightPinching cands = true) : cands ≠ [] := by
  intro hn
  rw [hn] at h
  simp [rightPinching, _best_hand_by_label, maxByScore, List.filter] at h

theorem leftPinching_nonempty (cands : List Candidate)
    (h : leftPinching cands = true) : cands ≠ [] := by
  intro hn
  rw [hn] at h
  simp [leftPinching, _best_hand_by_label, maxByScore, List.filter] at h

/-- The composition of the stages that run before the pinch-step machines on
an active frame (proof-only abbreviation of the corresponding part of
`_update_camera_controls`). -/
noncomputable def prePinchStages (c : CameraControlState)
    (cands : List Candidate) (now : ℝ) (act : Candidate) : CameraControlState :=
  updateStageRotation
    (updateStageZoomVelocity
      (updateStageZoomEngine
        (updateStageZoomLine
          (updateStageSources
            { c with last_frame_ts := now, pinch_suppressed_reason := "none" }
            act)
          (_two_hand_zoom_pair cands))
        (_two_hand_zoom_pair cands))
      c.zoom
      (max 0 (now - if c.last_frame_ts = 0 then now else c.last_frame_ts)))
    (_two_hand_zoom_pair cands)
    (max 0 (now - if c.last_frame_ts = 0 then now else c.last_frame_ts))

theorem prePinchStages_fields (c : CameraControlState)
    (cands : List Candidate) (now : ℝ) (act : Candidate) :
    (prePinchStages c cands now act).right_pinch_latched = c.right_pinch_latched ∧
    (prePinchStages c cands now act).left_pinch_latched = c.left_pinch_latched ∧
    (prePinchStages c cands now act).last_n_step_ts = c.last_n_step_ts ∧
    (prePinchStages c cands now act).n_inc_count = c.n_inc_count ∧
    (prePinchStages c cands now act).n_dec_count = c.n_dec_count := by
  unfold prePinchStages
  simp only [updateStageRotation_right_pinch_latched,
    updateStageRotation_left_pinch_latched, updateStageRotation_last_n_step_ts,
    updateStageRotation_n_inc_count, updateStageRotation_n_dec_count,
    updateStageZoomVelocity_right_pinch_latched,
    updateStageZoomVelocity_left_pinch_latched,
    updateStageZoomVelocity_last_n_step_ts, updateStageZoomVelocity_n_inc_count,
    updateStageZoomVelocity_n_dec_count,
    updateStageZoomEngine_right_pinch_latched,
    updateStageZoomEngine_left_pinch_latched,
    updateStageZoomEngine_last_n_step_ts, updateStageZoomEngine_n_inc_count,
    updateStageZoomEngine_n_dec_count,
    updateStageZoomLine_right_pinch_latched,
    updateStageZoomLine_left_pinch_latched, updateStageZoomLine_last_n_step_ts,
    updateStageZoomLine_n_inc_count, updateStageZoomLine_n_dec_count,
    updateStageSources_right_pinch_latched,
    updateStageSources_left_pinch_latched, updateStageSources_last_n_step_ts,
    updateStageSources_n_inc_count, updateStageSources_n_dec_count]
  exact ⟨trivial, trivial, trivial, trivial, trivial⟩

theorem update_via_pinchStage (c : CameraControlState)
    (cands : List Candidate) (now : ℝ) (act : Candidate)
    (hact : _select_control_hand cands = some act) :
    (_update_camera_controls c cands now).n_inc_count =
      (updateStagePinchSteps (prePinchStages c cands now act) cands
        (_two_hand_zoom_pair cands).isSome now).n_inc_count ∧
    (_update_camera_controls c cands now).n_dec_count =
      (updateStagePinchSteps (prePinchStages c cands now act) cands
        (_two_hand_zoom_pair cands).isSome now).n_dec_count ∧
    (_update_camera_controls c cands now).last_n_step_ts =
      (updateStagePinchSteps (prePinchStages c cands now act) cands
        (_two_hand_zoom_pair cands).isSome now).last_n_step_ts ∧
    (_update_camera_controls c cands now).right_pinch_latched =
      (updateStagePinchSteps (prePinchStages c cands now act) cands
        (_two_hand_zoom_pair cands).isSome now).right_pinch_latched ∧
    (_update_camera_controls c cands now).left_pinch_latched =
      (updateStagePinchSteps (prePinchStages c cands now act) cands
        (_two_hand_zoom_pair cands).isSome now).left_pinch_latched ∧
    (_update_camera_controls c cands now).pinch_suppressed_reason =
      (updateStagePinchSteps (prePinchStages c cands now act) cands
        (_two_hand_zoom_pair cands).isSome now).pinch_suppressed_reason := by
  unfold _update_camera_controls prePinchStages
  dsimp only
  simp only [hact]
  simp only [_export_live_controls_n_inc_count, _export_live_controls_n_dec_count,
    _export_live_controls_last_n_step_ts,
    _export_live_controls_right_pinch_latched,
    _export_live_controls_left_pinch_latched,
    _export_live_controls_pinch_suppressed_reason]
  simp only [demoStep_n_inc_count, demoStep_n_dec_count, demoStep_last_n_step_ts,
    demoStep_right_pinch_latched, demoStep_left_pinch_latched,
    demoStep_pinch_suppressed_reason]
  simp only [updateStagePendingResolve_n_inc_count,
    updateStagePendingResolve_n_dec_count,
    updateStagePendingResolve_last_n_step_ts,
    updateStagePendingResolve_right_pinch_latched,
    updateStagePendingResolve_left_pinch_latched,
    updateStagePendingResolve_pinch_suppressed_reason,
    updateStageFists_n_inc_count, updateStageFists_n_dec_count,
    updateStageFists_last_n_step_ts, updateStageFists_right_pinch_latched,
    updateStageFists_left_pinch_latched,
    updateStageFists_pinch_suppressed_reason]
  exact ⟨trivial, trivial, trivial, trivial, trivial, trivial⟩

/-! ## Full-update characterizations of the pinch-step machines -/

theorem cons_of_ne_nil (cands : List Candidate) (h : cands ≠ []) :
    ∃ x xs, cands = x :: xs := by
  cases cands with
  | nil => exact absurd rfl h
  | cons x xs => exact ⟨x, xs, rfl⟩

theorem update_right_accept (c : CameraControlState)
    (cands : List Candidate) (now : ℝ)
    (hlatch : c.right_pinch_latched = false)
    (hrp : rightPinching cands = true)
    (hp : _two_hand_zoom_pair cands = none)
    (hcd : now - c.last_n_step_ts ≥ PINCH_STEP_COOLDOWN_SEC) :
    (_update_camera_controls c cands now).n_inc_count = c.n_inc_count + 1 ∧
    (_update_camera_controls c cands now).last_n_step_ts = now ∧
    (_update_camera_controls c cands now).right_pinch_latched = true ∧
    (_update_camera_controls c cands now).n_dec_count = c.n_dec_count ∧
    (_update_camera_controls c cands now).left_pinch_latched = false := by
  obtain ⟨x, xs, rfl⟩ := cons_of_ne_nil cands (rightPinching_nonempty cands hrp)
  obtain ⟨act, hact⟩ := select_cons_isSome x xs
  obtain ⟨u1, u2, u3, u4, u5, u6⟩ := update_via_pinchStage c (x :: xs) now act hact
  obtain ⟨p1, p2, p3, p4, p5⟩ := prePinchStages_fields c (x :: xs) now act
  have hlp : leftPinching (x :: xs) = false := by
    rcases Bool.eq_false_or_eq_true (leftPinching (x :: xs)) with h | h
    · exact absurd ⟨hrp, h⟩ (not_both_pinching _ hp)
    · exact h
  rw [u1, u2, u3, u4, u5, hp]
  obtain ⟨g1, g2, g3, g4, g5⟩ := updateStagePinchSteps_right_accept
    (prePinchStages c (x :: xs) now act) (x :: xs) now
    (by rw [p1]; exact hlatch) hrp hlp (by rw [p3]; exact hcd)
  rw [Option.isSome_none] at *
  exact ⟨by rw [g1, p4], by rw [g2], by rw [g3], by rw [g4, p5], g5⟩

theorem update_right_noedge (c : CameraControlState)
    (cands : List Candidate) (now : ℝ)
    (hlatch : c.right_pinch_latched = true)
    (hrp : rightPinching cands = true) :
    (_update_camera_controls c cands now).n_inc_count = c.n_inc_count ∧
    (_update_camera_controls c cands now).right_pinch_latched = true := by
  obtain ⟨x, xs, rfl⟩ := cons_of_ne_nil cands (rightPinching_nonempty cands hrp)
  obtain ⟨act, hact⟩ := select_cons_isSome x xs
  obtain ⟨u1, u2, u3, u4, u5, u6⟩ := update_via_pinchStage c (x :: xs) now act hact
  obtain ⟨p1, p2, p3, p4, p5⟩ := prePinchStages_fields c (x :: xs) now act
  rw [u1, u4]
  obtain ⟨g1, g2⟩ := updateStagePinchSteps_right_noedge
    (prePinchStages c (x :: xs) now act) (x :: xs)
    (_two_hand_zoom_pair (x :: xs)).isSome now
    (by rw [p1]; exact hlatch) hrp
  exact ⟨by rw [g1, p4], g2⟩

theorem update_right_suppressed (c : CameraControlState)
    (cands : List Candidate) (now : ℝ)
    (hlatch : c.right_pinch_latched = false)
    (hrp : rightPinching cands = true)
    (hsup : _two_hand_zoom_pair cands ≠ none ∨
      now - c.last_n_step_ts < PINCH_STEP_COOLDOWN_SEC) :
    (_update_camera_controls c cands now).n_inc_count = c.n_inc_count ∧
    (_update_camera_controls c cands now).right_pinch_latched = true := by
  obtain ⟨x, xs, rfl⟩ := cons_of_ne_nil cands (rightPinching_nonempty cands hrp)
  obtain ⟨act, hact⟩ := select_cons_isSome x xs
  obtain ⟨u1, u2, u3, u4, u5, u6⟩ := update_via_pinchStage c (x :: xs) now act hact
  obtain ⟨p1, p2, p3, p4, p5⟩ := prePinchStages_fields c (x :: xs) now act
  rw [u1, u4]
  have hsup2 : (_two_hand_zoom_pair (x :: xs)).isSome = true ∨
      now - (prePinchStages c (x :: xs) now act).last_n_step_ts <
        PINCH_STEP_COOLDOWN_SEC := by
    rcases hsup with h | h
    · left
      rcases hq : _two_hand_zoom_pair (x :: xs) with _ | t
      · exact absurd hq h
      · rfl
    · right
      rw [p3]
      exact h
  obtain ⟨g1, g2⟩ := updateStagePinchSteps_right_suppressed
    (prePinchStages c (x :: xs) now act) (x :: xs)
    (_two_hand_zoom_pair (x :: xs)).isSome now
    (by rw [p1]; exact hlatch) hrp hsup2
  exact ⟨by rw [g1, p4], g2⟩

theorem update_right_off (c : CameraControlState)
    (cands : List Candidate) (now : ℝ)
    (hrp : rightPinching cands = false) :
    (_update_camera_controls c cands now).n_inc_count = c.n_inc_count ∧
    (_update_camera_controls c cands now).right_pinch_latched = false := by
  rcases hsel : _select_control_hand cands with _ | act
  · unfold _update_camera_controls
    dsimp only
    simp only [hsel]
    simp only [_export_live_controls_n_inc_count,
      _export_live_controls_right_pinch_latched]
    simp only [demoStep_n_inc_count, demoStep_right_pinch_latched]
    simp only [updateStagePendingResolve_n_inc_count,
      updateStagePendingResolve_right_pinch_latched]
    constructor
    · rw [updateStageNoActive_n_inc_count]
    · exact (updateStageNoActive_latches _ now).1
  · obtain ⟨u1, u2, u3, u4, u5, u6⟩ := update_via_pinchStage c cands now act hsel
    obtain ⟨p1, p2, p3, p4, p5⟩ := prePinchStages_fields c cands now act
    rw [u1, u4]
    obtain ⟨g1, g2⟩ := updateStagePinchSteps_right_off
      (prePinchStages c cands now act) cands
      (_two_hand_zoom_pair cands).isSome now hrp
    exact ⟨by rw [g1, p4], g2⟩

theorem update_left_accept (c : CameraControlState)
    (cands : List Candidate) (now : ℝ)
    (hlatch : c.left_pinch_latched = false)
    (hlp : leftPinching cands = true)
    (hp : _two_hand_zoom_pair cands = none)
    (hcd : now - c.last_n_step_ts ≥ PINCH_STEP_COOLDOWN_SEC) :
    (_update_camera_controls c cands now).n_dec_count = c.n_dec_count + 1 ∧
    (_update_camera_controls c cands now).last_n_step_ts = now ∧
    (_update_camera_controls c cands now).left_pinch_latched = true ∧
    (_update_camera_controls c cands now).n_inc_count = c.n_inc_count := by
  obtain ⟨x, xs, rfl⟩ := cons_of_ne_nil cands (leftPinching_nonempty cands hlp)
  obtain ⟨act, hact⟩ := select_cons_isSome x xs
  obtain ⟨u1, u2, u3, u4, u5, u6⟩ := update_via_pinchStage c (x :: xs) now act hact
  obtain ⟨p1, p2, p3, p4, p5⟩ := prePinchStages_fields c (x :: xs) now act
  have hrp : rightPinching (x :: xs) = false := by
    rcases Bool.eq_false_or_eq_true (rightPinching (x :: xs)) with h | h
    · exact absurd ⟨h, hlp⟩ (not_both_pinching _ hp)
    · exact h
  rw [u1, u2, u3, u5, hp]
  obtain ⟨g1, g2, g3, g4⟩ := updateStagePinchSteps_left_accept
    (prePinchStages c (x :: xs) now act) (x :: xs) now
    (by rw [p2]; exact hlatch) hrp hlp (by rw [p3]; exact hcd)
  rw [Option.isSome_none] at *
  exact ⟨by rw [g1, p5], by rw [g2], by rw [g3], by rw [g4, p4]⟩

theorem update_left_cooldown_suppressed (c : CameraControlState)
    (cands : List Candidate) (now : ℝ)
    (hlatch : c.left_pinch_latched = false)
    (hlp : leftPinching cands = true)
    (hp : _two_hand_zoom_pair cands = none)
    (hcd : now - c.last_n_step_ts < PINCH_STEP_COOLDOWN_SEC) :
    (_update_camera_controls c cands now).n_dec_count = c.n_dec_count ∧
    (_update_camera_controls c cands now).last_n_step_ts = c.last_n_step_ts ∧
    (_update_camera_controls c cands now).left_pinch_latched = true ∧
    (_update_camera_controls c cands now).n_inc_count = c.n_inc_count ∧
    (_update_camera_controls c cands now).pinch_suppressed_reason =
      "cooldown" := by
  obtain ⟨x, xs, rfl⟩ := cons_of_ne_nil cands (leftPinching_nonempty cands hlp)
  obtain ⟨act, hact⟩ := select_cons_isSome x xs
  obtain ⟨u1, u2, u3, u4, u5, u6⟩ := update_via_pinchStage c (x :: xs) now act hact
  obtain ⟨p1, p2, p3, p4, p5⟩ := prePinchStages_fields c (x :: xs) now act
  have hrp : rightPinching (x :: xs) = false := by
    rcases Bool.eq_false_or_eq_true (rightPinching (x :: xs)) with h | h
    · exact absurd ⟨h, hlp⟩ (not_both_pinching _ hp)
    · exact h
  rw [u1, u2, u3, u5, u6, hp]
  obtain ⟨g1, g2, g3, g4, g5⟩ := updateStagePinchSteps_left_suppressed_cooldown
    (prePinchStages c (x :: xs) now act) (x :: xs) now
    (by rw [p2]; exact hlatch) hrp hlp (by rw [p3]; exact hcd)
  rw [Option.isSome_none] at *
  exact ⟨by rw [g1, p5], by rw [g2, p3], by rw [g3], by rw [g4, p4], g5⟩

/-! ## Concrete single-hand pinch candidates -/

/-- A single Right-labeled pinching hand. -/
noncomputable def candRight : Candidate :=
  { label := "Right", score := 0.9, gesture := "pinch", pinch_rat := 0.2,
    pinch_pose := true, pair_center := (0.5, 0.55), palm_scale := 0.1 }

/-- A single Left-labeled pinching hand. -/
noncomputable def candLeft : Candidate :=
  { label := "Left", score := 0.9, gesture := "pinch", pinch_rat := 0.2,
    pinch_pose := true, pair_center := (0.5, 0.55), palm_scale := 0.1 }

theorem dec_right_right : decide (("right" : String) = "right") = true := rfl

theorem dec_right_left : decide (("right" : String) = "left") = false := rfl

theorem dec_left_left : decide (("left" : String) = "left") = true := rfl

theorem dec_left_right : decide (("left" : String) = "right") = false := rfl

theorem rightPinching_candRight : rightPinching [candRight] = true := by
  unfold rightPinching _best_hand_by_label maxByScore
  norm_num [candRight, List.filter, strLower_Right, dec_right_right]

theorem leftPinching_candLeft : leftPinching [candLeft] = true := by
  unfold leftPinching _best_hand_by_label maxByScore
  norm_num [candLeft, List.filter, strLower_Left, dec_left_left]

theorem pair_candRight : _two_hand_zoom_pair [candRight] = none := by
  unfold _two_hand_zoom_pair
  norm_num [candRight, List.filter]

theorem pair_candLeft : _two_hand_zoom_pair [candLeft] = none := by
  unfold _two_hand_zoom_pair
  norm_num [candLeft, List.filter]

/-- While the Right hand keeps pinching and the latch is set, further frames
never change the increment counter and keep the latch. -/
theorem run_pinching_const (rest : List (List Candidate × ℝ)) :
    ∀ s : CameraControlState, s.right_pinch_latched = true →
      (∀ g ∈ rest, rightPinching g.1 = true) →
      (runFrames s rest).n_inc_count = s.n_inc_count ∧
      (runFrames s rest).right_pinch_latched = true := by
  induction rest with
  | nil => exact fun s hl _ => ⟨rfl, hl⟩
  | cons f fs ih =>
    intro s hl hall
    obtain ⟨g1, g2⟩ := update_right_noedge s f.1 f.2 hl
      (hall f (List.mem_cons_self f fs))
    have step := ih (_update_camera_controls s f.1 f.2) g2
      (fun g hg => hall g (List.mem_cons_of_mem f hg))
    exact ⟨step.1.trans g1, step.2⟩

theorem update_pinching_latches (c : CameraControlState)
    (cands : List Candidate) (now : ℝ)
    (hrp : rightPinching cands = true) :
    (_update_camera_controls c cands now).right_pinch_latched = true := by
  by_cases hl : c.right_pinch_latched = true
  · exact (update_right_noedge c cands now hl hrp).2
  · have hl2 : c.right_pinch_latched = false := by
      rcases Bool.eq_false_or_eq_true c.right_pinch_latched with h | h
      · exact absurd h hl
      · exact h
    by_cases hp : _two_hand_zoom_pair cands = none
    · by_cases hcd : now - c.last_n_step_ts ≥ PINCH_STEP_COOLDOWN_SEC
      · exact (update_right_accept c cands now hl2 hrp hp hcd).2.2.1
      · exact (update_right_suppressed c cands now hl2 hrp
          (Or.inr (not_le.1 hcd))).2
    · exact (update_right_suppressed c cands now hl2 hrp (Or.inl hp)).2

/-- C9: edge-triggering of the Right-hand increment counter.  First
conjunct: over any run of consecutive frames in which the best
Right-labeled hand is continuously pinching, started with the latch clear,
`n_inc_count` never changes after the first frame of the run.  Second
conjunct: on that first frame the counter increments (by exactly one) when
no zoom pair is active and the cooldown since the last accepted step has
elapsed.  Third conjunct: on that first frame the counter is unchanged
(suppressed) when a zoom pair is active or the cooldown has not elapsed.
Fourth conjunct: frames without a pinching Right hand never change the
counter and clear the latch, so a new run can trigger again only after the
hand stops pinching. -/
theorem pinch_edge_trigger :
    (∀ (c : CameraControlState) (f : List Candidate × ℝ)
        (rest : List (List Candidate × ℝ)),
      c.right_pinch_latched = false →
      (∀ g ∈ f :: rest, rightPinching g.1 = true) →
      (runFrames c (f :: rest)).n_inc_count =
        (_update_camera_controls c f.1 f.2).n_inc_count) ∧
    (∀ (c : CameraControlState) (cands : List Candidate) (now : ℝ),
      c.right_pinch_latched = false → rightPinching cands = true →
      _two_hand_zoom_pair cands = none →
      now - c.last_n_step_ts ≥ PINCH_STEP_COOLDOWN_SEC →
      (_update_camera_controls c cands now).n_inc_count = c.n_inc_count + 1) ∧
    (∀ (c : CameraControlState) (cands : List Candidate) (now : ℝ),
      c.right_pinch_latched = false → rightPinching cands = true →
      (_two_hand_zoom_pair cands ≠ none ∨
        now - c.last_n_step_ts < PINCH_STEP_COOLDOWN_SEC) →
      (_update_camera_controls c cands now).n_inc_count = c.n_inc_count) ∧
    (∀ (c : CameraControlState) (cands : List Candidate) (now : ℝ),
      rightPinching cands = false →
      (_update_camera_controls c cands now).n_inc_count = c.n_inc_count ∧
      (_update_camera_controls c cands now).right_pinch_latched = false) := by
  refine ⟨?_, ?_, ?_, ?_⟩
  · intro c f rest hlatch hall
    have hlat := update_pinching_latches c f.1 f.2 (hall f (List.mem_cons_self f rest))
    exact (run_pinching_const rest (_update_camera_controls c f.1 f.2) hlat
      (fun g hg => hall g (List.mem_cons_of_mem f hg))).1
  · intro c cands now h1 h2 h3 h4
    exact (update_right_accept c cands now h1 h2 h3 h4).1
  · intro c cands now h1 h2 h3
    exact (update_right_suppressed c cands now h1 h2 h3).1
  · intro c cands now h1
    exact update_right_off c cands now h1

/-- Witness for `pinch_edge_trigger`: a fresh Right-hand pinch at time `1`
from the default state increments the counter once, and holding it for a
second frame leaves the counter at that value. -/
theorem pinch_edge_trigger_witness :
    (_update_camera_controls initControl [candRight] 1).n_inc_count =
      initControl.n_inc_count + 1 ∧
    (runFrames initControl [([candRight], 1), ([candRight], 1.1)]).n_inc_count =
      (_update_camera_controls initControl [candRight] 1).n_inc_count := by
  constructor
  · exact pinch_edge_trigger.2.1 initControl [candRight] 1 rfl
      rightPinching_candRight pair_candRight
      (by norm_num [initControl, PINCH_STEP_COOLDOWN_SEC])
  · exact pinch_edge_trigger.1 initControl ([candRight], 1) [([candRight], 1.1)]
      rfl (by
        intro g hg
        rcases List.mem_cons.mp hg with h | h
        · rw [h]
          exact rightPinching_candRight
        · rw [List.mem_singleton.mp h]
          exact rightPinching_candRight)

/-- C10: the increment and decrement counters share one cooldown clock.
First conjunct: an accepted Right-hand step writes the single
`last_n_step_ts` timestamp.  Second conjunct: an accepted Left-hand step
writes the same timestamp.  Third conjunct: a Left-hand pinch edge arriving
within `PINCH_STEP_COOLDOWN_SEC` of that shared timestamp is suppressed —
the decrement counter does not change and the UI reason reads `cooldown` —
even when the timestamp was set by the opposite hand.  Fourth conjunct: the
concrete cross-hand run — an accepted Right-hand increment at time `1`
followed by a Left-hand pinch edge at time `1.2` — increments `n_inc_count`
to `1`, sets the shared clock to `1`, and blocks the decrement
(`n_dec_count` stays `0`, reason `cooldown`). -/
theorem step_cooldown_shared :
    (∀ (c : CameraControlState) (cands : List Candidate) (now : ℝ),
      c.right_pinch_latched = false → rightPinching cands = true →
      _two_hand_zoom_pair cands = none →
      now - c.last_n_step_ts ≥ PINCH_STEP_COOLDOWN_SEC →
      (_update_camera_controls c cands now).last_n_step_ts = now) ∧
    (∀ (c : CameraControlState) (cands : List Candidate) (now : ℝ),
      c.left_pinch_latched = false → leftPinching cands = true →
      _two_hand_zoom_pair cands = none →
      now - c.last_n_step_ts ≥ PINCH_STEP_COOLDOWN_SEC →
      (_update_camera_controls c cands now).last_n_step_ts = now ∧
      (_update_camera_controls c cands now).n_dec_count = c.n_dec_count + 1) ∧
    (∀ (c : CameraControlState) (cands : List Candidate) (now : ℝ),
      c.left_pinch_latched = false → leftPinching cands = true →
      _two_hand_zoom_pair cands = none →
      now - c.last_n_step_ts < PINCH_STEP_COOLDOWN_SEC →
      (_update_camera_controls c cands now).n_dec_count = c.n_dec_count ∧
      (_update_camera_controls c cands now).pinch_suppressed_reason =
        "cooldown") ∧
    ((_update_camera_controls initControl [candRight] 1).n_inc_count = 1 ∧
     (_update_camera_controls initControl [candRight] 1).last_n_step_ts = 1 ∧
     (_update_camera_controls
       (_update_camera_controls initControl [candRight] 1)
       [candLeft] 1.2).n_dec_count = 0 ∧
     (_update_camera_controls
       (_update_camera_controls initControl [candRight] 1)
       [candLeft] 1.2).pinch_suppressed_reason = "cooldown" ∧
     (_update_camera_controls
       (_update_camera_controls initControl [candRight] 1)
       [candLeft] 1.2).n_inc_count = 1) := by
  refine ⟨?_, ?_, ?_, ?_⟩
  · intro c cands now h1 h2 h3 h4
    exact (update_right_accept c cands now h1 h2 h3 h4).2.1
  · intro c cands now h1 h2 h3 h4
    obtain ⟨g1, g2, g3, g4⟩ := update_left_accept c cands now h1 h2 h3 h4
    exact ⟨g2, g1⟩
  · intro c cands now h1 h2 h3 h4
    obtain ⟨g1, g2, g3, g4, g5⟩ :=
      update_left_cooldown_suppressed c cands now h1 h2 h3 h4
    exact ⟨g1, g5⟩
  · obtain ⟨a1, a2, a3, a4, a5⟩ := update_right_accept initControl [candRight] 1
      rfl rightPinching_candRight pair_candRight
      (by norm_num [initControl, PINCH_STEP_COOLDOWN_SEC])
    have hn0 : (_update_camera_controls initControl [candRight] 1).n_inc_count
        = 1 := by
      rw [a1]
      norm_num [initControl]
    have hd0 : (_update_camera_controls initControl [candRight] 1).n_dec_count
        = 0 := by
      rw [a4]
      norm_num [initControl]
    obtain ⟨b1, b2, b3, b4, b5⟩ := update_left_cooldown_suppressed
      (_update_camera_controls initControl [candRight] 1) [candLeft] 1.2
      a5 leftPinching_candLeft pair_candLeft
      (by rw [a2]; norm_num [PINCH_STEP_COOLDOWN_SEC])
    refine ⟨hn0, a2, ?_, b5, ?_⟩
    · rw [b1, hd0]
    · rw [b4, hn0]

/-- Witness for `step_cooldown_shared`: the accepted Right-hand step at
time `1` from the default state sets the shared cooldown timestamp. -/
theorem step_cooldown_shared_witness :
    (_update_camera_controls initControl [candRight] 1).last_n_step_ts = 1 :=
  step_cooldown_shared.1 initControl [candRight] 1 rfl
    rightPinching_candRight pair_candRight
    (by norm_num [initControl, PINCH_STEP_COOLDOWN_SEC])

/-! ## C8/C4: stages that leave the fist machines unchanged -/

theorem updateStageSources_paused (c : CameraControlState) (a : Candidate) :
    (updateStageSources c a).paused = c.paused := by
  rfl

theorem updateStageZoomLine_paused (c : CameraControlState) (zp : Option (Candidate × Candidate × ℝ)) :
    (updateStageZoomLine c zp).paused = c.paused := by
  cases zp with
  | none => rfl
  | some p => obtain ⟨a, b, m⟩ := p; rfl

theorem updateStageZoomEngine_paused (c : CameraControlState) (zp : Option (Candidate × Candidate × ℝ)) :
    (updateStageZoomEngine c zp).paused = c.paused := by
  unfold updateStageZoomEngine
  cases zp with
  | none => rfl
  | some p =>
    obtain ⟨a, b, m⟩ := p
    dsimp only
    split <;> rfl

theorem updateStageZoomVelocity_paused (c : CameraControlState) (zoom_before dt : ℝ) :
    (updateStageZoomVelocity c zoom_before dt).paused = c.paused := by
  unfold updateStageZoomVelocity
  split <;> rfl

theorem updateStageRotation_paused (c : CameraControlState) (zp : Option (Candidate × Candidate × ℝ)) (dt : ℝ) :
    (updateStageRotation c zp dt).paused = c.paused := by
  unfold updateStageRotation
  dsimp only
  repeat' split
  all_goals rfl

theorem rightPinchBlock_paused (c : CameraControlState) (now : ℝ) (za : Bool) :
    (rightPinchBlock c now za).paused = c.paused := by
  unfold rightPinchBlock
  dsimp only
  repeat' split
  all_goals rfl

theorem leftPinchBlock_paused (c : CameraControlState) (now : ℝ) (za : Bool) :
    (leftPinchBlock c now za).paused = c.paused := by
  unfold leftPinchBlock
  dsimp only
  repeat' split
  all_goals rfl

theorem updateStagePinchSteps_paused (c : CameraControlState) (cands : List Candidate) (za : Bool) (now : ℝ) :
    (updateStagePinchSteps c cands za now).paused = c.paused := by
  unfold updateStagePinchSteps
  dsimp only
  split <;> split <;>
    simp only [leftPinchBlock_paused, rightPinchBlock_paused]

theorem updateStagePendingResolve_paused (c : CameraControlState) (now : ℝ) :
    (updateStagePendingResolve c now).paused = c.paused := by
  unfold updateStagePendingResolve
  dsimp only
  repeat' split
  all_goals rfl

theorem demoStep_paused (x : CameraControlState) (e : ℝ) :
    (if x.paused = false then { x with demo_phase := e } else x).paused = x.paused := by
  split <;> rfl

theorem _export_live_controls_paused (c : CameraControlState) (now : ℝ) :
    (_export_live_controls c now).paused = c.paused := by
  unfold _export_live_controls
  dsimp only
  split <;> rfl

theorem updateStageSources_camera_locked (c : CameraControlState) (a : Candidate) :
    (updateStageSources c a).camera_locked = c.camera_locked := by
  rfl

theorem updateStageZoomLine_camera_locked (c : CameraControlState) (zp : Option (Candidate × Candidate × ℝ)) :
    (updateStageZoomLine c zp).camera_locked = c.camera_locked := by
  cases zp with
  | none => rfl
  | some p => obtain ⟨a, b, m⟩ := p; rfl

theorem updateStageZoomEngine_camera_locked (c : CameraControlState) (zp : Option (Candidate × Candidate × ℝ)) :
    (updateStageZoomEngine c zp).camera_locked = c.camera_locked := by
  unfold updateStageZoomEngine
  cases zp with
  | none => rfl
  | some p =>
    obtain ⟨a, b, m⟩ := p
    dsimp only
    split <;> rfl

theorem updateStageZoomVelocity_camera_locked (c : CameraControlState) (zoom_before dt : ℝ) :
    (updateStageZoomVelocity c zoom_before dt).camera_locked = c.camera_locked := by
  unfold updateStageZoomVelocity
  split <;> rfl

theorem updateStageRotation_camera_locked (c : CameraControlState) (zp : Option (Candidate × Candidate × ℝ)) (dt : ℝ) :
    (updateStageRotation c zp dt).camera_locked = c.camera_locked := by
  unfold updateStageRotation
  dsimp only
  repeat' split
  all_goals rfl

theorem rightPinchBlock_camera_locked (c : CameraControlState) (now : ℝ) (za : Bool) :
    (rightPinchBlock c now za).camera_locked = c.camera_locked := by
  unfold rightPinchBlock
  dsimp only
  repeat' split
  all_goals rfl

theorem leftPinchBlock_camera_locked (c : CameraControlState) (now : ℝ) (za : Bool) :
    (leftPinchBlock c now za).camera_locked = c.camera_locked := by
  unfold leftPinchBlock
  dsimp only
  repeat' split
  all_goals rfl

theorem updateStagePinchSteps_camera_locked (c : CameraControlState) (cands : List Candidate) (za : Bool) (now : ℝ) :
    (updateStagePinchSteps c cands za now).camera_locked = c.camera_locked := by
  unfold updateStagePinchSteps
  dsimp only
  split <;> split <;>
    simp only [leftPinchBlock_camera_locked, rightPinchBlock_camera_locked]

theorem updateStagePendingResolve_camera_locked (c : CameraControlState) (now : ℝ) :
    (updateStagePendingResolve c now).camera_locked = c.camera_locked := by
  unfold updateStagePendingResolve
  dsimp only
  repeat' split
  all_goals rfl

theorem demoStep_camera_locked (x : CameraControlState) (e : ℝ) :
    (if x.paused = false then { x with demo_phase := e } else x).camera_locked = x.camera_locked := by
  split <;> rfl

theorem _export_live_controls_camera_locked (c : CameraControlState) (now : ℝ) :
    (_export_live_controls c now).camera_locked = c.camera_locked := by
  unfold _export_live_controls
  dsimp only
  split <;> rfl

theorem updateStageSources_single_fist_latched (c : CameraControlState) (a : Candidate) :
    (updateStageSources c a).single_fist_latched = c.single_fist_latched := by
  rfl

theorem updateStageZoomLine_single_fist_latched (c : CameraControlState) (zp : Option (Candidate × Candidate × ℝ)) :
    (updateStageZoomLine c zp).single_fist_latched = c.single_fist_latched := by
  cases zp with
  | none => rfl
  | some p => obtain ⟨a, b, m⟩ := p; rfl

theorem updateStageZoomEngine_single_fist_latched (c : CameraControlState) (zp : Option (Candidate × Candidate × ℝ)) :
    (updateStageZoomEngine c zp).single_fist_latched = c.single_fist_latched := by
  unfold updateStageZoomEngine
  cases zp with
  | none => rfl
  | some p =>
    obtain ⟨a, b, m⟩ := p
    dsimp only
    split <;> rfl

theorem updateStageZoomVelocity_single_fist_latched (c : CameraControlState) (zoom_before dt : ℝ) :
    (updateStageZoomVelocity c zoom_before dt).single_fist_latched = c.single_fist_latched := by
  unfold updateStageZoomVelocity
  split <;> rfl

theorem updateStageRotation_single_fist_latched (c : CameraControlState) (zp : Option (Candidate × Candidate × ℝ)) (dt : ℝ) :
    (updateStageRotation c zp dt).single_fist_latched = c.single_fist_latched := by
  unfold updateStageRotation
  dsimp only
  repeat' split
  all_goals rfl

theorem rightPinchBlock_single_fist_latched (c : CameraControlState) (now : ℝ) (za : Bool) :
    (rightPinchBlock c now za).single_fist_latched = c.single_fist_latched := by
  unfold rightPinchBlock
  dsimp only
  repeat' split
  all_goals rfl

theorem leftPinchBlock_single_fist_latched (c : CameraControlState) (now : ℝ) (za : Bool) :
    (leftPinchBlock c now za).single_fist_latched = c.single_fist_latched := by
  unfold leftPinchBlock
  dsimp only
  repeat' split
  all_goals rfl

theorem updateStagePinchSteps_single_fist_latched (c : CameraControlState) (cands : List Candidate) (za : Bool) (now : ℝ) :
    (updateStagePinchSteps c cands za now).single_fist_latched = c.single_fist_latched := by
  unfold updateStagePinchSteps
  dsimp only
  split <;> split <;>
    simp only [leftPinchBlock_single_fist_latched, rightPinchBlock_single_fist_latched]

theorem updateStagePendingResolve_single_fist_latched (c : CameraControlState) (now : ℝ) :
    (updateStagePendingResolve c now).single_fist_latched = c.single_fist_latched := by
  unfold updateStagePendingResolve
  dsimp only
  repeat' split
  all_goals rfl

theorem demoStep_single_fist_latched (x : CameraControlState) (e : ℝ) :
    (if x.paused = false then { x with demo_phase := e } else x).single_fist_latched = x.single_fist_latched := by
  split <;> rfl

theorem _export_live_controls_single_fist_latched (c : CameraControlState) (now : ℝ) :
    (_export_live_controls c now).single_fist_latched = c.single_fist_latched := by
  unfold _export_live_controls
  dsimp only
  split <;> rfl

theorem updateStageSources_dual_fist_latched (c : CameraControlState) (a : Candidate) :
    (updateStageSources c a).dual_fist_latched = c.dual_fist_latched := by
  rfl

theorem updateStageZoomLine_dual_fist_latched (c : CameraControlState) (zp : Option (Candidate × Candidate × ℝ)) :
    (updateStageZoomLine c zp).dual_fist_latched = c.dual_fist_latched := by
  cases zp with
  | none => rfl
  | some p => obtain ⟨a, b, m⟩ := p; rfl

theorem updateStageZoomEngine_dual_fist_latched (c : CameraControlState) (zp : Option (Candidate × Candidate × ℝ)) :
    (updateStageZoomEngine c zp).dual_fist_latched = c.dual_fist_latched := by
  unfold updateStageZoomEngine
  cases zp with
  | none => rfl
  | some p =>
    obtain ⟨a, b, m⟩ := p
    dsimp only
    split <;> rfl

theorem updateStageZoomVelocity_dual_fist_latched (c : CameraControlState) (zoom_before dt : ℝ) :
    (updateStageZoomVelocity c zoom_before dt).dual_fist_latched = c.dual_fist_latched := by
  unfold updateStageZoomVelocity
  split <;> rfl

theorem updateStageRotation_dual_fist_latched (c : CameraControlState) (zp : Option (Candidate × Candidate × ℝ)) (dt : ℝ) :
    (updateStageRotation c zp dt).dual_fist_latched = c.dual_fist_latched := by
  unfold updateStageRotation
  dsimp only
  repeat' split
  all_goals rfl

theorem rightPinchBlock_dual_fist_latched (c : CameraControlState) (now : ℝ) (za : Bool) :
    (rightPinchBlock c now za).dual_fist_latched = c.dual_fist_latched := by
  unfold rightPinchBlock
  dsimp only
  repeat' split
  all_goals rfl

theorem leftPinchBlock_dual_fist_latched (c : CameraControlState) (now : ℝ) (za : Bool) :
    (leftPinchBlock c now za).dual_fist_latched = c.dual_fist_latched := by
  unfold leftPinchBlock
  dsimp only
  repeat' split
  all_goals rfl

theorem updateStagePinchSteps_dual_fist_latched (c : CameraControlState) (cands : List Candidate) (za : Bool) (now : ℝ) :
    (updateStagePinchSteps c cands za now).dual_fist_latched = c.dual_fist_latched := by
  unfold updateStagePinchSteps
  dsimp only
  split <;> split <;>
    simp only [leftPinchBlock_dual_fist_latched, rightPinchBlock_dual_fist_latched]

theorem updateStagePendingResolve_dual_fist_latched (c : CameraControlState) (now : ℝ) :
    (updateStagePendingResolve c now).dual_fist_latched = c.dual_fist_latched := by
  unfold updateStagePendingResolve
  dsimp only
  repeat' split
  all_goals rfl

theorem demoStep_dual_fist_latched (x : CameraControlState) (e : ℝ) :
    (if x.paused = false then { x with demo_phase := e } else x).dual_fist_latched = x.dual_fist_latched := by
  split <;> rfl

theorem _export_live_controls_dual_fist_latched (c : CameraControlState) (now : ℝ) :
    (_export_live_controls c now).dual_fist_latched = c.dual_fist_latched := by
  unfold _export_live_controls
  dsimp only
  split <;> rfl

theorem updateStageSources_single_fist_hold_start_ts (c : CameraControlState) (a : Candidate) :
    (updateStageSources c a).single_fist_hold_start_ts = c.single_fist_hold_start_ts := by
  rfl

theorem updateStageZoomLine_single_fist_hold_start_ts (c : CameraControlState) (zp : Option (Candidate × Candidate × ℝ)) :
    (updateStageZoomLine c zp).single_fist_hold_start_ts = c.single_fist_hold_start_ts := by
  cases zp with
  | none => rfl
  | some p => obtain ⟨a, b, m⟩ := p; rfl

theorem updateStageZoomEngine_single_fist_hold_start_ts (c : CameraControlState) (zp : Option (Candidate × Candidate × ℝ)) :
    (updateStageZoomEngine c zp).single_fist_hold_start_ts = c.single_fist_hold_start_ts := by
  unfold updateStageZoomEngine
  cases zp with
  | none => rfl
  | some p =>
    obtain ⟨a, b, m⟩ := p
    dsimp only
    split <;> rfl

theorem updateStageZoomVelocity_single_fist_hold_start_ts (c : CameraControlState) (zoom_before dt : ℝ) :
    (updateStageZoomVelocity c zoom_before dt).single_fist_hold_start_ts = c.single_fist_hold_start_ts := by
  unfold updateStageZoomVelocity
  split <;> rfl

theorem updateStageRotation_single_fist_hold_start_ts (c : CameraControlState) (zp : Option (Candidate × Candidate × ℝ)) (dt : ℝ) :
    (updateStageRotation c zp dt).single_fist_hold_start_ts = c.single_fist_hold_start_ts := by
  unfold updateStageRotation
  dsimp only
  repeat' split
  all_goals rfl

theorem rightPinchBlock_single_fist_hold_start_ts (c : CameraControlState) (now : ℝ) (za : Bool) :
    (rightPinchBlock c now za).single_fist_hold_start_ts = c.single_fist_hold_start_ts := by
  unfold rightPinchBlock
  dsimp only
  repeat' split
  all_goals rfl

theorem leftPinchBlock_single_fist_hold_start_ts (c : CameraControlState) (now : ℝ) (za : Bool) :
    (leftPinchBlock c now za).single_fist_hold_start_ts = c.single_fist_hold_start_ts := by
  unfold leftPinchBlock
  dsimp only
  repeat' split
  all_goals rfl

theorem updateStagePinchSteps_single_fist_hold_start_ts (c : CameraControlState) (cands : List Candidate) (za : Bool) (now : ℝ) :
    (updateStagePinchSteps c cands za now).single_fist_hold_start_ts = c.single_fist_hold_start_ts := by
  unfold updateStagePinchSteps
  dsimp only
  split <;> split <;>
    simp only [leftPinchBlock_single_fist_hold_start_ts, rightPinchBlock_single_fist_hold_start_ts]

theorem updateStagePendingResolve_single_fist_hold_start_ts (c : CameraControlState) (now : ℝ) :
    (updateStagePendingResolve c now).single_fist_hold_start_ts = c.single_fist_hold_start_ts := by
  unfold updateStagePendingResolve
  dsimp only
  repeat' split
  all_goals rfl

theorem demoStep_single_fist_hold_start_ts (x : CameraControlState) (e : ℝ) :
    (if x.paused = false then { x with demo_phase := e } else x).single_fist_hold_start_ts = x.single_fist_hold_start_ts := by
  split <;> rfl

theorem _export_live_controls_single_fist_hold_start_ts (c : CameraControlState) (now : ℝ) :
    (_export_live_controls c now).single_fist_hold_start_ts = c.single_fist_hold_start_ts := by
  unfold _export_live_controls
  dsimp only
  split <;> rfl

theorem updateStageSources_dual_fist_hold_start_ts (c : CameraControlState) (a : Candidate) :
    (updateStageSources c a).dual_fist_hold_start_ts = c.dual_fist_hold_start_ts := by
  rfl

theorem updateStageZoomLine_dual_fist_hold_start_ts (c : CameraControlState) (zp : Option (Candidate × Candidate × ℝ)) :
    (updateStageZoomLine c zp).dual_fist_hold_start_ts = c.dual_fist_hold_start_ts := by
  cases zp with
  | none => rfl
  | some p => obtain ⟨a, b, m⟩ := p; rfl

theorem updateStageZoomEngine_dual_fist_hold_start_ts (c : CameraControlState) (zp : Option (Candidate × Candidate × ℝ)) :
    (updateStageZoomEngine c zp).dual_fist_hold_start_ts = c.dual_fist_hold_start_ts := by
  unfold updateStageZoomEngine
  cases zp with
  | none => rfl
  | some p =>
    obtain ⟨a, b, m⟩ := p
    dsimp only
    split <;> rfl

theorem updateStageZoomVelocity_dual_fist_hold_start_ts (c : CameraControlState) (zoom_before dt : ℝ) :
    (updateStageZoomVelocity c zoom_before dt).dual_fist_hold_start_ts = c.dual_fist_hold_start_ts := by
  unfold updateStageZoomVelocity
  split <;> rfl

theorem updateStageRotation_dual_fist_hold_start_ts (c : CameraControlState) (zp : Option (Candidate × Candidate × ℝ)) (dt : ℝ) :
    (updateStageRotation c zp dt).dual_fist_hold_start_ts = c.dual_fist_hold_start_ts := by
  unfold updateStageRotation
  dsimp only
  repeat' split
  all_goals rfl

theorem rightPinchBlock_dual_fist_hold_start_ts (c : CameraControlState) (now : ℝ) (za : Bool) :
    (rightPinchBlock c now za).dual_fist_hold_start_ts = c.dual_fist_hold_start_ts := by
  unfold rightPinchBlock
  dsimp only
  repeat' split
  all_goals rfl

theorem leftPinchBlock_dual_fist_hold_start_ts (c : CameraControlState) (now : ℝ) (za : Bool) :
    (leftPinchBlock c now za).dual_fist_hold_start_ts = c.dual_fist_hold_start_ts := by
  unfold leftPinchBlock
  dsimp only
  repeat' split
  all_goals rfl

theorem updateStagePinchSteps_dual_fist_hold_start_ts (c : CameraControlState) (cands : List Candidate) (za : Bool) (now : ℝ) :
    (updateStagePinchSteps c cands za now).dual_fist_hold_start_ts = c.dual_fist_hold_start_ts := by
  unfold updateStagePinchSteps
  dsimp only
  split <;> split <;>
    simp only [leftPinchBlock_dual_fist_hold_start_ts, rightPinchBlock_dual_fist_hold_start_ts]

theorem updateStagePendingResolve_dual_fist_hold_start_ts (c : CameraControlState) (now : ℝ) :
    (updateStagePendingResolve c now).dual_fist_hold_start_ts = c.dual_fist_hold_start_ts := by
  unfold updateStagePendingResolve
  dsimp only
  repeat' split
  all_goals rfl

theorem demoStep_dual_fist_hold_start_ts (x : CameraControlState) (e : ℝ) :
    (if x.paused = false then { x with demo_phase := e } else x).dual_fist_hold_start_ts = x.dual_fist_hold_start_ts := by
  split <;> rfl

theorem _export_live_controls_dual_fist_hold_start_ts (c : CameraControlState) (now : ℝ) :
    (_export_live_controls c now).dual_fist_hold_start_ts = c.dual_fist_hold_start_ts := by
  unfold _export_live_controls
  dsimp only
  split <;> rfl

theorem updateStageSources_fist_release_start_ts (c : CameraControlState) (a : Candidate) :
    (updateStageSources c a).fist_release_start_ts = c.fist_release_start_ts := by
  rfl

theorem updateStageZoomLine_fist_release_start_ts (c : CameraControlState) (zp : Option (Candidate × Candidate × ℝ)) :
    (updateStageZoomLine c zp).fist_release_start_ts = c.fist_release_start_ts := by
  cases zp with
  | none => rfl
  | some p => obtain ⟨a, b, m⟩ := p; rfl

theorem updateStageZoomEngine_fist_release_start_ts (c : CameraControlState) (zp : Option (Candidate × Candidate × ℝ)) :
    (updateStageZoomEngine c zp).fist_release_start_ts = c.fist_release_start_ts := by
  unfold updateStageZoomEngine
  cases zp with
  | none => rfl
  | some p =>
    obtain ⟨a, b, m⟩ := p
    dsimp only
    split <;> rfl

theorem updateStageZoomVelocity_fist_release_start_ts (c : CameraControlState) (zoom_before dt : ℝ) :
    (updateStageZoomVelocity c zoom_before dt).fist_release_start_ts = c.fist_release_start_ts := by
  unfold updateStageZoomVelocity
  split <;> rfl

theorem updateStageRotation_fist_release_start_ts (c : CameraControlState) (zp : Option (Candidate × Candidate × ℝ)) (dt : ℝ) :
    (updateStageRotation c zp dt).fist_release_start_ts = c.fist_release_start_ts := by
  unfold updateStageRotation
  dsimp only
  repeat' split
  all_goals rfl

theorem rightPinchBlock_fist_release_start_ts (c : CameraControlState) (now : ℝ) (za : Bool) :
    (rightPinchBlock c now za).fist_release_start_ts = c.fist_release_start_ts := by
  unfold rightPinchBlock
  dsimp only
  repeat' split
  all_goals rfl

theorem leftPinchBlock_fist_release_start_ts (c : CameraControlState) (now : ℝ) (za : Bool) :
    (leftPinchBlock c now za).fist_release_start_ts = c.fist_release_start_ts := by
  unfold leftPinchBlock
  dsimp only
  repeat' split
  all_goals rfl

theorem updateStagePinchSteps_fist_release_start_ts (c : CameraControlState) (cands : List Candidate) (za : Bool) (now : ℝ) :
    (updateStagePinchSteps c cands za now).fist_release_start_ts = c.fist_release_start_ts := by
  unfold updateStagePinchSteps
  dsimp only
  split <;> split <;>
    simp only [leftPinchBlock_fist_release_start_ts, rightPinchBlock_fist_release_start_ts]

theorem updateStagePendingResolve_fist_release_start_ts (c : CameraControlState) (now : ℝ) :
    (updateStagePendingResolve c now).fist_release_start_ts = c.fist_release_start_ts := by
  unfold updateStagePendingResolve
  dsimp only
  repeat' split
  all_goals rfl

theorem demoStep_fist_release_start_ts (x : CameraControlState) (e : ℝ) :
    (if x.paused = false then { x with demo_phase := e } else x).fist_release_start_ts = x.fist_release_start_ts := by
  split <;> rfl

theorem _export_live_controls_fist_release_start_ts (c : CameraControlState) (now : ℝ) :
    (_export_live_controls c now).fist_release_start_ts = c.fist_release_start_ts := by
  unfold _export_live_controls
  dsimp only
  split <;> rfl
/-! ## C8/C4: characterizations of the fist machines -/

theorem releaseFists_paused (c : CameraControlState) (now : ℝ) :
    (releaseFists c now).paused = c.paused := by
  unfold releaseFists
  dsimp only
  repeat' split
  all_goals rfl

theorem releaseFists_camera_locked (c : CameraControlState) (now : ℝ) :
    (releaseFists c now).camera_locked = c.camera_locked := by
  unfold releaseFists
  dsimp only
  repeat' split
  all_goals rfl

theorem releaseFists_single_hold (c : CameraControlState) (now : ℝ) :
    (releaseFists c now).single_fist_hold_start_ts = 0 := by
  unfold releaseFists
  dsimp only
  repeat' split
  all_goals rfl

theorem releaseFists_dual_hold (c : CameraControlState) (now : ℝ) :
    (releaseFists c now).dual_fist_hold_start_ts = 0 := by
  unfold releaseFists
  dsimp only
  repeat' split
  all_goals rfl

theorem releaseFists_release_ts (c : CameraControlState) (now : ℝ) :
    (releaseFists c now).fist_release_start_ts =
      if c.fist_release_start_ts = 0 then now else c.fist_release_start_ts := by
  unfold releaseFists
  dsimp only
  repeat' split
  all_goals rfl

theorem releaseFists_latches_expired (c : CameraControlState) (now : ℝ)
    (h0 : c.fist_release_start_ts ≠ 0)
    (hge : now - c.fist_release_start_ts ≥ FIST_RELEASE_RESET_SEC) :
    (releaseFists c now).single_fist_latched = false ∧
    (releaseFists c now).dual_fist_latched = false := by
  unfold releaseFists
  dsimp only
  rw [if_neg h0, if_pos hge]
  exact ⟨rfl, rfl⟩

theorem releaseFists_latches_running (c : CameraControlState) (now : ℝ)
    (hlt : now - (if c.fist_release_start_ts = 0 then now
      else c.fist_release_start_ts) < FIST_RELEASE_RESET_SEC) :
    (releaseFists c now).single_fist_latched = c.single_fist_latched ∧
    (releaseFists c now).dual_fist_latched = c.dual_fist_latched := by
  unfold releaseFists
  dsimp only
  rw [if_neg (not_le.mpr hlt)]
  exact ⟨rfl, rfl⟩

theorem updateStageFists_dual_nohold (c : CameraControlState)
    (cands : List Candidate) (now : ℝ)
    (hd : fistCount cands ≥ 2)
    (hh : ¬ now - (if c.dual_fist_hold_start_ts = 0 then now
      else c.dual_fist_hold_start_ts) ≥ FIST_HOLD_TO_TOGGLE_SEC) :
    updateStageFists c cands now =
      { c with dual_fist_hold_start_ts :=
                 if c.dual_fist_hold_start_ts = 0 then now
                 else c.dual_fist_hold_start_ts,
               single_fist_hold_start_ts := 0,
               fist_release_start_ts := 0 } := by
  unfold updateStageFists
  dsimp only
  rw [if_pos hd, if_neg (fun hcon => hh hcon.1)]

theorem updateStageFists_single_nohold (c : CameraControlState)
    (cands : List Candidate) (now : ℝ)
    (hd : ¬ fistCount cands ≥ 2)
    (hs : fistCount cands = 1 ∧ cands.length = 1)
    (hh : ¬ now - (if c.single_fist_hold_start_ts = 0 then now
      else c.single_fist_hold_start_ts) ≥ FIST_HOLD_TO_TOGGLE_SEC) :
    updateStageFists c cands now =
      { c with single_fist_hold_start_ts :=
                 if c.single_fist_hold_start_ts = 0 then now
                 else c.single_fist_hold_start_ts,
               dual_fist_hold_start_ts := 0,
               fist_release_start_ts := 0 } := by
  unfold updateStageFists
  dsimp only
  rw [if_neg hd, if_pos hs, if_neg (fun hcon => hh hcon.1)]

theorem updateStageFists_neither (c : CameraControlState)
    (cands : List Candidate) (now : ℝ)
    (hd : ¬ fistCount cands ≥ 2)
    (hs : ¬ (fistCount cands = 1 ∧ cands.length = 1)) :
    updateStageFists c cands now = releaseFists c now := by
  unfold updateStageFists
  dsimp only
  rw [if_neg hd, if_neg hs]

/-- The pipeline prefix in front of the fist stage (stages A-F of
`_update_camera_controls` when an active hand exists). -/
noncomputable def preFistStages (c : CameraControlState)
    (cands : List Candidate) (now : ℝ) (act : Candidate) : CameraControlState :=
  updateStagePinchSteps (prePinchStages c cands now act) cands
    (_two_hand_zoom_pair cands).isSome now

theorem preFistStages_fields (c : CameraControlState)
    (cands : List Candidate) (now : ℝ) (act : Candidate) :
    (preFistStages c cands now act).paused = c.paused ∧
    (preFistStages c cands now act).camera_locked = c.camera_locked ∧
    (preFistStages c cands now act).single_fist_hold_start_ts =
      c.single_fist_hold_start_ts ∧
    (preFistStages c cands now act).dual_fist_hold_start_ts =
      c.dual_fist_hold_start_ts ∧
    (preFistStages c cands now act).single_fist_latched =
      c.single_fist_latched ∧
    (preFistStages c cands now act).dual_fist_latched = c.dual_fist_latched ∧
    (preFistStages c cands now act).fist_release_start_ts =
      c.fist_release_start_ts := by
  unfold preFistStages prePinchStages
  simp only [updateStagePinchSteps_paused, updateStagePinchSteps_camera_locked,
    updateStagePinchSteps_single_fist_hold_start_ts,
    updateStagePinchSteps_dual_fist_hold_start_ts,
    updateStagePinchSteps_single_fist_latched,
    updateStagePinchSteps_dual_fist_latched,
    updateStagePinchSteps_fist_release_start_ts,
    updateStageRotation_paused, updateStageRotation_camera_locked,
    updateStageRotation_single_fist_hold_start_ts,
    updateStageRotation_dual_fist_hold_start_ts,
    updateStageRotation_single_fist_latched,
    updateStageRotation_dual_fist_latched,
    updateStageRotation_fist_release_start_ts,
    updateStageZoomVelocity_paused, updateStageZoomVelocity_camera_locked,
    updateStageZoomVelocity_single_fist_hold_start_ts,
    updateStageZoomVelocity_dual_fist_hold_start_ts,
    updateStageZoomVelocity_single_fist_latched,
    updateStageZoomVelocity_dual_fist_latched,
    updateStageZoomVelocity_fist_release_start_ts,
    updateStageZoomEngine_paused, updateStageZoomEngine_camera_locked,
    updateStageZoomEngine_single_fist_hold_start_ts,
    updateStageZoomEngine_dual_fist_hold_start_ts,
    updateStageZoomEngine_single_fist_latched,
    updateStageZoomEngine_dual_fist_latched,
    updateStageZoomEngine_fist_release_start_ts,
    updateStageZoomLine_paused, updateStageZoomLine_camera_locked,
    updateStageZoomLine_single_fist_hold_start_ts,
    updateStageZoomLine_dual_fist_hold_start_ts,
    updateStageZoomLine_single_fist_latched,
    updateStageZoomLine_dual_fist_latched,
    updateStageZoomLine_fist_release_start_ts,
    updateStageSources_paused, updateStageSources_camera_locked,
    updateStageSources_single_fist_hold_start_ts,
    updateStageSources_dual_fist_hold_start_ts,
    updateStageSources_single_fist_latched,
    updateStageSources_dual_fist_latched,
    updateStageSources_fist_release_start_ts]
  exact ⟨trivial, trivial, trivial, trivial, trivial, trivial, trivial⟩

theorem update_via_fistStage (c : CameraControlState)
    (cands : List Candidate) (now : ℝ) (act : Candidate)
    (hact : _select_control_hand cands = some act) :
    (_update_camera_controls c cands now).paused =
      (updateStageFists (preFistStages c cands now act) cands now).paused ∧
    (_update_camera_controls c cands now).camera_locked =
      (updateStageFists (preFistStages c cands now act) cands now).camera_locked ∧
    (_update_camera_controls c cands now).single_fist_hold_start_ts =
      (updateStageFists (preFistStages c cands now act) cands
        now).single_fist_hold_start_ts ∧
    (_update_camera_controls c cands now).dual_fist_hold_start_ts =
      (updateStageFists (preFistStages c cands now act) cands
        now).dual_fist_hold_start_ts ∧
    (_update_camera_controls c cands now).single_fist_latched =
      (updateStageFists (preFistStages c cands now act) cands
        now).single_fist_latched ∧
    (_update_camera_controls c cands now).dual_fist_latched =
      (updateStageFists (preFistStages c cands now act) cands
        now).dual_fist_latched ∧
    (_update_camera_controls c cands now).fist_release_start_ts =
      (updateStageFists (preFistStages c cands now act) cands
        now).fist_release_start_ts := by
  unfold _update_camera_controls preFistStages prePinchStages
  dsimp only
  simp only [hact]
  simp only [_export_live_controls_paused, _export_live_controls_camera_locked,
    _export_live_controls_single_fist_hold_start_ts,
    _export_live_controls_dual_fist_hold_start_ts,
    _export_live_controls_single_fist_latched,
    _export_live_controls_dual_fist_latched,
    _export_live_controls_fist_release_start_ts]
  simp only [demoStep_paused, demoStep_camera_locked,
    demoStep_single_fist_hold_start_ts, demoStep_dual_fist_hold_start_ts,
    demoStep_single_fist_latched, demoStep_dual_fist_latched,
    demoStep_fist_release_start_ts]
  simp only [updateStagePendingResolve_paused,
    updateStagePendingResolve_camera_locked,
    updateStagePendingResolve_single_fist_hold_start_ts,
    updateStagePendingResolve_dual_fist_hold_start_ts,
    updateStagePendingResolve_single_fist_latched,
    updateStagePendingResolve_dual_fist_latched,
    updateStagePendingResolve_fist_release_start_ts]
  exact ⟨trivial, trivial, trivial, trivial, trivial, trivial, trivial⟩
theorem update_none_fists (c : CameraControlState) (cands : List Candidate)
    (now : ℝ) (hsel : _select_control_hand cands = none) :
    (_update_camera_controls c cands now).paused = c.paused ∧
    (_update_camera_controls c cands now).camera_locked = c.camera_locked ∧
    (_update_camera_controls c cands now).single_fist_hold_start_ts = 0 ∧
    (_update_camera_controls c cands now).dual_fist_hold_start_ts = 0 ∧
    (_update_camera_controls c cands now).single_fist_latched =
      (releaseFists c now).single_fist_latched ∧
    (_update_camera_controls c cands now).dual_fist_latched =
      (releaseFists c now).dual_fist_latched ∧
    (_update_camera_controls c cands now).fist_release_start_ts =
      (releaseFists c now).fist_release_start_ts := by
  unfold _update_camera_controls
  dsimp only
  simp only [hsel]
  simp only [_export_live_controls_paused, _export_live_controls_camera_locked,
    _export_live_controls_single_fist_hold_start_ts,
    _export_live_controls_dual_fist_hold_start_ts,
    _export_live_controls_single_fist_latched,
    _export_live_controls_dual_fist_latched,
    _export_live_controls_fist_release_start_ts]
  simp only [demoStep_paused, demoStep_camera_locked,
    demoStep_single_fist_hold_start_ts, demoStep_dual_fist_hold_start_ts,
    demoStep_single_fist_latched, demoStep_dual_fist_latched,
    demoStep_fist_release_start_ts]
  simp only [updateStagePendingResolve_paused,
    updateStagePendingResolve_camera_locked,
    updateStagePendingResolve_single_fist_hold_start_ts,
    updateStagePendingResolve_dual_fist_hold_start_ts,
    updateStagePendingResolve_single_fist_latched,
    updateStagePendingResolve_dual_fist_latched,
    updateStagePendingResolve_fist_release_start_ts]
  unfold updateStageNoActive releaseFists
  dsimp only
  repeat' split
  all_goals exact ⟨rfl, rfl, rfl, rfl, rfl, rfl, rfl⟩
/-- Hand `a` of the fist runs: a fist-classified candidate, not in pinch
pose. -/
noncomputable def candFistA : Candidate :=
  { label := "hand-a", score := 0.9, gesture := "fist", pinch_rat := 0.5,
    pinch_pose := false, pair_center := (0.4, 0.5), palm_scale := 0.1 }

/-- Hand `b` of the dual-fist runs. -/
noncomputable def candFistB : Candidate :=
  { label := "hand-b", score := 0.8, gesture := "fist", pinch_rat := 0.5,
    pinch_pose := false, pair_center := (0.6, 0.5), palm_scale := 0.1 }

theorem dec_fist_fist : decide (("fist" : String) = "fist") = true := rfl

theorem fistCount_fistPair : fistCount [candFistA, candFistB] = 2 := by
  norm_num [fistCount, List.filter, candFistA, candFistB, dec_fist_fist]

/-- C8: per-frame debounce of the two hold-to-toggle fist machines.  If on
this frame the measured continuous hold duration of the dual-fist condition
(when it holds) is below `FIST_HOLD_TO_TOGGLE_SEC`, and likewise for the
single-fist condition, then neither `paused` nor `camera_locked` changes;
moreover each machine's hold-start timestamp is started/kept exactly on
frames where its condition is met and reset to `0` on frames where it is
not, so the hypotheses express precisely that the condition's continuous
duration stays below the hold threshold along any execution. -/
theorem fist_debounce (c : CameraControlState) (cands : List Candidate)
    (now : ℝ)
    (hdual : fistCount cands ≥ 2 →
      now - (if c.dual_fist_hold_start_ts = 0 then now
        else c.dual_fist_hold_start_ts) < FIST_HOLD_TO_TOGGLE_SEC)
    (hsingle : fistCount cands = 1 ∧ cands.length = 1 →
      now - (if c.single_fist_hold_start_ts = 0 then now
        else c.single_fist_hold_start_ts) < FIST_HOLD_TO_TOGGLE_SEC) :
    (_update_camera_controls c cands now).paused = c.paused ∧
    (_update_camera_controls c cands now).camera_locked = c.camera_locked ∧
    (fistCount cands ≥ 2 →
      (_update_camera_controls c cands now).dual_fist_hold_start_ts =
        (if c.dual_fist_hold_start_ts = 0 then now
         else c.dual_fist_hold_start_ts)) ∧
    (¬ fistCount cands ≥ 2 →
      (_update_camera_controls c cands now).dual_fist_hold_start_ts = 0) ∧
    (fistCount cands = 1 ∧ cands.length = 1 →
      (_update_camera_controls c cands now).single_fist_hold_start_ts =
        (if c.single_fist_hold_start_ts = 0 then now
         else c.single_fist_hold_start_ts)) ∧
    (¬ (fistCount cands = 1 ∧ cands.length = 1) →
      (_update_camera_controls c cands now).single_fist_hold_start_ts = 0) := by
  rcases cands with _ | ⟨x, xs⟩
  · obtain ⟨u1, u2, u3, u4, u5, u6, u7⟩ := update_none_fists c [] now rfl
    refine ⟨u1, u2, ?_, fun _ => u4, ?_, fun _ => u3⟩
    · intro h
      rw [show fistCount ([] : List Candidate) = 0 from rfl] at h
      exact absurd h (by norm_num)
    · intro h
      rw [show fistCount ([] : List Candidate) = 0 from rfl] at h
      exact absurd h.1 (by norm_num)
  · obtain ⟨act, hact⟩ := select_cons_isSome x xs
    obtain ⟨u1, u2, u3, u4, u5, u6, u7⟩ := update_via_fistStage c (x :: xs) now act hact
    obtain ⟨p1, p2, p3, p4, p5, p6, p7⟩ := preFistStages_fields c (x :: xs) now act
    by_cases hd : fistCount (x :: xs) ≥ 2
    · have hh : ¬ now -
          (if (preFistStages c (x :: xs) now act).dual_fist_hold_start_ts = 0
           then now
           else (preFistStages c (x :: xs) now act).dual_fist_hold_start_ts) ≥
          FIST_HOLD_TO_TOGGLE_SEC := by
        rw [p4]
        exact not_le.mpr (hdual hd)
      have hfe := updateStageFists_dual_nohold
        (preFistStages c (x :: xs) now act) (x :: xs) now hd hh
      refine ⟨?_, ?_, ?_, ?_, ?_, ?_⟩
      · rw [u1, hfe]
        exact p1
      · rw [u2, hfe]
        exact p2
      · intro _
        rw [u4, hfe]
        dsimp only
        rw [p4]
      · intro h
        exact absurd hd h
      · intro h
        rw [h.1] at hd
        exact absurd hd (by norm_num)
      · intro _
        rw [u3, hfe]
    · by_cases hs : fistCount (x :: xs) = 1 ∧ (x :: xs).length = 1
      · have hh : ¬ now -
            (if (preFistStages c (x :: xs) now act).single_fist_hold_start_ts = 0
             then now
             else (preFistStages c (x :: xs) now act).single_fist_hold_start_ts) ≥
            FIST_HOLD_TO_TOGGLE_SEC := by
          rw [p3]
          exact not_le.mpr (hsingle hs)
        have hfe := updateStageFists_single_nohold
          (preFistStages c (x :: xs) now act) (x :: xs) now hd hs hh
        refine ⟨?_, ?_, ?_, ?_, ?_, ?_⟩
        · rw [u1, hfe]
          exact p1
        · rw [u2, hfe]
          exact p2
        · intro h
          exact absurd h hd
        · intro _
          rw [u4, hfe]
        · intro _
          rw [u3, hfe]
          dsimp only
          rw [p3]
        · intro h
          exact absurd hs h
      · have hfe := updateStageFists_neither
          (preFistStages c (x :: xs) now act) (x :: xs) now hd hs
        refine ⟨?_, ?_, ?_, ?_, ?_, ?_⟩
        · rw [u1, hfe, releaseFists_paused]
          exact p1
        · rw [u2, hfe, releaseFists_camera_locked]
          exact p2
        · intro h
          exact absurd h hd
        · intro _
          rw [u4, hfe, releaseFists_dual_hold]
        · intro h
          exact absurd h hs
        · intro _
          rw [u3, hfe, releaseFists_single_hold]

/-- Witness for C8: two fists appearing for the first time at `now = 5`
(measured hold duration `0 < FIST_HOLD_TO_TOGGLE_SEC`) toggle neither
`paused` nor `camera_locked`. -/
theorem fist_debounce_witness :
    (_update_camera_controls initControl [candFistA, candFistB] 5).paused =
      initControl.paused ∧
    (_update_camera_controls initControl [candFistA, candFistB] 5).camera_locked =
      initControl.camera_locked :=
  ⟨(fist_debounce initControl [candFistA, candFistB] 5
      (fun _ => by norm_num [initControl, FIST_HOLD_TO_TOGGLE_SEC])
      (fun h => absurd h.2 (by simp))).1,
   (fist_debounce initControl [candFistA, candFistB] 5
      (fun _ => by norm_num [initControl, FIST_HOLD_TO_TOGGLE_SEC])
      (fun h => absurd h.2 (by simp))).2.1⟩

/-! ## C4: toggle-timestamp projections through the non-fist stages -/

theorem updateStageSources_last_single_toggle_ts (c : CameraControlState) (a : Candidate) :
    (updateStageSources c a).last_single_toggle_ts = c.last_single_toggle_ts := by
  rfl

theorem updateStageZoomLine_last_single_toggle_ts (c : CameraControlState) (zp : Option (Candidate × Candidate × ℝ)) :
    (updateStageZoomLine c zp).last_single_toggle_ts = c.last_single_toggle_ts := by
  cases zp with
  | none => rfl
  | some p => obtain ⟨a, b, m⟩ := p; rfl

theorem updateStageZoomEngine_last_single_toggle_ts (c : CameraControlState) (zp : Option (Candidate × Candidate × ℝ)) :
    (updateStageZoomEngine c zp).last_single_toggle_ts = c.last_single_toggle_ts := by
  unfold updateStageZoomEngine
  cases zp with
  | none => rfl
  | some p =>
    obtain ⟨a, b, m⟩ := p
    dsimp only
    split <;> rfl

theorem updateStageZoomVelocity_last_single_toggle_ts (c : CameraControlState) (zoom_before dt : ℝ) :
    (updateStageZoomVelocity c zoom_before dt).last_single_toggle_ts = c.last_single_toggle_ts := by
  unfold updateStageZoomVelocity
  split <;> rfl

theorem updateStageRotation_last_single_toggle_ts (c : CameraControlState) (zp : Option (Candidate × Candidate × ℝ)) (dt : ℝ) :
    (updateStageRotation c zp dt).last_single_toggle_ts = c.last_single_toggle_ts := by
  unfold updateStageRotation
  dsimp only
  repeat' split
  all_goals rfl

theorem rightPinchBlock_last_single_toggle_ts (c : CameraControlState) (now : ℝ) (za : Bool) :
    (rightPinchBlock c now za).last_single_toggle_ts = c.last_single_toggle_ts := by
  unfold rightPinchBlock
  dsimp only
  repeat' split
  all_goals rfl

theorem leftPinchBlock_last_single_toggle_ts (c : CameraControlState) (now : ℝ) (za : Bool) :
    (leftPinchBlock c now za).last_single_toggle_ts = c.last_single_toggle_ts := by
  unfold leftPinchBlock
  dsimp only
  repeat' split
  all_goals rfl

theorem updateStagePinchSteps_last_single_toggle_ts (c : CameraControlState) (cands : List Candidate) (za : Bool) (now : ℝ) :
    (updateStagePinchSteps c cands za now).last_single_toggle_ts = c.last_single_toggle_ts := by
  unfold updateStagePinchSteps
  dsimp only
  split <;> split <;>
    simp only [leftPinchBlock_last_single_toggle_ts, rightPinchBlock_last_single_toggle_ts]

theorem updateStagePendingResolve_last_single_toggle_ts (c : CameraControlState) (now : ℝ) :
    (updateStagePendingResolve c now).last_single_toggle_ts = c.last_single_toggle_ts := by
  unfold updateStagePendingResolve
  dsimp only
  repeat' split
  all_goals rfl

theorem demoStep_last_single_toggle_ts (x : CameraControlState) (e : ℝ) :
    (if x.paused = false then { x with demo_phase := e } else x).last_single_toggle_ts = x.last_single_toggle_ts := by
  split <;> rfl

theorem _export_live_controls_last_single_toggle_ts (c : CameraControlState) (now : ℝ) :
    (_export_live_controls c now).last_single_toggle_ts = c.last_single_toggle_ts := by
  unfold _export_live_controls
  dsimp only
  split <;> rfl

theorem updateStageSources_last_dual_toggle_ts (c : CameraControlState) (a : Candidate) :
    (updateStageSources c a).last_dual_toggle_ts = c.last_dual_toggle_ts := by
  rfl

theorem updateStageZoomLine_last_dual_toggle_ts (c : CameraControlState) (zp : Option (Candidate × Candidate × ℝ)) :
    (updateStageZoomLine c zp).last_dual_toggle_ts = c.last_dual_toggle_ts := by
  cases zp with
  | none => rfl
  | some p => obtain ⟨a, b, m⟩ := p; rfl

theorem updateStageZoomEngine_last_dual_toggle_ts (c : CameraControlState) (zp : Option (Candidate × Candidate × ℝ)) :
    (updateStageZoomEngine c zp).last_dual_toggle_ts = c.last_dual_toggle_ts := by
  unfold updateStageZoomEngine
  cases zp with
  | none => rfl
  | some p =>
    obtain ⟨a, b, m⟩ := p
    dsimp only
    split <;> rfl

theorem updateStageZoomVelocity_last_dual_toggle_ts (c : CameraControlState) (zoom_before dt : ℝ) :
    (updateStageZoomVelocity c zoom_before dt).last_dual_toggle_ts = c.last_dual_toggle_ts := by
  unfold updateStageZoomVelocity
  split <;> rfl

theorem updateStageRotation_last_dual_toggle_ts (c : CameraControlState) (zp : Option (Candidate × Candidate × ℝ)) (dt : ℝ) :
    (updateStageRotation c zp dt).last_dual_toggle_ts = c.last_dual_toggle_ts := by
  unfold updateStageRotation
  dsimp only
  repeat' split
  all_goals rfl

theorem rightPinchBlock_last_dual_toggle_ts (c : CameraControlState) (now : ℝ) (za : Bool) :
    (rightPinchBlock c now za).last_dual_toggle_ts = c.last_dual_toggle_ts := by
  unfold rightPinchBlock
  dsimp only
  repeat' split
  all_goals rfl

theorem leftPinchBlock_last_dual_toggle_ts (c : CameraControlState) (now : ℝ) (za : Bool) :
    (leftPinchBlock c now za).last_dual_toggle_ts = c.last_dual_toggle_ts := by
  unfold leftPinchBlock
  dsimp only
  repeat' split
  all_goals rfl

theorem updateStagePinchSteps_last_dual_toggle_ts (c : CameraControlState) (cands : List Candidate) (za : Bool) (now : ℝ) :
    (updateStagePinchSteps c cands za now).last_dual_toggle_ts = c.last_dual_toggle_ts := by
  unfold updateStagePinchSteps
  dsimp only
  split <;> split <;>
    simp only [leftPinchBlock_last_dual_toggle_ts, rightPinchBlock_last_dual_toggle_ts]

theorem updateStagePendingResolve_last_dual_toggle_ts (c : CameraControlState) (now : ℝ) :
    (updateStagePendingResolve c now).last_dual_toggle_ts = c.last_dual_toggle_ts := by
  unfold updateStagePendingResolve
  dsimp only
  repeat' split
  all_goals rfl

theorem demoStep_last_dual_toggle_ts (x : CameraControlState) (e : ℝ) :
    (if x.paused = false then { x with demo_phase := e } else x).last_dual_toggle_ts = x.last_dual_toggle_ts := by
  split <;> rfl

theorem _export_live_controls_last_dual_toggle_ts (c : CameraControlState) (now : ℝ) :
    (_export_live_controls c now).last_dual_toggle_ts = c.last_dual_toggle_ts := by
  unfold _export_live_controls
  dsimp only
  split <;> rfl

theorem preFistStages_toggles (c : CameraControlState)
    (cands : List Candidate) (now : ℝ) (act : Candidate) :
    (preFistStages c cands now act).last_single_toggle_ts =
      c.last_single_toggle_ts ∧
    (preFistStages c cands now act).last_dual_toggle_ts =
      c.last_dual_toggle_ts := by
  unfold preFistStages prePinchStages
  simp only [updateStagePinchSteps_last_single_toggle_ts,
    updateStagePinchSteps_last_dual_toggle_ts,
    updateStageRotation_last_single_toggle_ts,
    updateStageRotation_last_dual_toggle_ts,
    updateStageZoomVelocity_last_single_toggle_ts,
    updateStageZoomVelocity_last_dual_toggle_ts,
    updateStageZoomEngine_last_single_toggle_ts,
    updateStageZoomEngine_last_dual_toggle_ts,
    updateStageZoomLine_last_single_toggle_ts,
    updateStageZoomLine_last_dual_toggle_ts,
    updateStageSources_last_single_toggle_ts,
    updateStageSources_last_dual_toggle_ts]
  exact ⟨trivial, trivial⟩

theorem update_via_fistStage_toggles (c : CameraControlState)
    (cands : List Candidate) (now : ℝ) (act : Candidate)
    (hact : _select_control_hand cands = some act) :
    (_update_camera_controls c cands now).last_single_toggle_ts =
      (updateStageFists (preFistStages c cands now act) cands
        now).last_single_toggle_ts ∧
    (_update_camera_controls c cands now).last_dual_toggle_ts =
      (updateStageFists (preFistStages c cands now act) cands
        now).last_dual_toggle_ts := by
  unfold _update_camera_controls preFistStages prePinchStages
  dsimp only
  simp only [hact]
  simp only [_export_live_controls_last_single_toggle_ts,
    _export_live_controls_last_dual_toggle_ts]
  simp only [demoStep_last_single_toggle_ts, demoStep_last_dual_toggle_ts]
  simp only [updateStagePendingResolve_last_single_toggle_ts,
    updateStagePendingResolve_last_dual_toggle_ts]
  exact ⟨trivial, trivial⟩
theorem updateStageFists_single_toggle (c : CameraControlState)
    (cands : List Candidate) (now : ℝ)
    (hd : ¬ fistCount cands ≥ 2)
    (hs : fistCount cands = 1 ∧ cands.length = 1)
    (hh : now - (if c.single_fist_hold_start_ts = 0 then now
      else c.single_fist_hold_start_ts) ≥ FIST_HOLD_TO_TOGGLE_SEC)
    (hcool : now - c.last_single_toggle_ts ≥ FIST_TOGGLE_COOLDOWN_SEC)
    (hlatch : c.single_fist_latched = false) :
    updateStageFists c cands now =
      { c with single_fist_hold_start_ts :=
                 if c.single_fist_hold_start_ts = 0 then now
                 else c.single_fist_hold_start_ts,
               dual_fist_hold_start_ts := 0,
               fist_release_start_ts := 0,
               camera_locked := !c.camera_locked,
               last_single_toggle_ts := now,
               single_fist_latched := true } := by
  unfold updateStageFists
  dsimp only
  rw [if_neg hd, if_pos hs, if_pos ⟨hh, hcool, hlatch⟩]

theorem updateStageFists_dual_toggle (c : CameraControlState)
    (cands : List Candidate) (now : ℝ)
    (hd : fistCount cands ≥ 2)
    (hh : now - (if c.dual_fist_hold_start_ts = 0 then now
      else c.dual_fist_hold_start_ts) ≥ FIST_HOLD_TO_TOGGLE_SEC)
    (hcool : now - c.last_dual_toggle_ts ≥ FIST_TOGGLE_COOLDOWN_SEC)
    (hlatch : c.dual_fist_latched = false) :
    updateStageFists c cands now =
      { c with dual_fist_hold_start_ts :=
                 if c.dual_fist_hold_start_ts = 0 then now
                 else c.dual_fist_hold_start_ts,
               single_fist_hold_start_ts := 0,
               fist_release_start_ts := 0,
               paused := !c.paused,
               last_dual_toggle_ts := now,
               dual_fist_latched := true } := by
  unfold updateStageFists
  dsimp only
  rw [if_pos hd, if_pos ⟨hh, hcool, hlatch⟩]

theorem updateStageFists_cond_release (c : CameraControlState)
    (cands : List Candidate) (now : ℝ)
    (h : fistCount cands ≥ 2 ∨ (fistCount cands = 1 ∧ cands.length = 1)) :
    (updateStageFists c cands now).fist_release_start_ts = 0 := by
  unfold updateStageFists
  dsimp only
  rcases h with hd | hs
  · rw [if_pos hd]
    repeat' split
    all_goals rfl
  · have hd : ¬ fistCount cands ≥ 2 := by
      rw [hs.1]
      norm_num
    rw [if_neg hd, if_pos hs]
    repeat' split
    all_goals rfl

theorem update_fists_single_nohold (c : CameraControlState) (x : Candidate)
    (xs : List Candidate) (now : ℝ)
    (hd : ¬ fistCount (x :: xs) ≥ 2)
    (hs : fistCount (x :: xs) = 1 ∧ (x :: xs).length = 1)
    (hh : ¬ now - (if c.single_fist_hold_start_ts = 0 then now
      else c.single_fist_hold_start_ts) ≥ FIST_HOLD_TO_TOGGLE_SEC)
    :
    (_update_camera_controls c (x :: xs) now).paused =
      c.paused ∧
    (_update_camera_controls c (x :: xs) now).camera_locked =
      c.camera_locked ∧
    (_update_camera_controls c (x :: xs) now).single_fist_latched =
      c.single_fist_latched ∧
    (_update_camera_controls c (x :: xs) now).dual_fist_latched =
      c.dual_fist_latched ∧
    (_update_camera_controls c (x :: xs) now).single_fist_hold_start_ts =
      (if c.single_fist_hold_start_ts = 0 then now
       else c.single_fist_hold_start_ts) ∧
    (_update_camera_controls c (x :: xs) now).dual_fist_hold_start_ts =
      0 ∧
    (_update_camera_controls c (x :: xs) now).fist_release_start_ts =
      0 ∧
    (_update_camera_controls c (x :: xs) now).last_single_toggle_ts =
      c.last_single_toggle_ts ∧
    (_update_camera_controls c (x :: xs) now).last_dual_toggle_ts =
      c.last_dual_toggle_ts := by
  obtain ⟨act, hact⟩ := select_cons_isSome x xs
  obtain ⟨u1, u2, u3, u4, u5, u6, u7⟩ :=
    update_via_fistStage c (x :: xs) now act hact
  obtain ⟨v1, v2⟩ := update_via_fistStage_toggles c (x :: xs) now act hact
  obtain ⟨p1, p2, p3, p4, p5, p6, p7⟩ :=
    preFistStages_fields c (x :: xs) now act
  obtain ⟨q1, q2⟩ := preFistStages_toggles c (x :: xs) now act
  have hh2 : ¬ now -
      (if (preFistStages c (x :: xs) now act).single_fist_hold_start_ts = 0
       then now
       else (preFistStages c (x :: xs) now act).single_fist_hold_start_ts) ≥
      FIST_HOLD_TO_TOGGLE_SEC := by
    rw [p3]
    exact hh
  have hfe := updateStageFists_single_nohold
    (preFistStages c (x :: xs) now act) (x :: xs) now hd hs hh2
  refine ⟨?_, ?_, ?_, ?_, ?_, ?_, ?_, ?_, ?_⟩
  · rw [u1, hfe]
    exact p1
  · rw [u2, hfe]
    exact p2
  · rw [u5, hfe]
    exact p5
  · rw [u6, hfe]
    exact p6
  · rw [u3, hfe]
    dsimp only
    rw [p3]
  · rw [u4, hfe]
  · rw [u7, hfe]
  · rw [v1, hfe]
    exact q1
  · rw [v2, hfe]
    exact q2

theorem update_fists_single_toggle (c : CameraControlState) (x : Candidate)
    (xs : List Candidate) (now : ℝ)
    (hd : ¬ fistCount (x :: xs) ≥ 2)
    (hs : fistCount (x :: xs) = 1 ∧ (x :: xs).length = 1)
    (hh : now - (if c.single_fist_hold_start_ts = 0 then now
      else c.single_fist_hold_start_ts) ≥ FIST_HOLD_TO_TOGGLE_SEC)
    (hcool : now - c.last_single_toggle_ts ≥ FIST_TOGGLE_COOLDOWN_SEC)
    (hlatch : c.single_fist_latched = false)
    :
    (_update_camera_controls c (x :: xs) now).paused =
      c.paused ∧
    (_update_camera_controls c (x :: xs) now).camera_locked =
      !c.camera_locked ∧
    (_update_camera_controls c (x :: xs) now).single_fist_latched =
      true ∧
    (_update_camera_controls c (x :: xs) now).dual_fist_latched =
      c.dual_fist_latched ∧
    (_update_camera_controls c (x :: xs) now).single_fist_hold_start_ts =
      (if c.single_fist_hold_start_ts = 0 then now
       else c.single_fist_hold_start_ts) ∧
    (_update_camera_controls c (x :: xs) now).dual_fist_hold_start_ts =
      0 ∧
    (_update_camera_controls c (x :: xs) now).fist_release_start_ts =
      0 ∧
    (_update_camera_controls c (x :: xs) now).last_single_toggle_ts =
      now ∧
    (_update_camera_controls c (x :: xs) now).last_dual_toggle_ts =
      c.last_dual_toggle_ts := by
  obtain ⟨act, hact⟩ := select_cons_isSome x xs
  obtain ⟨u1, u2, u3, u4, u5, u6, u7⟩ :=
    update_via_fistStage c (x :: xs) now act hact
  obtain ⟨v1, v2⟩ := update_via_fistStage_toggles c (x :: xs) now act hact
  obtain ⟨p1, p2, p3, p4, p5, p6, p7⟩ :=
    preFistStages_fields c (x :: xs) now act
  obtain ⟨q1, q2⟩ := preFistStages_toggles c (x :: xs) now act
  have hh2 : now -
      (if (preFistStages c (x :: xs) now act).single_fist_hold_start_ts = 0
       then now
       else (preFistStages c (x :: xs) now act).single_fist_hold_start_ts) ≥
      FIST_HOLD_TO_TOGGLE_SEC := by
    rw [p3]
    exact hh
  have hcool2 : now - (preFistStages c (x :: xs) now act).last_single_toggle_ts ≥
      FIST_TOGGLE_COOLDOWN_SEC := by
    rw [q1]
    exact hcool
  have hlatch2 : (preFistStages c (x :: xs) now act).single_fist_latched = false := by
    rw [p5]
    exact hlatch
  have hfe := updateStageFists_single_toggle
    (preFistStages c (x :: xs) now act) (x :: xs) now hd hs hh2 hcool2 hlatch2
  refine ⟨?_, ?_, ?_, ?_, ?_, ?_, ?_, ?_, ?_⟩
  · rw [u1, hfe]
    exact p1
  · rw [u2, hfe]
    dsimp only
    rw [p2]
  · rw [u5, hfe]
  · rw [u6, hfe]
    exact p6
  · rw [u3, hfe]
    dsimp only
    rw [p3]
  · rw [u4, hfe]
  · rw [u7, hfe]
  · rw [v1, hfe]
  · rw [v2, hfe]
    exact q2

theorem update_fists_dual_nohold (c : CameraControlState) (x : Candidate)
    (xs : List Candidate) (now : ℝ)
    (hd : fistCount (x :: xs) ≥ 2)
    (hh : ¬ now - (if c.dual_fist_hold_start_ts = 0 then now
      else c.dual_fist_hold_start_ts) ≥ FIST_HOLD_TO_TOGGLE_SEC)
    :
    (_update_camera_controls c (x :: xs) now).paused =
      c.paused ∧
    (_update_camera_controls c (x :: xs) now).camera_locked =
      c.camera_locked ∧
    (_update_camera_controls c (x :: xs) now).single_fist_latched =
      c.single_fist_latched ∧
    (_update_camera_controls c (x :: xs) now).dual_fist_latched =
      c.dual_fist_latched ∧
    (_update_camera_controls c (x :: xs) now).single_fist_hold_start_ts =
      0 ∧
    (_update_camera_controls c (x :: xs) now).dual_fist_hold_start_ts =
      (if c.dual_fist_hold_start_ts = 0 then now
       else c.dual_fist_hold_start_ts) ∧
    (_update_camera_controls c (x :: xs) now).fist_release_start_ts =
      0 ∧
    (_update_camera_controls c (x :: xs) now).last_single_toggle_ts =
      c.last_single_toggle_ts ∧
    (_update_camera_controls c (x :: xs) now).last_dual_toggle_ts =
      c.last_dual_toggle_ts := by
  obtain ⟨act, hact⟩ := select_cons_isSome x xs
  obtain ⟨u1, u2, u3, u4, u5, u6, u7⟩ :=
    update_via_fistStage c (x :: xs) now act hact
  obtain ⟨v1, v2⟩ := update_via_fistStage_toggles c (x :: xs) now act hact
  obtain ⟨p1, p2, p3, p4, p5, p6, p7⟩ :=
    preFistStages_fields c (x :: xs) now act
  obtain ⟨q1, q2⟩ := preFistStages_toggles c (x :: xs) now act
  have hh2 : ¬ now -
      (if (preFistStages c (x :: xs) now act).dual_fist_hold_start_ts = 0
       then now
       else (preFistStages c (x :: xs) now act).dual_fist_hold_start_ts) ≥
      FIST_HOLD_TO_TOGGLE_SEC := by
    rw [p4]
    exact hh
  have hfe := updateStageFists_dual_nohold
    (preFistStages c (x :: xs) now act) (x :: xs) now hd hh2
  refine ⟨?_, ?_, ?_, ?_, ?_, ?_, ?_, ?_, ?_⟩
  · rw [u1, hfe]
    exact p1
  · rw [u2, hfe]
    exact p2
  · rw [u5, hfe]
    exact p5
  · rw [u6, hfe]
    exact p6
  · rw [u3, hfe]
  · rw [u4, hfe]
    dsimp only
    rw [p4]
  · rw [u7, hfe]
  · rw [v1, hfe]
    exact q1
  · rw [v2, hfe]
    exact q2

theorem update_fists_dual_toggle (c : CameraControlState) (x : Candidate)
    (xs : List Candidate) (now : ℝ)
    (hd : fistCount (x :: xs) ≥ 2)
    (hh : now - (if c.dual_fist_hold_start_ts = 0 then now
      else c.dual_fist_hold_start_ts) ≥ FIST_HOLD_TO_TOGGLE_SEC)
    (hcool : now - c.last_dual_toggle_ts ≥ FIST_TOGGLE_COOLDOWN_SEC)
    (hlatch : c.dual_fist_latched = false)
    :
    (_update_camera_controls c (x :: xs) now).paused =
      !c.paused ∧
    (_update_camera_controls c (x :: xs) now).camera_locked =
      c.camera_locked ∧
    (_update_camera_controls c (x :: xs) now).single_fist_latched =
      c.single_fist_latched ∧
    (_update_camera_controls c (x :: xs) now).dual_fist_latched =
      true ∧
    (_update_camera_controls c (x :: xs) now).single_fist_hold_start_ts =
      0 ∧
    (_update_camera_controls c (x :: xs) now).dual_fist_hold_start_ts =
      (if c.dual_fist_hold_start_ts = 0 then now
       else c.dual_fist_hold_start_ts) ∧
    (_update_camera_controls c (x :: xs) now).fist_release_start_ts =
      0 ∧
    (_update_camera_controls c (x :: xs) now).last_single_toggle_ts =
      c.last_single_toggle_ts ∧
    (_update_camera_controls c (x :: xs) now).last_dual_toggle_ts =
      now := by
  obtain ⟨act, hact⟩ := select_cons_isSome x xs
  obtain ⟨u1, u2, u3, u4, u5, u6, u7⟩ :=
    update_via_fistStage c (x :: xs) now act hact
  obtain ⟨v1, v2⟩ := update_via_fistStage_toggles c (x :: xs) now act hact
  obtain ⟨p1, p2, p3, p4, p5, p6, p7⟩ :=
    preFistStages_fields c (x :: xs) now act
  obtain ⟨q1, q2⟩ := preFistStages_toggles c (x :: xs) now act
  have hh2 : now -
      (if (preFistStages c (x :: xs) now act).dual_fist_hold_start_ts = 0
       then now
       else (preFistStages c (x :: xs) now act).dual_fist_hold_start_ts) ≥
      FIST_HOLD_TO_TOGGLE_SEC := by
    rw [p4]
    exact hh
  have hcool2 : now - (preFistStages c (x :: xs) now act).last_dual_toggle_ts ≥
      FIST_TOGGLE_COOLDOWN_SEC := by
    rw [q2]
    exact hcool
  have hlatch2 : (preFistStages c (x :: xs) now act).dual_fist_latched = false := by
    rw [p6]
    exact hlatch
  have hfe := updateStageFists_dual_toggle
    (preFistStages c (x :: xs) now act) (x :: xs) now hd hh2 hcool2 hlatch2
  refine ⟨?_, ?_, ?_, ?_, ?_, ?_, ?_, ?_, ?_⟩
  · rw [u1, hfe]
    dsimp only
    rw [p1]
  · rw [u2, hfe]
    exact p2
  · rw [u5, hfe]
    exact p5
  · rw [u6, hfe]
  · rw [u3, hfe]
  · rw [u4, hfe]
    dsimp only
    rw [p4]
  · rw [u7, hfe]
  · rw [v1, hfe]
    exact q1
  · rw [v2, hfe]
theorem fistCount_fistSolo : fistCount [candFistA] = 1 := by
  norm_num [fistCount, List.filter, candFistA, dec_fist_fist]

/-- C4 counterexample: the single-fist machine latches `camera_locked` at
`t = 1.3` (hold since `t = 1`); from `t = 1.4` on the single-fist condition
is continuously absent (two fists are shown instead) for `1.1 s`, far more
than `FIST_RELEASE_RESET_SEC = 0.25 s`, yet after the `t = 2.5` frame
`single_fist_latched` is still `true`: each dual-fist frame zeroes the one
shared `fist_release_start_ts`, so the single-fist machine's release clock
never runs. -/
theorem fist_release_counterexample :
    (runFrames initControl
      [([candFistA], 1), ([candFistA], 1.3)]).single_fist_latched = true ∧
    ¬ (fistCount [candFistA, candFistB] = 1 ∧
        ([candFistA, candFistB] : List Candidate).length = 1) ∧
    (2.5 : ℝ) - 1.4 ≥ FIST_RELEASE_RESET_SEC ∧
    (runFrames initControl
      [([candFistA], 1), ([candFistA], 1.3), ([candFistA, candFistB], 1.4),
        ([candFistA, candFistB], 2.5)]).single_fist_latched = true := by
  have hrw2 : runFrames initControl [([candFistA], 1), ([candFistA], 1.3)] =
      _update_camera_controls
        (_update_camera_controls initControl [candFistA] 1)
        [candFistA] 1.3 := rfl
  have hrw4 : runFrames initControl
      [([candFistA], 1), ([candFistA], 1.3), ([candFistA, candFistB], 1.4),
        ([candFistA, candFistB], 2.5)] =
      _update_camera_controls
        (_update_camera_controls
          (_update_camera_controls
            (_update_camera_controls initControl [candFistA] 1)
            [candFistA] 1.3)
          [candFistA, candFistB] 1.4)
        [candFistA, candFistB] 2.5 := rfl
  rw [hrw2, hrw4]
  have hs1 : fistCount [candFistA] = 1 ∧
      ([candFistA] : List Candidate).length = 1 := ⟨fistCount_fistSolo, rfl⟩
  have hd1 : ¬ fistCount [candFistA] ≥ 2 := by
    rw [fistCount_fistSolo]
    norm_num
  obtain ⟨a1, a2, a3, a4, a5, a6, a7, a8, a9⟩ :=
    update_fists_single_nohold initControl candFistA [] 1 hd1 hs1
      (by norm_num [initControl, FIST_HOLD_TO_TOGGLE_SEC])
  obtain ⟨b1, b2, b3, b4, b5, b6, b7, b8, b9⟩ :=
    update_fists_single_toggle
      (_update_camera_controls initControl [candFistA] 1)
      candFistA [] 1.3 hd1 hs1
      (by rw [a5]; norm_num [initControl, FIST_HOLD_TO_TOGGLE_SEC])
      (by rw [a8]; norm_num [initControl, FIST_TOGGLE_COOLDOWN_SEC])
      (by rw [a3]; norm_num [initControl])
  have hd3 : fistCount [candFistA, candFistB] ≥ 2 := by
    rw [fistCount_fistPair]
  have hs3 : ¬ (fistCount [candFistA, candFistB] = 1 ∧
      ([candFistA, candFistB] : List Candidate).length = 1) := by
    intro h
    rw [fistCount_fistPair] at h
    exact absurd h.1 (by norm_num)
  obtain ⟨c1, c2, c3, c4, c5, c6, c7, c8, c9⟩ :=
    update_fists_dual_nohold
      (_update_camera_controls
        (_update_camera_controls initControl [candFistA] 1)
        [candFistA] 1.3)
      candFistA [candFistB] 1.4 hd3
      (by rw [b6]; norm_num [FIST_HOLD_TO_TOGGLE_SEC])
  obtain ⟨d1, d2, d3, d4, d5, d6, d7, d8, d9⟩ :=
    update_fists_dual_toggle
      (_update_camera_controls
        (_update_camera_controls
          (_update_camera_controls initControl [candFistA] 1)
          [candFistA] 1.3)
        [candFistA, candFistB] 1.4)
      candFistA [candFistB] 2.5 hd3
      (by rw [c6, b6]; norm_num [FIST_HOLD_TO_TOGGLE_SEC])
      (by rw [c9, b9, a9]; norm_num [initControl, FIST_TOGGLE_COOLDOWN_SEC])
      (by rw [c4, b4, a4]; norm_num [initControl])
  refine ⟨b3, hs3, by norm_num [FIST_RELEASE_RESET_SEC], ?_⟩
  rw [d3, c3]
  exact b3

/-- C4 (amended): the two hold-to-toggle fist machines share ONE
release-reset clock, `fist_release_start_ts`.  Part 1: on any frame where
NEITHER machine's condition is met, the shared clock is started (set to
`now`) if it was clear and kept running otherwise, and once it has run for
`FIST_RELEASE_RESET_SEC` BOTH latches clear together.  Part 2: on any frame
where EITHER machine's condition is met, the shared clock is zeroed — so
frames satisfying only the other machine's condition keep resetting this
machine's release clock, which is why the original per-machine-clock claim
fails. -/
theorem fist_release_shared_clock :
    (∀ (c : CameraControlState) (cands : List Candidate) (now : ℝ),
      ¬ fistCount cands ≥ 2 →
      ¬ (fistCount cands = 1 ∧ cands.length = 1) →
      ((_update_camera_controls c cands now).fist_release_start_ts =
        if c.fist_release_start_ts = 0 then now
        else c.fist_release_start_ts) ∧
      (c.fist_release_start_ts ≠ 0 →
        now - c.fist_release_start_ts ≥ FIST_RELEASE_RESET_SEC →
        (_update_camera_controls c cands now).single_fist_latched = false ∧
        (_update_camera_controls c cands now).dual_fist_latched = false)) ∧
    (∀ (c : CameraControlState) (cands : List Candidate) (now : ℝ),
      fistCount cands ≥ 2 ∨ (fistCount cands = 1 ∧ cands.length = 1) →
      (_update_camera_controls c cands now).fist_release_start_ts = 0) := by
  constructor
  · intro c cands now hd hs
    rcases cands with _ | ⟨x, xs⟩
    · obtain ⟨u1, u2, u3, u4, u5, u6, u7⟩ := update_none_fists c [] now rfl
      constructor
      · rw [u7, releaseFists_release_ts]
      · intro h0 hge
        obtain ⟨r1, r2⟩ := releaseFists_latches_expired c now h0 hge
        exact ⟨u5.trans r1, u6.trans r2⟩
    · obtain ⟨act, hact⟩ := select_cons_isSome x xs
      obtain ⟨u1, u2, u3, u4, u5, u6, u7⟩ :=
        update_via_fistStage c (x :: xs) now act hact
      obtain ⟨p1, p2, p3, p4, p5, p6, p7⟩ :=
        preFistStages_fields c (x :: xs) now act
      have hfe := updateStageFists_neither
        (preFistStages c (x :: xs) now act) (x :: xs) now hd hs
      constructor
      · rw [u7, hfe, releaseFists_release_ts, p7]
      · intro h0 hge
        have h0x : (preFistStages c (x :: xs) now act).fist_release_start_ts ≠ 0 := by
          rw [p7]
          exact h0
        have hgex : now - (preFistStages c (x :: xs) now act).fist_release_start_ts ≥
            FIST_RELEASE_RESET_SEC := by
          rw [p7]
          exact hge
        obtain ⟨r1, r2⟩ := releaseFists_latches_expired
          (preFistStages c (x :: xs) now act) now h0x hgex
        constructor
        · rw [u5, hfe]
          exact r1
        · rw [u6, hfe]
          exact r2
  · intro c cands now h
    rcases cands with _ | ⟨x, xs⟩
    · rcases h with h | h
      · rw [show fistCount ([] : List Candidate) = 0 from rfl] at h
        exact absurd h (by norm_num)
      · rw [show fistCount ([] : List Candidate) = 0 from rfl] at h
        exact absurd h.1 (by norm_num)
    · obtain ⟨act, hact⟩ := select_cons_isSome x xs
      obtain ⟨u1, u2, u3, u4, u5, u6, u7⟩ :=
        update_via_fistStage c (x :: xs) now act hact
      rw [u7]
      exact updateStageFists_cond_release (preFistStages c (x :: xs) now act)
        (x :: xs) now h

/-- Witness for `fist_release_shared_clock` at concrete inputs: a frame
with no hands at `now = 5` starts the shared release clock from the default
state, and a dual-fist frame at `now = 5` zeroes it. -/
theorem fist_release_shared_clock_witness :
    (_update_camera_controls initControl [] 5).fist_release_start_ts = 5 ∧
    (_update_camera_controls initControl [candFistA, candFistB]
      5).fist_release_start_ts = 0 :=
  ⟨((fist_release_shared_clock.1 initControl [] 5
      (by rw [show fistCount ([] : List Candidate) = 0 from rfl]; norm_num)
      (by
        intro h
        rw [show fistCount ([] : List Candidate) = 0 from rfl] at h
        exact absurd h.1 (by norm_num))).1).trans (by norm_num [initControl]),
   fist_release_shared_clock.2 initControl [candFistA, candFistB] 5
     (Or.inl (by rw [fistCount_fistPair]))⟩
